import Mathlib

/-!
# FMOD sound renderer (src/sound/fmodsound.cpp): channel restart, clock and listener bookkeeping

A shallow embedding of the parts of `FMODSoundRenderer` that start and restart
channels (`StartSound`, `StartSound3D`, `HandleChannelDelay`,
`CommonChannelSetup`), keep the DSP clock (`Sync`, `UpdateSounds`), track
the listener (`UpdateListener`), build the DSP graph (`Init`), pause sound
effects (`SetSfxPaused`), create callback streams (`CreateStream`) and convert
reverb properties (`SetSystemReverbProperties`), and of the music stream
`FMODStreamCapsule`.

The FMOD engine is outside the program.  Every answer the engine gives to a
query is an input of the model (the `...Replies` structures), and every command
the program sends to the engine is recorded, in order, in a list of
`EngineCall`s.  Queries (`get...`) do not change the engine and are not
recorded.

Machine integers are natural numbers or integers reduced modulo `2^32` or
`2^64` where the C++ types wrap.  `float` and `double` values are rationals;
every arithmetic operation and conversion rounds its exact result to the
nearest representable value (ties to even), as IEEE 754 prescribes.  Overflow
to infinity is not represented; a division by zero, whose result is not
finite, is.  `SetSystemReverbProperties` computes with values that can
overflow or be NaN, and the console variable `snd_waterlp` can be assigned any
`float`; their `float`s are of the type `XFloat`, which has the infinities and
NaN.
-/

namespace FMODSound

/-! ## Floating point -/

/-- Nearest integer to `q`, a tie going to the even neighbour. -/
def roundNE (q : ℚ) : ℤ :=
  let f := ⌊q⌋
  let r := q - f
  if r < 1 / 2 then f
  else if 1 / 2 < r then f + 1
  else if f % 2 = 0 then f else f + 1

/-- Number of binary digits of `n`; `fuel` bounds the recursion and `n`
itself is always enough. -/
def bitLength : ℕ → ℕ → ℕ
  | 0, _ => 0
  | fuel + 1, n => if n = 0 then 0 else bitLength fuel (n / 2) + 1

/-- The exponent `k` with `2^k ≤ |x| < 2^(k+1)`, for `x ≠ 0`. -/
def ilog2 (x : ℚ) : ℤ :=
  let k : ℤ := (bitLength x.num.natAbs x.num.natAbs : ℤ) - (bitLength x.den x.den : ℤ)
  if (2 : ℚ) ^ k ≤ |x| then k else k - 1

/-- Nearest value to `x` with a significand of `p` bits and a last-place
exponent of at least `emin` (where the subnormal numbers begin). -/
def fround (p : ℕ) (emin : ℤ) (x : ℚ) : ℚ :=
  if x = 0 then 0
  else
    let e := max (ilog2 x - ((p : ℤ) - 1)) emin
    (roundNE (x / (2 : ℚ) ^ e) : ℚ) * (2 : ℚ) ^ e

/-- Rounding to `float` (IEEE 754 binary32). -/
def f32 (x : ℚ) : ℚ := fround 24 (-149) x

/-- Rounding to `double` (IEEE 754 binary64). -/
def f64 (x : ℚ) : ℚ := fround 53 (-1074) x

/-! ## Machine integers -/

/-- Value of an `int` converted to `unsigned int`. -/
def toU32 (x : ℤ) : ℕ := (x % 2 ^ 32).toNat

/-- Value of an `int` converted to `unsigned long long`. -/
def toU64 (x : ℤ) : ℕ := (x % 2 ^ 64).toNat

/-- The union of one 64-bit value `AsOne` with its two 32-bit halves `Lo` and
`Hi`; the halves are what is stored. -/
structure QWORD_UNION where
  Lo : ℕ
  Hi : ℕ
  deriving DecidableEq, Repr

/-- Reading the 32-bit member `Lo`. -/
def QWORD_UNION.lo (q : QWORD_UNION) : ℕ := q.Lo % 2 ^ 32

/-- Reading the 32-bit member `Hi`. -/
def QWORD_UNION.hi (q : QWORD_UNION) : ℕ := q.Hi % 2 ^ 32

/-- Reading the 64-bit member `AsOne`. -/
def QWORD_UNION.AsOne (q : QWORD_UNION) : ℕ := q.hi * 2 ^ 32 + q.lo

/-- Writing the member `AsOne`: a 64-bit store. -/
def QWORD_UNION.setAsOne (v : ℕ) : QWORD_UNION :=
  { Lo := v % 2 ^ 64 % 2 ^ 32, Hi := v % 2 ^ 64 / 2 ^ 32 }

/-- The two stores `x.Lo = v & 0xFFFFFFFF; x.Hi = v >> 32;` of a 64-bit `v`. -/
def QWORD_UNION.ofHalves (v : ℕ) : QWORD_UNION :=
  { Lo := (v % 2 ^ 64) &&& 0xFFFFFFFF, Hi := ((v % 2 ^ 64) >>> 32) % 2 ^ 32 }

/-! ## Constants declared outside the file

The flag bits of `i_sound.h` and `fmod.h`, `TICRATE` of `doomdef.h` and
whether `assert` is compiled in are not fixed by this file; they are
parameters of the model. -/

/-- Build constants the code names but does not define. -/
structure Consts where
  SNDF_LOOP : ℕ
  SNDF_NOPAUSE : ℕ
  SNDF_AREA : ℕ
  SNDF_ABSTIME : ℕ
  SNDF_NOREVERB : ℕ
  FMOD_LOOP_OFF : ℕ
  FMOD_LOOP_NORMAL : ℕ
  FMOD_LOOP_BIDI : ℕ
  FMOD_2D : ℕ
  FMOD_3D : ℕ
  FMOD_SOFTWARE : ℕ
  TICRATE : ℤ
  /-- True when `NDEBUG` is defined, so that `assert` does nothing. -/
  NDEBUG : Bool

/-- The values the constants have in ZDoom and FMOD Ex, in a debug build. -/
def zdoomConsts : Consts :=
  { SNDF_LOOP := 1, SNDF_NOPAUSE := 2, SNDF_AREA := 4, SNDF_ABSTIME := 8,
    SNDF_NOREVERB := 16,
    FMOD_LOOP_OFF := 1, FMOD_LOOP_NORMAL := 2, FMOD_LOOP_BIDI := 4,
    FMOD_2D := 8, FMOD_3D := 16, FMOD_SOFTWARE := 64,
    TICRATE := 35, NDEBUG := false }

/-- Clearing in `mode` the bits of `mask`: `mode & ~mask` on 32-bit words. -/
def clearBits (mode mask : ℕ) : ℕ := mode &&& (mask ^^^ 0xFFFFFFFF)

/-! ## Data model -/

/-- Ways a call can end without returning. -/
inductive Fault where
  /-- An `assert` failed. -/
  | assertFailed
  /-- The C++ standard gives the operation no meaning (integer division by
  zero, conversion of an out-of-range floating value to an integer). -/
  | undefinedBehaviour
  deriving DecidableEq, Repr

/-- A vector of three `float`s. -/
structure FVector3 where
  X : ℚ
  Y : ℚ
  Z : ℚ
  deriving DecidableEq

/-- Componentwise `float` subtraction. -/
def FVector3.sub (a b : FVector3) : FVector3 :=
  { X := f32 (a.X - b.X), Y := f32 (a.Y - b.Y), Z := f32 (a.Z - b.Z) }

/-- The sum `X*X + Y*Y + Z*Z` in `float` arithmetic. -/
def FVector3.LengthSquared (a : FVector3) : ℚ :=
  f32 (f32 (f32 (a.X * a.X) + f32 (a.Y * a.Y)) + f32 (a.Z * a.Z))

/-- The exact squared distance between two points, in rational arithmetic:
the quantity that `(a - b).LengthSquared()` computes in `float` arithmetic. -/
def FVector3.distSquared (a b : FVector3) : ℚ :=
  (a.X - b.X) ^ 2 + (a.Y - b.Y) ^ 2 + (a.Z - b.Z) ^ 2

/-- Rolloff description of a sound (declared in `s_sound.h`); this file only
copies it and hands it to `S_GetRolloff`. -/
structure FRolloffInfo where
  RolloffType : ℤ
  MinDistance : ℚ
  MaxDistance : ℚ
  deriving DecidableEq

/-- Address of a game channel (`FISoundChannel *`). -/
abbrev ChanPtr := ℕ

/-- Handle of an engine channel (`FMOD::Channel *`). -/
abbrev SysChan := ℕ

/-- The game's record of one playing sound (the fields this file uses). -/
structure FISoundChannel where
  /-- Engine channel, `none` for `NULL`. -/
  SysChannel : Option SysChan
  StartTime : QWORD_UNION
  Rolloff : FRolloffInfo
  DistanceScale : ℚ
  deriving DecidableEq

/-- The game channels in memory. -/
abbrev Heap := ChanPtr → FISoundChannel

/-- Address of a reverb environment (`ReverbContainer *`). -/
abbrev EnvPtr := ℕ

/-- The reverb parameters of an environment that `SetSystemReverbProperties`
reads. -/
structure REVERB_PROPERTIES where
  Room : ℤ
  RoomHF : ℤ
  RoomLF : ℤ
  DecayTime : ℚ
  DecayHFRatio : ℚ
  DecayLFRatio : ℚ
  Reflections : ℤ
  ReflectionsDelay : ℚ
  Reverb : ℤ
  ReverbDelay : ℚ
  HFReference : ℚ
  Diffusion : ℚ
  Density : ℚ
  deriving DecidableEq

/-- A reverb environment (the fields this file uses). -/
structure ReverbContainer where
  Properties : REVERB_PROPERTIES
  Modified : Bool
  SoftwareWater : Bool
  deriving DecidableEq

/-- The listener. -/
structure SoundListener where
  position : FVector3
  velocity : FVector3
  angle : ℚ
  underwater : Bool
  valid : Bool
  /-- The environment the listener is in, `none` for `NULL`. -/
  Environment : Option EnvPtr
  deriving DecidableEq

/-- The two channel groups a sound can be played in. -/
inductive Group where
  | SfxGroup
  | PausableSfx
  deriving DecidableEq, Repr

/-- Commands sent to one engine channel. -/
inductive ChannelCmd where
  | setMode (mode : ℕ)
  | setFrequency (freq : ℚ)
  | setVolume (vol : ℚ)
  | set3DAttributes (pos vel : FVector3)
  | set3DLevel (level : ℚ)
  | setMixLevelsOutput (level : ℚ)
  /-- The call `setPosition(pos, FMOD_TIMEUNIT_PCM)`. -/
  | setPositionPCM (pos : ℕ)
  /-- The call `setPosition(pos, FMOD_TIMEUNIT_MS)`. -/
  | setPositionMS (pos : ℕ)
  | setReverbProperties (instance_ : ℕ) (wet : ℚ)
  | setPaused (paused : Bool)
  | setUserData (schan : ChanPtr)
  | setCallback
  | stop
  deriving DecidableEq

/-- Commands sent to the engine. -/
inductive EngineCall where
  | playSound (group : Group) (paused : Bool)
  | setDefaults (freq : ℚ) (priority : ℤ)
  | channel (chan : SysChan) (cmd : ChannelCmd)
  | lockDSP
  | unlockDSP
  | update
  | set3DListenerAttributes (pos vel forward up : FVector3)
  /-- The call `Sys->setReverbProperties` made by `SetSystemReverbProperties`
  for the given environment properties. -/
  | setSystemReverbProperties (props : REVERB_PROPERTIES)
  | PausableSfx_setPitch (pitch : ℚ)
  | WaterLP_setParameterFloat (cutoff : ℚ)
  | WaterLP_setActive (active : Bool)
  | WaterReverb_setActive (active : Bool)
  | WaterReverb_setBypass (bypass : Bool)
  | SfxConnection_setMix (mix : ℚ)
  | TargetUnit_disconnectFrom (unit : ℕ)
  | Placeholder_addInput (unit : ℕ)
  deriving DecidableEq

/-- Answers of an engine channel to the queries and seeks made on it. -/
structure ChannelReplies where
  /-- Handle of the channel. -/
  handle : SysChan
  /-- Mode reported by `getMode`, `none` when the call fails. -/
  getMode : Option ℕ
  /-- The 64-bit value `getDelay` leaves in its first argument. -/
  getDelay : ℕ
  /-- Outcome of `getCurrentSound` followed by `getLength(.., FMOD_TIMEUNIT_MS)`:
  `none` when `getCurrentSound` fails, `some none` when `getLength` fails,
  `some (some len)` when both succeed. -/
  getCurrentSound : Option (Option ℕ)
  /-- Whether `setPosition` returns `FMOD_OK`. -/
  setPositionOK : Bool
  /-- Level reported by `get3DLevel`, `none` when the call fails. -/
  get3DLevel : Option ℚ
  /-- The 64-bit value `getDSPClock` leaves in its first argument. -/
  getDSPClock : ℕ

/-- Answers of a sound (`FMOD::Sound`) and of `playSound` for it. -/
structure SoundReplies where
  /-- Default frequency and priority from `getDefaults`, `none` on failure. -/
  getDefaults : Option (ℚ × ℤ)
  /-- Channel count from `getFormat`, `none` on failure. -/
  getFormat : Option ℤ
  /-- The channel `playSound` creates, `none` when `playSound` fails. -/
  playSound : Option ChannelReplies

/-- The members of `FMODSoundRenderer` and the static variables of the file
that the modelled functions read or write. -/
structure Renderer where
  OutputRate : ℤ
  DSPClock : QWORD_UNION
  DSPLocked : Bool
  SfxReverbHooked : Bool
  LastWaterLP : ℚ
  /-- Whether each of these pointers is non-`NULL`. -/
  WaterLP : Bool
  WaterReverb : Bool
  SfxConnection : Bool
  ChannelGroupTargetUnit : Bool
  SfxReverbPlaceholder : Bool
  PrevEnvironment : Option EnvPtr
  GRolloff : Option FRolloffInfo
  GDistScale : ℚ
  deriving DecidableEq

/-- Functions defined outside the file (the C library, `s_sound.cpp`). -/
structure Externals where
  /-- The C function `sqrt` on `double`. -/
  sqrt : ℚ → ℚ
  /-- The C functions `cosf` and `sinf`. -/
  cosf : ℚ → ℚ
  sinf : ℚ → ℚ
  /-- Address of the game channel `S_GetChannel` returns. -/
  S_GetChannel : ChanPtr
  /-- Contents of that game channel when `S_GetChannel` returns. -/
  S_GetChannelInit : FISoundChannel

/-- Console variables read by the modelled functions, and the forced
environment. -/
structure CVars where
  snd_pitched : Bool
  snd_waterlp : ℚ
  snd_waterreverb : Bool
  ForcedEnvironment : Option EnvPtr
  /-- The pointer `DefaultEnvironments[0]`. -/
  DefaultEnvironment0 : EnvPtr

/-! ## Restarting a channel -/

/-- What `HandleChannelDelay` returns and leaves behind. -/
structure DelayResult where
  ret : Bool
  heap : Heap
  calls : List EngineCall

/-- The function `FMODSoundRenderer::HandleChannelDelay` (lines 1795-1847). -/
def HandleChannelDelay (K : Consts) (r : Renderer) (h : Heap) (chan : ChannelReplies)
    (reuse_chan : Option ChanPtr) (flags : ℕ) (freq : ℚ) : Except Fault DelayResult :=
  match reuse_chan with
  | some p =>
    let nowtime := QWORD_UNION.ofHalves chan.getDelay
    if flags &&& K.SNDF_ABSTIME ≠ 0 then
      let seekpos : ℕ := (h p).StartTime.lo
      let calls : List EngineCall :=
        if seekpos > 0 then [.channel chan.handle (.setPositionPCM seekpos)] else []
      -- seekpos * OutputRate is a product of unsigned int
      let prod : ℕ := (seekpos * toU32 r.OutputRate) % 2 ^ 32
      if freq = 0 then .error .undefinedBehaviour
      else
        let quot : ℚ := f32 (f32 (prod : ℚ) / freq)
        let d : ℚ := f32 (f32 (nowtime.AsOne : ℚ) - quot)
        -- QWORD(d) truncates toward zero and has no meaning out of range
        if d ≤ -1 ∨ 2 ^ 64 ≤ d then .error .undefinedBehaviour
        else
          .ok { ret := true
                heap := Function.update h p
                  { h p with StartTime := QWORD_UNION.setAsOne ⌊d⌋.toNat }
                calls := calls }
    else if (h p).StartTime.AsOne ≠ 0 then
      let difftime : ℕ := (nowtime.AsOne + 2 ^ 64 - (h p).StartTime.AsOne) % 2 ^ 64
      if difftime > 0 then
        let difftime : ℕ :=
          if flags &&& K.SNDF_LOOP ≠ 0 then
            match chan.getCurrentSound with
            | some (some len) => if len % 2 ^ 32 ≠ 0 then difftime % (len % 2 ^ 32) else difftime
            | _ => difftime
          else difftime
        if toU64 r.OutputRate = 0 then .error .undefinedBehaviour
        else
          .ok { ret := chan.setPositionOK
                heap := h
                calls := [.channel chan.handle
                  (.setPositionMS (difftime / toU64 r.OutputRate % 2 ^ 32))] }
      else .ok { ret := true, heap := h, calls := [] }
    else .ok { ret := true, heap := h, calls := [] }
  | none => .ok { ret := true, heap := h, calls := [] }

/-- What `CommonChannelSetup` returns and leaves behind. -/
structure SetupResult where
  schan : ChanPtr
  r : Renderer
  heap : Heap
  calls : List EngineCall

/-- The function `FMODSoundRenderer::CommonChannelSetup` (lines 1921-1942). -/
def CommonChannelSetup (X : Externals) (r : Renderer) (h : Heap) (chan : ChannelReplies)
    (reuse_chan : Option ChanPtr) : SetupResult :=
  let (schan, h1) : ChanPtr × Heap :=
    match reuse_chan with
    | some p => (p, Function.update h p { h p with SysChannel := some chan.handle })
    | none =>
      (X.S_GetChannel,
        Function.update h X.S_GetChannel
          { X.S_GetChannelInit with StartTime := QWORD_UNION.ofHalves chan.getDelay })
  { schan := schan
    r := { r with GRolloff := none }
    heap := h1
    calls := [.channel chan.handle (.setUserData schan), .channel chan.handle .setCallback] }

/-- The macro `PITCH(freq, pitch)`. -/
def PITCH (C : CVars) (freq : ℚ) (pitch : ℤ) : ℚ :=
  if C.snd_pitched then f32 (f32 (freq * f32 pitch) / 128) else freq

/-- The loop bits `StartSound` and `StartSound3D` give a mode. -/
def loopMode (K : Consts) (flags mode : ℕ) : ℕ :=
  if flags &&& K.SNDF_LOOP ≠ 0 then
    let mode := clearBits mode K.FMOD_LOOP_OFF
    if mode &&& (K.FMOD_LOOP_NORMAL ||| K.FMOD_LOOP_BIDI) = 0 then mode ||| K.FMOD_LOOP_NORMAL
    else mode
  else mode ||| K.FMOD_LOOP_OFF

/-- What `StartSound` and `StartSound3D` return and leave behind. -/
structure StartResult where
  /-- The returned game channel, `none` for `NULL`. -/
  ret : Option ChanPtr
  r : Renderer
  heap : Heap
  calls : List EngineCall

/-- The part of `StartSound` and `StartSound3D` from the call of
`HandleChannelDelay` to the end of the successful branch; `pre` holds the
commands already sent and `rolloff` is what `StartSound3D` copies into the
channel. -/
def finishStart (X : Externals) (K : Consts) (r : Renderer) (h : Heap)
    (chan : ChannelReplies) (reuse_chan : Option ChanPtr) (flags : ℕ) (freq : ℚ)
    (pre : List EngineCall) (rolloff : Option FRolloffInfo) : Except Fault StartResult := do
  let d ← HandleChannelDelay K r h chan reuse_chan (flags &&& (K.SNDF_ABSTIME ||| K.SNDF_LOOP)) freq
  if !d.ret then
    return { ret := none, r := r, heap := d.heap
             calls := pre ++ d.calls ++ [.channel chan.handle .stop] }
  else
    let noreverb : List EngineCall :=
      if flags &&& K.SNDF_NOREVERB ≠ 0 then [.channel chan.handle (.setReverbProperties 0 0)]
      else []
    let s := CommonChannelSetup X r d.heap chan reuse_chan
    let heap :=
      match rolloff with
      | some ro => Function.update s.heap s.schan { s.heap s.schan with Rolloff := ro }
      | none => s.heap
    return { ret := some s.schan, r := s.r, heap := heap
             calls := pre ++ d.calls ++ noreverb
               ++ [.channel chan.handle (.setPaused false)] ++ s.calls }

/-- The function `FMODSoundRenderer::StartSound` (lines 1588-1649). -/
def StartSound (X : Externals) (K : Consts) (C : CVars) (r : Renderer) (h : Heap)
    (sfx : SoundReplies) (vol : ℚ) (pitch : ℤ) (flags : ℕ)
    (reuse_chan : Option ChanPtr) : Except Fault StartResult := do
  let freq : ℚ :=
    match sfx.getDefaults with
    | some (f, _) => PITCH C f pitch
    | none => 0
  let r := { r with GRolloff := none }
  let play : EngineCall :=
    .playSound (if flags &&& K.SNDF_NOPAUSE ≠ 0 then .SfxGroup else .PausableSfx) true
  match sfx.playSound with
  | some chan =>
    let mode ←
      match chan.getMode with
      | some m => pure m
      | none => if K.NDEBUG then pure K.FMOD_SOFTWARE else throw Fault.assertFailed
    let mode := clearBits mode K.FMOD_3D ||| K.FMOD_2D
    let mode := loopMode K flags mode
    let pre : List EngineCall :=
      [play, .channel chan.handle (.setMode mode)]
        ++ (if freq ≠ 0 then [.channel chan.handle (.setFrequency freq)] else [])
        ++ [.channel chan.handle (.setVolume vol)]
    finishStart X K r h chan reuse_chan flags freq pre none
  | none => return { ret := none, r := r, heap := h, calls := [play] }

/-- The function template `clamp` of `templates.h`. -/
def clamp (x lo hi : ℤ) : ℤ := if x ≤ lo then lo else if x ≥ hi then hi else x

/-- The 3D level `SetChanHeadSettings` computes for an area sound whose squared
distance to the listener is `dist_sqr` (lines 1877-1891). -/
def areaLevel (X : Externals) (dist_sqr : ℚ) : ℚ :=
  if dist_sqr = 0 then 0
  else if dist_sqr ≤ f64 (32 * 32) then
    f32 (f64 (1 - f64 (f64 (32 - X.sqrt dist_sqr) / 32)))
  else 1

/-- The function `FMODSoundRenderer::SetChanHeadSettings` (lines 1859-1910):
the new mode and the commands sent to the channel. -/
def SetChanHeadSettings (X : Externals) (K : Consts) (listener : SoundListener)
    (chan : ChannelReplies) (pos : FVector3) (areasound : Bool) (oldmode : ℕ) :
    ℕ × List EngineCall :=
  if !listener.valid then (oldmode, [])
  else
    let cpos := listener.position
    if areasound then
      let level := areaLevel X (cpos.sub pos).LengthSquared
      let calls : List EngineCall :=
        match chan.get3DLevel with
        | some old_level =>
          if old_level ≠ level then
            [.channel chan.handle (.set3DLevel level)]
              ++ (if level < 1 then
                    [.channel chan.handle (.setMixLevelsOutput (f32 (70711 / 100000)))]
                  else [])
          else []
        | none => []
      (oldmode, calls)
    else if (cpos.sub pos).LengthSquared < f64 (f64 (4 / 10000) * f64 (4 / 10000)) then
      (clearBits oldmode K.FMOD_3D ||| K.FMOD_2D, [])
    else (clearBits oldmode K.FMOD_2D ||| K.FMOD_3D, [])

/-- The function `FMODSoundRenderer::StartSound3D` (lines 1657-1766). -/
def StartSound3D (X : Externals) (K : Consts) (C : CVars) (r : Renderer) (h : Heap)
    (sfx : SoundReplies) (listener : SoundListener) (vol : ℚ) (rolloff : FRolloffInfo)
    (distscale : ℚ) (pitch priority : ℤ) (pos vel : FVector3) (flags : ℕ)
    (reuse_chan : Option ChanPtr) : Except Fault StartResult := do
  let freq : ℚ :=
    match sfx.getDefaults with
    | some (f, _) => PITCH C f pitch
    | none => 0
  let c1 : List EngineCall :=
    match sfx.getDefaults with
    | some (f, pr) => [.setDefaults f (clamp (pr - priority) 1 256)]
    | none => []
  let r := { r with GRolloff := some rolloff, GDistScale := distscale }
  let play : EngineCall :=
    .playSound (if flags &&& K.SNDF_NOPAUSE ≠ 0 then .SfxGroup else .PausableSfx) true
  let c2 : List EngineCall :=
    match sfx.getDefaults with
    | some (f, pr) => if pr ≥ 0 then [.setDefaults f pr] else []
    | none => []
  match sfx.playSound with
  | some chan =>
    let mode : ℕ :=
      match chan.getMode with
      | some m => m
      | none => K.FMOD_3D ||| K.FMOD_SOFTWARE
    let mode := loopMode K flags mode
    let hs := SetChanHeadSettings X K listener chan pos (flags &&& K.SNDF_AREA ≠ 0) mode
    let mode := hs.1
    let vol : ℚ :=
      if mode &&& K.FMOD_3D ≠ 0 then
        match sfx.getFormat with
        | some numchans => if numchans > 1 then f32 (vol * (1 / 2)) else vol
        | none => vol
      else vol
    let pre : List EngineCall :=
      c1 ++ [play] ++ c2 ++ hs.2 ++ [.channel chan.handle (.setMode mode)]
        ++ (if freq ≠ 0 then [.channel chan.handle (.setFrequency freq)] else [])
        ++ [.channel chan.handle (.setVolume vol)]
        ++ (if mode &&& K.FMOD_3D ≠ 0 then [.channel chan.handle (.set3DAttributes pos vel)]
            else [])
    finishStart X K r h chan reuse_chan flags freq pre (some rolloff)
  | none =>
    return { ret := none, r := { r with GRolloff := none }, heap := h
             calls := c1 ++ [play] ++ c2 }

/-! ## The DSP clock -/

/-- The amount `OutputRate / TICRATE` that `UpdateSounds` adds to the clock, as
a 64-bit unsigned value. -/
def ticSamples (K : Consts) (r : Renderer) : ℕ := toU64 (Int.tdiv r.OutputRate K.TICRATE)

/-- A renderer state together with the commands sent to reach it. -/
structure Step where
  r : Renderer
  calls : List EngineCall
  deriving DecidableEq

/-- The function `FMODSoundRenderer::Sync` (lines 2292-2307); `clock` is the
value `SfxGroup->getDSPClock` leaves in its first argument. -/
def Sync (r : Renderer) (clock : ℕ) (sync : Bool) : Except Fault Step :=
  let r := { r with DSPLocked := sync }
  if sync then
    .ok { r := { r with DSPClock := QWORD_UNION.ofHalves clock }, calls := [.lockDSP] }
  else .ok { r := r, calls := [.unlockDSP] }

/-- The function `FMODSoundRenderer::UpdateSounds` (lines 2315-2325); `clock`
is the value `SfxGroup->getDSPClock` leaves in its first argument. -/
def UpdateSounds (K : Consts) (r : Renderer) (clock : ℕ) : Except Fault Step :=
  let c := QWORD_UNION.ofHalves clock
  if K.TICRATE = 0 then .error .undefinedBehaviour
  else
    .ok { r := { r with DSPClock :=
                   QWORD_UNION.setAsOne (c.AsOne + ticSamples K r) }
          calls := [.update] }

/-- The calls that read or advance the DSP clock. -/
inductive ClockCall where
  | UpdateSounds
  | Sync (sync : Bool)
  deriving DecidableEq

/-- One clock call made when the engine clock reads `clock`. -/
def clockStep (K : Consts) (r : Renderer) (c : ClockCall) (clock : ℕ) : Except Fault Step :=
  match c with
  | .UpdateSounds => UpdateSounds K r clock
  | .Sync sync => Sync r clock sync

/-- A sequence of clock calls, each paired with the engine clock value at the
time it is made. -/
def clockRun (K : Consts) : Renderer → List (ClockCall × ℕ) → Except Fault Renderer
  | r, [] => .ok r
  | r, (c, clock) :: rest =>
    match clockStep K r c clock with
    | .ok s => clockRun K s.r rest
    | .error e => .error e

/-! ## The listener -/

/-- Answers of the DSP graph to `ReconnectSFXReverbUnit`. -/
structure GraphReplies where
  /-- Count from `ChannelGroupTargetUnit->getNumInputs`, `none` on failure. -/
  getNumInputs : Option ℤ
  /-- For input `i`, `some (unit, isReverb)` when both `getInput(i, ..)` and
  `unit->getType` succeed, `isReverb` telling whether the type is
  `FMOD_DSP_TYPE_SFXREVERB`; `none` when either fails. -/
  getInput : ℕ → Option (ℕ × Bool)
  /-- Whether `disconnectFrom` returns `FMOD_OK`. -/
  disconnectFromOK : Bool
  /-- Whether `addInput` returns `FMOD_OK`. -/
  addInputOK : Bool

/-- The loop of `ReconnectSFXReverbUnit` over the inputs `n-1, .., 0`: the
first reverb unit met, if any. -/
def findReverbUnit (g : GraphReplies) : ℕ → Option ℕ
  | 0 => none
  | n + 1 =>
    match g.getInput n with
    | some (unit, true) => some unit
    | _ => findReverbUnit g n

/-- The function `FMODSoundRenderer::ReconnectSFXReverbUnit` (lines 2239-2281). -/
def ReconnectSFXReverbUnit (r : Renderer) (g : GraphReplies) : Bool × List EngineCall :=
  if !r.ChannelGroupTargetUnit || !r.SfxReverbPlaceholder then (false, [])
  else
    match g.getNumInputs with
    | none => (false, [])
    | some numinputs =>
      match findReverbUnit g numinputs.toNat with
      | none => (false, [])
      | some unit =>
        if !g.disconnectFromOK then (false, [.TargetUnit_disconnectFrom unit])
        else if !g.addInputOK then
          (false, [.TargetUnit_disconnectFrom unit, .Placeholder_addInput unit])
        else (true, [.TargetUnit_disconnectFrom unit, .Placeholder_addInput unit])

/-- The environments in memory. -/
abbrev Envs := EnvPtr → ReverbContainer

/-- The environment `UpdateListener` works with (lines 2152-2163). -/
def effectiveEnv (C : CVars) (listener : SoundListener) : EnvPtr :=
  match C.ForcedEnvironment with
  | some env => env
  | none =>
    match listener.Environment with
    | some env => env
    | none => C.DefaultEnvironment0

/-- What `UpdateListener` leaves behind. -/
structure ListenerResult where
  r : Renderer
  envs : Envs
  calls : List EngineCall

/-- The environment block of `UpdateListener` (lines 2164-2175). -/
def updateEnvironment (r : Renderer) (envs : Envs) (g : GraphReplies) (env : EnvPtr) :
    ListenerResult :=
  if r.PrevEnvironment ≠ some env ∨ (envs env).Modified = true then
    let envs1 := Function.update envs env { envs env with Modified := false }
    let c1 : List EngineCall := [.setSystemReverbProperties (envs1 env).Properties]
    let r1 := { r with PrevEnvironment := some env }
    if !r1.SfxReverbHooked then
      let rc := ReconnectSFXReverbUnit r1 g
      { r := { r1 with SfxReverbHooked := rc.1 }, envs := envs1, calls := c1 ++ rc.2 }
    else { r := r1, envs := envs1, calls := c1 }
  else { r := r, envs := envs, calls := [] }

/-- The underwater block of `UpdateListener` (lines 2177-2221); `water` is the
condition `underwater || env->SoftwareWater`.  Calling through a `NULL`
`SfxConnection` has no meaning. -/
def updateWater (C : CVars) (r : Renderer) (water : Bool) : Except Fault Step :=
  if water then
    let pitch : List EngineCall := [.PausableSfx_setPitch (f32 (7937005 / 10000000))]
    if r.WaterLP then
      let cut : List EngineCall :=
        if r.LastWaterLP ≠ C.snd_waterlp then [.WaterLP_setParameterFloat C.snd_waterlp] else []
      let r1 := if r.LastWaterLP ≠ C.snd_waterlp then { r with LastWaterLP := C.snd_waterlp } else r
      if !r.SfxConnection then .error .undefinedBehaviour
      else if r.WaterReverb && C.snd_waterreverb then
        .ok { r := r1
              calls := pitch ++ cut ++ [.WaterLP_setActive true, .WaterReverb_setActive true,
                .WaterReverb_setBypass false, .SfxConnection_setMix 0] }
      else
        .ok { r := r1
              calls := pitch ++ cut ++ [.WaterLP_setActive true, .SfxConnection_setMix (f32 (1 / 10))]
                ++ (if r.WaterReverb then
                      [.WaterReverb_setActive true, .WaterReverb_setBypass true]
                    else []) }
    else .ok { r := r, calls := pitch }
  else
    let pitch : List EngineCall := [.PausableSfx_setPitch 1]
    if r.WaterLP then
      if !r.SfxConnection then .error .undefinedBehaviour
      else
        .ok { r := r
              calls := pitch ++ [.SfxConnection_setMix 1, .WaterLP_setActive false]
                ++ (if r.WaterReverb then [.WaterReverb_setActive false] else []) }
    else .ok { r := r, calls := pitch }

/-- The function `FMODSoundRenderer::UpdateListener` (lines 2117-2222). -/
def UpdateListener (X : Externals) (C : CVars) (r : Renderer) (envs : Envs)
    (g : GraphReplies) (listener : SoundListener) : Except Fault ListenerResult := do
  if !listener.valid then
    return { r := r, envs := envs, calls := [] }
  else
    let forward : FVector3 := { X := X.cosf listener.angle, Y := 0, Z := X.sinf listener.angle }
    let up : FVector3 := { X := 0, Y := 1, Z := 0 }
    let c0 : List EngineCall :=
      [.set3DListenerAttributes listener.position listener.velocity forward up]
    let underwater : Bool := listener.underwater && decide (C.snd_waterlp ≠ 0)
    let env := effectiveEnv C listener
    let e := updateEnvironment r envs g env
    let w ← updateWater C e.r (underwater || (e.envs env).SoftwareWater)
    return { r := w.r, envs := e.envs, calls := c0 ++ e.calls ++ w.calls }




/-- The commands `UpdateListener` sends only after a change: the reverb
parameter set, the reverb unit reconnection and the low-pass cutoff. -/
def changeGuarded : EngineCall → Bool
  | .setSystemReverbProperties _ => true
  | .TargetUnit_disconnectFrom _ => true
  | .Placeholder_addInput _ => true
  | .WaterLP_setParameterFloat _ => true
  | _ => false

/-- Whether a command is the reverb parameter set. -/
def isReverbSet : EngineCall → Bool
  | .setSystemReverbProperties _ => true
  | _ => false

/-! ## Representable floating-point values -/

/-- The values of a format with a significand of `p` bits and a last-place
exponent of at least `emin`: the integer multiples `m * 2^e` with `|m| < 2^p`
and `emin ≤ e`. -/
def Representable (p : ℕ) (emin : ℤ) (f : ℚ) : Prop :=
  ∃ m e : ℤ, emin ≤ e ∧ |m| < 2 ^ p ∧ f = m * (2 : ℚ) ^ e

/-- What the model assumes of the C function `sqrt`, all of it true of the
correctly rounded square root that IEEE 754 prescribes: it is never negative,
it is monotone, and it is exact on the squares of whole numbers up to
`2^26`. -/
structure SqrtFacts (X : Externals) : Prop where
  nonneg : ∀ x : ℚ, 0 ≤ X.sqrt x
  mono : ∀ x y : ℚ, 0 ≤ x → x ≤ y → X.sqrt x ≤ X.sqrt y
  exact : ∀ n : ℕ, n ≤ 2 ^ 26 → X.sqrt ((n : ℚ) * n) = n

/-- The expression `float(1 - (interp_range - s) / interp_range)` of
`SetChanHeadSettings` (line 1886) for a square root `s`, with
`interp_range = 32.0`. -/
def interpLevel (s : ℚ) : ℚ := f32 (f64 (1 - f64 (f64 (32 - s) / 32)))

/-! ## Updating a playing channel -/

/-- The function `FMODSoundRenderer::UpdateSoundParams3D` (lines 2091-2109):
the commands it sends. `engine` gives the answers of the engine channel a game
channel refers to. -/
def UpdateSoundParams3D (X : Externals) (K : Consts) (engine : SysChan → ChannelReplies)
    (h : Heap) (listener : SoundListener) (chan : Option ChanPtr) (areasound : Bool)
    (pos vel : FVector3) : List EngineCall :=
  match chan with
  | none => []
  | some p =>
    match (h p).SysChannel with
    | none => []
    | some sys =>
      let fchan := engine sys
      let oldmode : ℕ :=
        match fchan.getMode with
        | some m => m
        | none => K.FMOD_3D ||| K.FMOD_SOFTWARE
      let hs := SetChanHeadSettings X K listener fchan pos areasound oldmode
      hs.2 ++ (if hs.1 ≠ oldmode then [.channel fchan.handle (.setMode hs.1)] else [])
        ++ [.channel fchan.handle (.set3DAttributes pos vel)]

/-- Whether a command is a `setMode` on a channel. -/
def isSetMode : EngineCall → Bool
  | .channel _ (.setMode _) => true
  | _ => false

/-- Whether a command is a `set3DAttributes` on a channel. -/
def isSet3DAttributes : EngineCall → Bool
  | .channel _ (.set3DAttributes _ _) => true
  | _ => false

/-- The function `FMODSoundRenderer::MarkStartTime` (lines 1776-1782): the
memory it leaves and the commands it sends. Calling through a `NULL`
`SysChannel` has no meaning. -/
def MarkStartTime (engine : SysChan → ChannelReplies) (h : Heap) (chan : ChanPtr) :
    Except Fault (Heap × List EngineCall) :=
  match (h chan).SysChannel with
  | none => .error .undefinedBehaviour
  | some sys =>
    .ok (Function.update h chan
          { h chan with StartTime := QWORD_UNION.ofHalves (engine sys).getDSPClock }, [])

/-- The function `FMODSoundRenderer::RolloffCallback` (lines 2524-2541).
`S_GetRolloff` is the function of `s_sound.cpp` that evaluates a rolloff curve,
and `getUserData` is the answer of the channel: `none` when the query fails,
`some none` for a `NULL` tag, `some (some schan)` for a game channel. -/
def RolloffCallback (S_GetRolloff : FRolloffInfo → ℚ → Bool → ℚ) (r : Renderer) (h : Heap)
    (getUserData : Option (Option ChanPtr)) (distance : ℚ) : ℚ :=
  match r.GRolloff with
  | some rolloff => S_GetRolloff rolloff (f32 (distance * r.GDistScale)) true
  | none =>
    match getUserData with
    | some (some schan) =>
      S_GetRolloff (h schan).Rolloff (f32 (distance * (h schan).DistanceScale)) true
    | _ => 0

/-! ## The music stream -/

/-- The values of `FMOD_OPENSTATE`. -/
inductive FMOD_OPENSTATE where
  | READY
  | LOADING
  | ERROR
  | CONNECTING
  | BUFFERING
  | SEEKING
  | PLAYING
  | SETPOSITION
  | MAX
  deriving DecidableEq, Repr

/-- The mode bits `FMODStreamCapsule` names beyond those of `Consts`. -/
structure StreamConsts where
  FMOD_CREATESTREAM : ℕ
  FMOD_NONBLOCKING : ℕ

/-- The values of those bits in FMOD Ex. -/
def fmodStreamConsts : StreamConsts :=
  { FMOD_CREATESTREAM := 128, FMOD_NONBLOCKING := 65536 }

/-- The members of `FMODStreamCapsule` that `Play`, `Stop`, `IsEnded` and
`SetVolume` use. The constructors set `Stream`, `Channel`, `URL` and `Ended`
only, so the other four members hold arbitrary values until `Play` succeeds. -/
structure FMODStreamCapsule where
  /-- The stream, `none` for `NULL`. -/
  Stream : Option ℕ
  /-- The engine channel, `none` for `NULL`. -/
  Channel : Option SysChan
  URL : String
  Ended : Bool
  JustStarted : Bool
  Starved : Bool
  Loop : Bool
  Volume : ℚ
  deriving DecidableEq

/-- Commands a stream capsule sends to the engine. -/
inductive StreamCall where
  /-- The call `Stream->setMode(mode)`. -/
  | setMode (mode : ℕ)
  /-- The call `Owner->Sys->playSound(Stream, 0, true, &Channel)`. -/
  | playSound
  /-- The call `Channel->setChannelGroup(Owner->MusicGroup)`. -/
  | setChannelGroup (chan : SysChan)
  | channel (chan : SysChan) (cmd : ChannelCmd)
  /-- The call `Stream->release()`. -/
  | release
  /-- The call `Owner->Sys->createSound(URL, mode, NULL, &Stream)`. -/
  | createSound (url : String) (mode : ℕ)
  deriving DecidableEq

/-- Answers of the engine to one call of a stream capsule function. -/
structure StreamReplies where
  /-- Open state and starving flag from `getOpenState`, `none` on failure. -/
  getOpenState : Option (FMOD_OPENSTATE × Bool)
  /-- The flag from `isPlaying`, `none` on failure. -/
  isPlaying : Option Bool
  /-- The stream `createSound` opens, `none` on failure. -/
  createSound : Option ℕ
  /-- Whether `playSound` returns `FMOD_OK`. -/
  playSoundOK : Bool
  /-- The channel `playSound` leaves in `Channel`. -/
  playSoundChannel : Option SysChan

/-- What a stream capsule function returns and leaves behind. -/
structure StreamResult where
  ret : Bool
  s : FMODStreamCapsule
  calls : List StreamCall
  deriving DecidableEq

/-- The function `FMODStreamCapsule::Play` (lines 350-376). Calling through a
`NULL` `Stream` or `Channel` has no meaning. -/
def FMODStreamCapsule.Play (K : Consts) (e : StreamReplies) (s : FMODStreamCapsule)
    (looping : Bool) (volume : ℚ) : Except Fault StreamResult :=
  let looping : Bool := if s.URL ≠ "" then false else looping
  match s.Stream with
  | none => .error .undefinedBehaviour
  | some _ =>
    let c1 : List StreamCall :=
      [.setMode ((if looping then K.FMOD_LOOP_NORMAL else K.FMOD_LOOP_OFF)
          ||| K.FMOD_SOFTWARE ||| K.FMOD_2D), .playSound]
    let s1 := { s with Channel := e.playSoundChannel }
    if !e.playSoundOK then .ok { ret := false, s := s1, calls := c1 }
    else
      match e.playSoundChannel with
      | none => .error .undefinedBehaviour
      | some ch =>
        .ok { ret := true
              s := { s1 with Ended := false, JustStarted := true, Starved := false,
                             Loop := looping, Volume := volume }
              calls := c1 ++ [.setChannelGroup ch, .channel ch (.setMixLevelsOutput 1),
                .channel ch (.setVolume volume), .channel ch (.setReverbProperties 0 0),
                .channel ch (.setPaused false)] }

/-- The function `FMODStreamCapsule::Stop` (lines 378-385). -/
def FMODStreamCapsule.Stop (s : FMODStreamCapsule) : FMODStreamCapsule × List StreamCall :=
  match s.Channel with
  | some ch => ({ s with Channel := none }, [.channel ch .stop])
  | none => (s, [])

/-- The function `FMODStreamCapsule::SetVolume` (lines 475-482). -/
def FMODStreamCapsule.SetVolume (s : FMODStreamCapsule) (volume : ℚ) :
    FMODStreamCapsule × List StreamCall :=
  match s.Channel with
  | some ch =>
    if !s.Starved then ({ s with Volume := volume }, [.channel ch (.setVolume volume)])
    else ({ s with Volume := volume }, [])
  | none => ({ s with Volume := volume }, [])

/-- The function `FMODStreamCapsule::IsEnded` (lines 407-473). Calling through
a `NULL` `Channel` has no meaning. -/
def FMODStreamCapsule.IsEnded (K : Consts) (S : StreamConsts) (e : StreamReplies)
    (s : FMODStreamCapsule) : Except Fault StreamResult :=
  match s.Stream with
  | none => .ok { ret := true, s := s, calls := [] }
  | some _ =>
    let openstate : FMOD_OPENSTATE :=
      match e.getOpenState with
      | some (os, _) => os
      | none => .ERROR
    if openstate = .ERROR then
      match s.Channel with
      | some ch => .ok { ret := true, s := { s with Channel := none }, calls := [.channel ch .stop] }
      | none => .ok { ret := true, s := s, calls := [] }
    else
      -- past this point `getOpenState` succeeded and `starving` is what it reported
      let starving : Bool :=
        match e.getOpenState with
        | some (_, st) => st
        | none => false
      if s.Channel ≠ none ∧ e.isPlaying ≠ some true then
        .ok { ret := true, s := s, calls := [] }
      else if s.Ended then
        match s.Channel with
        | some ch =>
          .ok { ret := true, s := { s with Channel := none }, calls := [.channel ch .stop] }
        | none => .error .undefinedBehaviour
      else if s.URL ≠ "" ∧ s.JustStarted = false ∧ openstate = .READY then
        match s.Channel with
        | some ch =>
          .ok { ret := decide (e.createSound = none)
                s := { s with Channel := none, Stream := e.createSound, JustStarted := true }
                calls := [.channel ch .stop, .release,
                  .createSound s.URL
                    ((if s.Loop then K.FMOD_LOOP_NORMAL else K.FMOD_LOOP_OFF)
                      ||| K.FMOD_SOFTWARE ||| K.FMOD_2D
                      ||| S.FMOD_CREATESTREAM ||| S.FMOD_NONBLOCKING)] }
        | none => .error .undefinedBehaviour
      else
        let s1 : FMODStreamCapsule :=
          if s.JustStarted = true ∧ openstate = .PLAYING then { s with JustStarted := false }
          else s
        if s1.JustStarted = true ∧ s1.Channel = none ∧ openstate = .READY then
          match FMODStreamCapsule.Play K e s1 s1.Loop s1.Volume with
          | .ok p => .ok { ret := !p.ret, s := p.s, calls := p.calls }
          | .error f => .error f
        else if starving ≠ s1.Starved then
          match s1.Channel with
          | some ch =>
            .ok { ret := false, s := { s1 with Starved := starving }
                  calls := [.channel ch (.setVolume (if starving then 0 else s1.Volume))] }
          | none => .error .undefinedBehaviour
        else .ok { ret := false, s := s1, calls := [] }

/-- The capsule functions that write `Loop`, `Volume`, `Starved`, `JustStarted`,
`Stream` or `Channel`. -/
inductive StreamOp where
  | Play (looping : Bool) (volume : ℚ)
  | Stop
  | SetVolume (volume : ℚ)
  | IsEnded
  deriving DecidableEq

/-- One capsule function called on an engine that answers `e`: the capsule it
leaves and the commands it sends. -/
def streamStep (K : Consts) (S : StreamConsts) (s : FMODStreamCapsule) (op : StreamOp)
    (e : StreamReplies) : Except Fault (FMODStreamCapsule × List StreamCall) :=
  match op with
  | .Play looping volume =>
    match FMODStreamCapsule.Play K e s looping volume with
    | .ok p => .ok (p.s, p.calls)
    | .error f => .error f
  | .Stop => .ok (FMODStreamCapsule.Stop s)
  | .SetVolume volume => .ok (FMODStreamCapsule.SetVolume s volume)
  | .IsEnded =>
    match FMODStreamCapsule.IsEnded K S e s with
    | .ok p => .ok (p.s, p.calls)
    | .error f => .error f

/-- A sequence of capsule functions, each paired with the answers of the engine
at the time it is called: the capsule left and all commands sent, in order. -/
def streamRun (K : Consts) (S : StreamConsts) :
    FMODStreamCapsule → List (StreamOp × StreamReplies) →
      Except Fault (FMODStreamCapsule × List StreamCall)
  | s, [] => .ok (s, [])
  | s, (op, e) :: rest =>
    match streamStep K S s op e with
    | .ok (s1, c1) =>
      match streamRun K S s1 rest with
      | .ok (s2, c2) => .ok (s2, c1 ++ c2)
      | .error f => .error f
    | .error f => .error f

/-- The mode a command opens or plays a stream with, if it carries one. -/
def StreamCall.mode? : StreamCall → Option ℕ
  | .setMode m => some m
  | .createSound _ m => some m
  | _ => none

/-! ## The state of the underwater chain -/

/-- The values last sent to the units of the underwater chain: the pitch of the
pausable SFX group, the activity and cutoff of the low-pass unit, the activity
and bypass of the water reverb unit, and the mix of the dry connection. -/
structure WaterChain where
  pitch : ℚ
  lowpassActive : Bool
  lowpassCutoff : ℚ
  reverbActive : Bool
  reverbBypass : Bool
  dryMix : ℚ
  deriving DecidableEq

/-- The effect of one command on the values last sent. -/
def WaterChain.apply (c : WaterChain) : EngineCall → WaterChain
  | .PausableSfx_setPitch p => { c with pitch := p }
  | .WaterLP_setParameterFloat x => { c with lowpassCutoff := x }
  | .WaterLP_setActive b => { c with lowpassActive := b }
  | .WaterReverb_setActive b => { c with reverbActive := b }
  | .WaterReverb_setBypass b => { c with reverbBypass := b }
  | .SfxConnection_setMix m => { c with dryMix := m }
  | _ => c

/-- The effect of a list of commands, in order. -/
def WaterChain.run (c : WaterChain) (calls : List EngineCall) : WaterChain :=
  calls.foldl WaterChain.apply c

/-! ## Pausing sound effects -/

/-- Commands sent to the pausable SFX group by `SetSfxPaused`. -/
inductive PauseCall where
  /-- The call `PausableSfx->setPaused(paused)`. -/
  | PausableSfx_setPaused (paused : Bool)
  deriving DecidableEq

/-- The function `FMODSoundRenderer::SetSfxPaused` (lines 2022-2043), on the
member `SFXPaused`: the new value and the commands sent. `SFXPaused` is an
`int`; a shift of 1 by 31 or more, or by a negative count, has no meaning. -/
def SetSfxPaused (SFXPaused : ℕ) (paused : Bool) (slot : ℤ) :
    Except Fault (ℕ × List PauseCall) :=
  if slot < 0 ∨ 31 ≤ slot then .error .undefinedBehaviour
  else
    let oldslots := SFXPaused
    let bit : ℕ := 1 <<< slot.toNat
    let SFXPaused : ℕ := if paused then SFXPaused ||| bit else clearBits SFXPaused bit
    if oldslots ≠ 0 ∧ SFXPaused = 0 then .ok (SFXPaused, [.PausableSfx_setPaused false])
    else if oldslots = 0 ∧ SFXPaused ≠ 0 then .ok (SFXPaused, [.PausableSfx_setPaused true])
    else .ok (SFXPaused, [])

/-- The pause slots and the pause state of the pausable SFX group in the
engine, which is what the last `setPaused` sent to it says. -/
structure PauseState where
  SFXPaused : ℕ
  groupPaused : Bool
  deriving DecidableEq

/-- The state `Init` establishes: `SFXPaused = 0` (line 634) and a pausable
SFX group just created, which is not paused. -/
def PauseState.init : PauseState := { SFXPaused := 0, groupPaused := false }

/-- The effect of the commands of `SetSfxPaused` on the group. -/
def PauseState.apply (paused : Bool) : List PauseCall → Bool
  | [] => paused
  | .PausableSfx_setPaused p :: rest => PauseState.apply p rest

/-- One call of `SetSfxPaused`. -/
def pauseStep (s : PauseState) (paused : Bool) (slot : ℤ) :
    Except Fault (PauseState × List PauseCall) :=
  match SetSfxPaused s.SFXPaused paused slot with
  | .ok (v, calls) =>
    .ok ({ SFXPaused := v, groupPaused := PauseState.apply s.groupPaused calls }, calls)
  | .error f => .error f

/-- A sequence of calls of `SetSfxPaused`: the state left and all commands
sent, in order. -/
def pauseRun : PauseState → List (Bool × ℤ) → Except Fault (PauseState × List PauseCall)
  | s, [] => .ok (s, [])
  | s, (paused, slot) :: rest =>
    match pauseStep s paused slot with
    | .ok (s1, c1) =>
      match pauseRun s1 rest with
      | .ok (s2, c2) => .ok (s2, c1 ++ c2)
      | .error f => .error f
    | .error f => .error f

/-! ## Creating a callback stream -/

/-- The flag bits of `SoundStream` (`i_sound.h`), which this file names but
does not define. -/
structure StreamFlags where
  Mono : ℕ
  Bits8 : ℕ
  Bits32 : ℕ
  Float : ℕ

/-- The values of those bits in ZDoom. -/
def zdoomStreamFlags : StreamFlags := { Mono := 1, Bits8 := 2, Bits32 := 4, Float := 8 }

/-- The sample formats `CreateStream` chooses from. -/
inductive FMOD_SOUND_FORMAT where
  | PCM8
  | PCM16
  | PCM32
  | PCMFLOAT
  deriving DecidableEq, Repr

/-- The members of `FMOD_CREATESOUNDEXINFO` that `CreateStream` computes. -/
structure FMOD_CREATESOUNDEXINFO where
  /-- An `unsigned int`. -/
  decodebuffersize : ℕ
  numchannels : ℤ
  /-- An `unsigned int`. -/
  length : ℕ
  defaultfrequency : ℤ
  format : FMOD_SOUND_FORMAT
  deriving DecidableEq

/-- The structure `exinfo` that `CreateStream` hands to `createSound` (lines
1262-1291). `buffbytes` is an `int`; its shift to the right is the quotient
rounded down, and the result is stored in an `unsigned int`. -/
def CreateStream_exinfo (F : StreamFlags) (buffbytes : ℤ) (flags : ℕ) (samplerate : ℤ) :
    FMOD_CREATESOUNDEXINFO :=
  let sample_shift : ℕ :=
    if flags &&& (F.Bits32 ||| F.Float) ≠ 0 then 2 else if flags &&& F.Bits8 ≠ 0 then 0 else 1
  let channel_shift : ℕ := if flags &&& F.Mono ≠ 0 then 0 else 1
  { decodebuffersize := toU32 (buffbytes / 2 ^ (sample_shift + channel_shift))
    numchannels := ((1 <<< channel_shift : ℕ) : ℤ)
    length := 0xFFFFFFFF
    defaultfrequency := samplerate
    format :=
      if flags &&& F.Float ≠ 0 then .PCMFLOAT
      else if flags &&& F.Bits32 ≠ 0 then .PCM32
      else if flags &&& F.Bits8 ≠ 0 then .PCM8
      else .PCM16 }

/-- Bytes in one sample of a format. -/
def FMOD_SOUND_FORMAT.bytesPerSample : FMOD_SOUND_FORMAT → ℕ
  | .PCM8 => 1
  | .PCM16 => 2
  | .PCM32 => 4
  | .PCMFLOAT => 4

/-! ## Initialisation -/

/-- The DSP unit types `Init` creates. -/
inductive FMOD_DSP_TYPE where
  | LOWPASS
  | SFXREVERB
  | MIXER
  deriving DecidableEq, Repr

/-- The DSP units `Init` names. `pausable_head` is the unit `getInput` found
at input 0 of `sfx_head`. -/
inductive DSPUnit where
  | WaterLP
  | WaterReverb
  | SfxReverbPlaceholder
  | sfx_head
  | pausable_head
  deriving DecidableEq, Repr

/-- The DSP parameters `Init` sets. -/
inductive DSPParam where
  | LOWPASS_CUTOFF
  | LOWPASS_RESONANCE
  | SFXREVERB_LOWSHELFFREQUENCY
  | SFXREVERB_HFREFERENCE
  | SFXREVERB_DRYLEVEL
  /-- The parameter `FMOD_DSP_SFXREVERB_HFDECAYRATIO`. -/
  | SFXREVERB_HFDECAYRATIO_
  | SFXREVERB_DECAYTIME
  | SFXREVERB_DENSITY
  | SFXREVERB_DIFFUSION
  deriving DecidableEq, Repr

/-- Commands `Init` sends to the engine from the creation of the channel
groups on (lines 903-1061), whether or not the engine accepts them. -/
inductive InitCall where
  | createChannelGroup (name : String)
  /-- The call `SfxGroup->addGroup(PausableSfx)`. -/
  | addGroup
  | createDSPByType (type : FMOD_DSP_TYPE)
  /-- The call `target->addInput(source, ..)`. -/
  | addInput (target source : DSPUnit)
  /-- The call `target->disconnectFrom(source)`. -/
  | disconnectFrom (target source : DSPUnit)
  | setActive (unit : DSPUnit) (active : Bool)
  | setBypass (unit : DSPUnit) (bypass : Bool)
  | release (unit : DSPUnit)
  | setParameterFloat (unit : DSPUnit) (index : DSPParam) (value : ℚ)
  | set3DSettings (dopplerscale distancefactor rolloffscale : ℚ)
  | set3DRolloffCallback
  | setStreamBufferSize (bytes : ℤ)
  /-- The call `snd_sfxvolume.Callback()`. -/
  | snd_sfxvolume_Callback
  deriving DecidableEq

/-- Answers of the engine to the calls of `Init`: for each call whether it
returns `FMOD_OK`. A call that fails leaves the pointers it was to fill as they
were (for `ChannelGroupTargetUnit` and `ChannelGroupTargetUnitOutput` the code
itself stores `NULL` then); a call that succeeds fills them with pointers that
are not `NULL`. -/
structure InitReplies where
  /-- Whether lines 652-901 (finding the library, creating the system object,
  checking its version, choosing driver and format, `Sys->init` and its
  retries) end without `return false`. -/
  systemInit : Bool
  createMusicGroup : Bool
  createSfxGroup : Bool
  createPausableSfx : Bool
  addGroup : Bool
  createLowpass : Bool
  createWaterReverb : Bool
  /-- The call `SfxGroup->getDSP(FMOD_CHANNELCONTROL_DSP_HEAD, &sfx_head)`. -/
  sfxGetDSP : Bool
  /-- The call `sfx_head->getInput(0, &pausable_head, &SfxConnection)`. -/
  headGetInput : Bool
  createMixer : Bool
  /-- The call `SfxReverbPlaceholder->addInput(pausable_head, NULL)`. -/
  placeholderAddInput : Bool
  /-- The call `sfx_head->addInput(SfxReverbPlaceholder, &connection)`. -/
  headAddPlaceholder : Bool
  /-- The call `WaterReverb->addInput(WaterLP, NULL)`. -/
  reverbAddInput : Bool
  /-- The call `sfx_head->addInput(WaterReverb, NULL)`. -/
  headAddReverb : Bool
  getMasterChannelGroup : Bool
  /-- The call `master_group->getDSP(FMOD_CHANNELCONTROL_DSP_HEAD, &master_head)`. -/
  masterGetDSP : Bool
  /-- The call `master_head->getOutput(0, &ChannelGroupTargetUnit, NULL)`. -/
  masterHeadGetOutput : Bool
  /-- The call `ChannelGroupTargetUnit->getOutput(0, .., &ChannelGroupTargetUnitOutput)`. -/
  targetGetOutput : Bool
  /-- The rate from the last `Sys->getSoftwareFormat`, `none` on failure. -/
  getSoftwareFormat : Option ℤ

/-- What `Init` returns and leaves behind: the members of `Renderer`, and the
members `SFXPaused`, `MusicGroup`, `SfxGroup`, `PausableSfx` and
`ChannelGroupTargetUnitOutput` (for a pointer, whether it is not `NULL`). -/
structure InitResult where
  ret : Bool
  r : Renderer
  SFXPaused : ℕ
  MusicGroup : Bool
  SfxGroup : Bool
  PausableSfx : Bool
  ChannelGroupTargetUnitOutput : Bool
  calls : List InitCall
  deriving DecidableEq

/-- The underwater part of the DSP graph that `Init` builds when the low-pass
unit exists (lines 945-1014): whether `SfxConnection` and `SfxReverbPlaceholder`
are left non-`NULL`, and the commands sent. -/
def InitWaterGraph (C : CVars) (e : InitReplies) (WaterReverb : Bool) :
    Bool × Bool × List InitCall :=
  if !e.sfxGetDSP then (false, false, [])
  else if !e.headGetInput then (false, false, [])
  else
    -- from here on `SfxConnection` is the connection `getInput` found
    let mixer : List InitCall := [.createDSPByType .MIXER]
    let (placeholder, swapped, c1) : Bool × Bool × List InitCall :=
      if e.createMixer then
        if e.placeholderAddInput then
          if e.headAddPlaceholder then
            (true, true,
              [.addInput .SfxReverbPlaceholder .pausable_head,
               .addInput .sfx_head .SfxReverbPlaceholder,
               .disconnectFrom .sfx_head .pausable_head,
               .setActive .SfxReverbPlaceholder true,
               .setBypass .SfxReverbPlaceholder true])
          else
            (true, false,
              [.addInput .SfxReverbPlaceholder .pausable_head,
               .addInput .sfx_head .SfxReverbPlaceholder])
        else
          (false, false,
            [.addInput .SfxReverbPlaceholder .pausable_head, .release .SfxReverbPlaceholder])
      else (false, false, [])
    let head : DSPUnit := if swapped then .SfxReverbPlaceholder else .pausable_head
    let c2 : List InitCall :=
      [.addInput .WaterLP head, .setActive .WaterLP false,
       .setParameterFloat .WaterLP .LOWPASS_CUTOFF C.snd_waterlp,
       .setParameterFloat .WaterLP .LOWPASS_RESONANCE 2]
    let c3 : List InitCall :=
      if WaterReverb then
        [.addInput .WaterReverb .WaterLP]
          ++ (if e.reverbAddInput then
                [.addInput .sfx_head .WaterReverb]
                  ++ (if e.headAddReverb then
                        [.setParameterFloat .WaterReverb .SFXREVERB_LOWSHELFFREQUENCY 150,
                         .setParameterFloat .WaterReverb .SFXREVERB_HFREFERENCE 10000,
                         .setParameterFloat .WaterReverb .SFXREVERB_DRYLEVEL 0,
                         .setParameterFloat .WaterReverb .SFXREVERB_HFDECAYRATIO_ 100,
                         .setParameterFloat .WaterReverb .SFXREVERB_DECAYTIME (f32 (1 / 4)),
                         .setParameterFloat .WaterReverb .SFXREVERB_DENSITY 100,
                         .setParameterFloat .WaterReverb .SFXREVERB_DIFFUSION 100,
                         .setActive .WaterReverb false]
                      else [])
              else [])
      else [.addInput .sfx_head .WaterLP]
    (true, placeholder, mixer ++ c1 ++ c2 ++ c3)

/-- The function `FMODSoundRenderer::Init` (lines 622-1064). `r0` holds the
variables `Init` does not assign (`GRolloff`, `GDistScale`), and
`snd_streambuffersize` is the console variable of that name. -/
def Init (C : CVars) (snd_streambuffersize : ℤ) (r0 : Renderer) (e : InitReplies) :
    InitResult :=
  let r : Renderer :=
    { r0 with DSPLocked := false, SfxConnection := false, WaterLP := false,
              WaterReverb := false, PrevEnvironment := some C.DefaultEnvironment0,
              DSPClock := QWORD_UNION.setAsOne 0, ChannelGroupTargetUnit := false,
              SfxReverbHooked := false, SfxReverbPlaceholder := false }
  let fail (music sfx pausable : Bool) (calls : List InitCall) : InitResult :=
    { ret := false, r := r, SFXPaused := 0, MusicGroup := music, SfxGroup := sfx,
      PausableSfx := pausable, ChannelGroupTargetUnitOutput := false, calls := calls }
  if !e.systemInit then fail false false false []
  else if !e.createMusicGroup then fail false false false [.createChannelGroup "Music"]
  else if !e.createSfxGroup then
    fail true false false [.createChannelGroup "Music", .createChannelGroup "SFX"]
  else if !e.createPausableSfx then
    fail true true false
      [.createChannelGroup "Music", .createChannelGroup "SFX",
       .createChannelGroup "Pausable SFX"]
  else
    let c0 : List InitCall :=
      [.createChannelGroup "Music", .createChannelGroup "SFX",
       .createChannelGroup "Pausable SFX", .addGroup, .createDSPByType .LOWPASS]
        ++ (if e.createLowpass then [.createDSPByType .SFXREVERB] else [])
    let WaterLP : Bool := e.createLowpass
    let WaterReverb : Bool := e.createLowpass && e.createWaterReverb
    let g : Bool × Bool × List InitCall :=
      if WaterLP then InitWaterGraph C e WaterReverb else (false, false, [])
    let target : Bool := e.getMasterChannelGroup && e.masterGetDSP && e.masterHeadGetOutput
    let targetOutput : Bool := target && e.targetGetOutput
    let rate : ℤ :=
      match e.getSoftwareFormat with
      | some rate => rate
      | none => 48000
    { ret := true
      r := { r with WaterLP := WaterLP, WaterReverb := WaterReverb, SfxConnection := g.1,
                    SfxReverbPlaceholder := g.2.1, LastWaterLP := C.snd_waterlp,
                    ChannelGroupTargetUnit := target, OutputRate := rate }
      SFXPaused := 0
      MusicGroup := true
      SfxGroup := true
      PausableSfx := true
      ChannelGroupTargetUnitOutput := targetOutput
      calls := c0 ++ g.2.2
        ++ [.set3DSettings (1 / 2) 96 1, .set3DRolloffCallback,
            .setStreamBufferSize (snd_streambuffersize * 1024), .snd_sfxvolume_Callback] }

/-! ## Floats that may be infinite or NaN

`SetSystemReverbProperties` computes with powers, a logarithm and a square
root of values that are not bounded, so its `float`s can overflow and can be
NaN. The sign of zero is not represented: `fin 0` stands for `+0`. Within
`SetSystemReverbProperties` no operation whose result depends on the sign of a
zero operand can meet `-0`: the divisors are non-zero constants, `HFGain`
(a power, never negative), a square root of a quotient that is never a
negative zero, and a sum that is at least 1. -/

/-- A `float`: NaN, an infinity with its sign, or a finite value. -/
inductive XFloat where
  | nan
  | inf (negative : Bool)
  | fin (q : ℚ)
  deriving DecidableEq, Repr

/-- The largest finite `float`, `FLT_MAX`. -/
def FLT_MAX : ℚ := 2 ^ 128 - 2 ^ 104

/-- Rounding of an exact result to `float`, with overflow to an infinity. -/
def XFloat.round (x : ℚ) : XFloat :=
  if FLT_MAX < |f32 x| then .inf (decide (x < 0)) else .fin (f32 x)

/-- Conversion of an `int` to `float`. -/
def XFloat.ofInt (n : ℤ) : XFloat := XFloat.round n

/-- Addition of `float`s. -/
def XFloat.add : XFloat → XFloat → XFloat
  | .nan, _ => .nan
  | _, .nan => .nan
  | .inf s, .inf t => if s = t then .inf s else .nan
  | .inf s, .fin _ => .inf s
  | .fin _, .inf t => .inf t
  | .fin x, .fin y => XFloat.round (x + y)

/-- Subtraction of `float`s. -/
def XFloat.sub : XFloat → XFloat → XFloat
  | .nan, _ => .nan
  | _, .nan => .nan
  | .inf s, .inf t => if s = t then .nan else .inf s
  | .inf s, .fin _ => .inf s
  | .fin _, .inf t => .inf (!t)
  | .fin x, .fin y => XFloat.round (x - y)

/-- Multiplication of `float`s. -/
def XFloat.mul : XFloat → XFloat → XFloat
  | .nan, _ => .nan
  | _, .nan => .nan
  | .inf s, .inf t => .inf (s != t)
  | .inf s, .fin y => if y = 0 then .nan else .inf (s != decide (y < 0))
  | .fin x, .inf t => if x = 0 then .nan else .inf (decide (x < 0) != t)
  | .fin x, .fin y => XFloat.round (x * y)

/-- Division of `float`s. A zero divisor is `+0`. -/
def XFloat.div : XFloat → XFloat → XFloat
  | .nan, _ => .nan
  | _, .nan => .nan
  | .inf _, .inf _ => .nan
  | .inf s, .fin y => .inf (s != decide (y < 0))
  | .fin _, .inf _ => .fin 0
  | .fin x, .fin y =>
    if y = 0 then (if x = 0 then .nan else .inf (decide (x < 0)))
    else XFloat.round (x / y)

/-- The comparison `a <= b` of `float`s, false when either is NaN. -/
def XFloat.le : XFloat → XFloat → Bool
  | .nan, _ => false
  | _, .nan => false
  | .inf true, _ => true
  | _, .inf false => true
  | .inf false, _ => false
  | _, .inf true => false
  | .fin x, .fin y => decide (x ≤ y)

/-- The comparison `a < b` of `float`s, false when either is NaN. -/
def XFloat.lt : XFloat → XFloat → Bool
  | .nan, _ => false
  | _, .nan => false
  | .inf true, .inf true => false
  | .inf true, _ => true
  | .inf false, _ => false
  | .fin _, .inf t => !t
  | .fin x, .fin y => decide (x < y)

/-- Modelled from the spec: the function template `clamp` of `templates.h`,
which this file includes and which is not among the sources, at type `float`.
"Clamped to `[min, max]`" is taken as ZDoom writes it,
`in <= min ? min : in >= max ? max : in`; both comparisons are false for a
NaN, which is then returned as it is. -/
def clampf (x : XFloat) (lo hi : ℚ) : XFloat :=
  if XFloat.le x (.fin lo) then .fin lo
  else if XFloat.le (.fin hi) x then .fin hi
  else x

/-- The C library functions `powf`, `log10f` and `sqrtf`. -/
structure FloatLib where
  powf : XFloat → XFloat → XFloat
  log10f : XFloat → XFloat
  sqrtf : XFloat → XFloat

/-- A finite `float` value. -/
def IsFloat (q : ℚ) : Prop := Representable 24 (-149) q ∧ |q| ≤ FLT_MAX

/-- A value of type `int`. -/
def IsInt32 (n : ℤ) : Prop := -2 ^ 31 ≤ n ∧ n < 2 ^ 31

/-- What the model assumes of the C library, all of it prescribed by Annex F
of the C standard or true of every implementation: a power of ten with a
finite exponent is a `float` that is not negative, or `+∞`; the logarithm of a
positive `float` is a `float`, that of zero is `-∞` and that of `+∞` is `+∞`;
the square root of a negative value is NaN, that of a `float` that is not
negative is a `float`, not negative, and zero only at zero, and that of `+∞` is
`+∞`. -/
structure FloatLibFacts (L : FloatLib) : Prop where
  powf_ten : ∀ y : ℚ,
    (∃ q, L.powf (.fin 10) (.fin y) = .fin q ∧ 0 ≤ q ∧ IsFloat q)
      ∨ L.powf (.fin 10) (.fin y) = .inf false
  log10f_pos : ∀ q : ℚ, 0 < q → IsFloat q → ∃ l, L.log10f (.fin q) = .fin l ∧ IsFloat l
  log10f_zero : L.log10f (.fin 0) = .inf true
  log10f_inf : L.log10f (.inf false) = .inf false
  sqrtf_neg : ∀ q : ℚ, q < 0 → L.sqrtf (.fin q) = .nan
  sqrtf_nonneg : ∀ q : ℚ, 0 ≤ q → IsFloat q →
    ∃ s, L.sqrtf (.fin q) = .fin s ∧ 0 ≤ s ∧ (s = 0 ↔ q = 0) ∧ IsFloat s
  sqrtf_inf : L.sqrtf (.inf false) = .inf false

/-! ## Reverb properties -/

/-- The structure `FMOD_REVERB_PROPERTIES` that `SetSystemReverbProperties`
fills. -/
structure FMOD_REVERB_PROPERTIES where
  DecayTime : XFloat
  EarlyDelay : XFloat
  LateDelay : XFloat
  HFReference : XFloat
  HFDecayRatio : XFloat
  Diffusion : XFloat
  Density : XFloat
  LowShelfFrequency : XFloat
  LowShelfGain : XFloat
  HighCut : XFloat
  EarlyLateMix : XFloat
  WetLevel : XFloat
  deriving DecidableEq, Repr

/-- The structure `fr` that `FMODSoundRenderer::SetSystemReverbProperties`
(lines 2935-2958) hands to `Sys->setReverbProperties`. The difference
`props->Reverb - props->Reflections` is a difference of `int`s, taken here
without overflow. -/
def SetSystemReverbProperties (L : FloatLib) (props : REVERB_PROPERTIES) :
    FMOD_REVERB_PROPERTIES :=
  let LateEarlyRatio : XFloat :=
    L.powf (.fin 10) (XFloat.div (XFloat.ofInt (props.Reverb - props.Reflections)) (.fin 2000))
  let EarlyAndLatePower : XFloat :=
    XFloat.add (L.powf (.fin 10) (XFloat.div (XFloat.ofInt props.Reflections) (.fin 1000)))
      (L.powf (.fin 10) (XFloat.div (XFloat.ofInt props.Reverb) (.fin 1000)))
  let HFGain : XFloat :=
    L.powf (.fin 10) (XFloat.div (XFloat.ofInt props.RoomHF) (.fin 2000))
  { DecayTime := XFloat.mul (.fin props.DecayTime) (.fin 1000)
    EarlyDelay := XFloat.mul (.fin props.ReflectionsDelay) (.fin 1000)
    LateDelay := XFloat.mul (.fin props.ReverbDelay) (.fin 1000)
    HFReference := .fin props.HFReference
    HFDecayRatio := clampf (XFloat.mul (.fin props.DecayHFRatio) (.fin 100)) 0 100
    Diffusion := .fin props.Diffusion
    Density := .fin props.Density
    LowShelfFrequency := .fin props.DecayLFRatio
    LowShelfGain := clampf (XFloat.div (XFloat.ofInt props.RoomLF) (.fin 100)) (-48) 12
    HighCut :=
      clampf
        (if props.RoomLF < 0 then
          XFloat.div (.fin props.HFReference)
            (L.sqrtf (XFloat.div (XFloat.sub (.fin 1) HFGain) HFGain))
        else .fin 20000)
        20 20000
    EarlyLateMix :=
      if XFloat.lt (.fin (-10000)) (XFloat.ofInt props.Reflections) then
        XFloat.mul (XFloat.div LateEarlyRatio (XFloat.add LateEarlyRatio (.fin 1))) (.fin 100)
      else .fin 100
    WetLevel :=
      clampf
        (XFloat.add (XFloat.mul (.fin 10) (L.log10f EarlyAndLatePower))
          (XFloat.div (XFloat.ofInt props.Room) (.fin 100)))
        (-80) 20 }

/-! ## The underwater cutoff variable -/

/-- The callback of the console variable `snd_waterlp` (lines 106-118): from
the value just assigned to the variable to the value the variable holds when
the callback has run. The variable is a `float`, so the value can be an
infinity or NaN; `*self < 10`, `*self != 0` and `*self > 22000` are the
comparisons of `float`s, and an assignment to `self` inside the callback
stores 10 or 22000. The sign of zero is not represented: a negative zero
compares equal to 0 and is kept, as 0 is. -/
def snd_waterlp_setter (v : XFloat) : XFloat :=
  if XFloat.lt v (.fin 10) && decide (v ≠ .fin 0) then .fin 10
  else if XFloat.lt (.fin 22000) v then .fin 22000
  else v

/-! ## Concrete inputs used in the examples -/

/-- A rolloff description. -/
def exRolloff : FRolloffInfo := { RolloffType := 0, MinDistance := 200, MaxDistance := 1200 }

/-- A game channel. -/
def exChannel (sys : Option SysChan) (start : QWORD_UNION) : FISoundChannel :=
  { SysChannel := sys, StartTime := start, Rolloff := exRolloff, DistanceScale := 1 }

/-- A memory in which every game channel has no engine channel and the start
time `start`. -/
def exHeap (start : QWORD_UNION) : Heap := fun _ => exChannel none start

/-- An engine channel with handle 7 whose clock reads `now`, whose current
sound answers `len` and whose seeks succeed or not according to `seekOK`. -/
def exChan (now : ℕ) (len : Option (Option ℕ)) (seekOK : Bool) : ChannelReplies :=
  { handle := 7, getMode := some 0, getDelay := now, getCurrentSound := len,
    setPositionOK := seekOK, get3DLevel := some 1, getDSPClock := now }

/-- A renderer as `Init` leaves it when every DSP unit was created, with the
given output rate. -/
def exRenderer (rate : ℤ) : Renderer :=
  { OutputRate := rate, DSPClock := { Lo := 0, Hi := 0 }, DSPLocked := false,
    SfxReverbHooked := false, LastWaterLP := 250, WaterLP := true, WaterReverb := true,
    SfxConnection := true, ChannelGroupTargetUnit := true, SfxReverbPlaceholder := true,
    PrevEnvironment := some 0, GRolloff := none, GDistScale := 1 }

/-- Library functions for the examples: a square root that is exact on perfect
squares, a listener angle of zero, and a fresh game channel at address 1. -/
def exExternals : Externals :=
  { sqrt := fun x => (Nat.sqrt ⌊x⌋.toNat : ℚ), cosf := fun _ => 1, sinf := fun _ => 0,
    S_GetChannel := 1, S_GetChannelInit := exChannel none { Lo := 0, Hi := 0 } }

/-- Console variables at their defaults, pitch variation off, no forced
environment. -/
def exCVars : CVars :=
  { snd_pitched := false, snd_waterlp := 250, snd_waterreverb := true,
    ForcedEnvironment := none, DefaultEnvironment0 := 0 }

/-- A mono sound of default frequency 11025 and priority 128 that `playSound`
plays on the given channel. -/
def exSound (chan : ChannelReplies) : SoundReplies :=
  { getDefaults := some (11025, 128), getFormat := some 1, playSound := some chan }

/-- A valid listener at the origin, under water or not, in no environment. -/
def exListener (underwater : Bool) : SoundListener :=
  { position := { X := 0, Y := 0, Z := 0 }, velocity := { X := 0, Y := 0, Z := 0 },
    angle := 0, underwater := underwater, valid := true, Environment := none }

/-- The origin. -/
def exOrigin : FVector3 := { X := 0, Y := 0, Z := 0 }

/-- Reverb properties for the examples. -/
def exProps : REVERB_PROPERTIES :=
  { Room := -1000, RoomHF := -100, RoomLF := 0, DecayTime := 149 / 100, DecayHFRatio := 83 / 100,
    DecayLFRatio := 1, Reflections := -2602, ReflectionsDelay := 7 / 1000, Reverb := 200,
    ReverbDelay := 11 / 1000, HFReference := 5000, Diffusion := 100, Density := 100 }

/-- A memory in which every environment has the properties `exProps`, is
unmodified or modified as said, and does not ask for the software water
effect. -/
def exEnvs (modified : Bool) : Envs :=
  fun _ => { Properties := exProps, Modified := modified, SoftwareWater := false }

/-- A DSP graph whose target unit has no inputs. -/
def exGraph : GraphReplies :=
  { getNumInputs := some 0, getInput := fun _ => none, disconnectFromOK := true,
    addInputOK := true }

/-- A rolloff evaluation for the examples: the distance itself, scaled by the
minimum distance of the curve. -/
def exGetRolloff : FRolloffInfo → ℚ → Bool → ℚ := fun ro d _ => d / ro.MinDistance

/-- A second rolloff description. -/
def exRolloff2 : FRolloffInfo := { RolloffType := 1, MinDistance := 100, MaxDistance := 800 }

/-- An engine in which every channel answers as `exChan` does, with the clock
at `now`. -/
def exEngine (now : ℕ) : SysChan → ChannelReplies := fun _ => exChan now none true

/-- A memory in which every game channel plays on engine channel 7 and has
the start time 0. -/
def exLiveHeap : Heap := fun _ => exChannel (some 7) { Lo := 0, Hi := 0 }

/-- A stream capsule as the constructor for a URL leaves it, with `false` and 0
in the members the constructor does not set. -/
def exUrlCapsule : FMODStreamCapsule :=
  { Stream := some 1, Channel := none, URL := "http://example.org/radio", Ended := false,
    JustStarted := false, Starved := false, Loop := false, Volume := 0 }

/-- A stream capsule as the constructor for a file leaves it. -/
def exFileCapsule : FMODStreamCapsule := { exUrlCapsule with URL := "" }

/-- An engine on which the stream is in the given open state and starving or
not, the channel is playing, and `playSound` and `createSound` succeed with
channel 7 and stream 2. -/
def exStreamReplies (os : FMOD_OPENSTATE) (starving : Bool) : StreamReplies :=
  { getOpenState := some (os, starving), isPlaying := some true, createSound := some 2,
    playSoundOK := true, playSoundChannel := some 7 }

/-- Values of the underwater chain before any command. -/
def exChain : WaterChain :=
  { pitch := 1, lowpassActive := false, lowpassCutoff := 250, reverbActive := false,
    reverbBypass := false, dryMix := 1 }

/-- The millisecond seek offsets among a list of commands. -/
def seekOffsets (calls : List EngineCall) : List ℕ :=
  calls.filterMap fun c =>
    match c with
    | .channel _ (.setPositionMS pos) => some pos
    | _ => none

/-- An engine on which every call of `Init` succeeds, with an output rate of
48000. -/
def exInitReplies : InitReplies :=
  { systemInit := true, createMusicGroup := true, createSfxGroup := true,
    createPausableSfx := true, addGroup := true, createLowpass := true,
    createWaterReverb := true, sfxGetDSP := true, headGetInput := true, createMixer := true,
    placeholderAddInput := true, headAddPlaceholder := true, reverbAddInput := true,
    headAddReverb := true, getMasterChannelGroup := true, masterGetDSP := true,
    masterHeadGetOutput := true, targetGetOutput := true, getSoftwareFormat := some 48000 }

/-- An engine on which the system starts and the three channel groups are
created, and every later call of `Init` fails. -/
def exInitRepliesFailing : InitReplies :=
  { systemInit := true, createMusicGroup := true, createSfxGroup := true,
    createPausableSfx := true, addGroup := false, createLowpass := false,
    createWaterReverb := false, sfxGetDSP := false, headGetInput := false,
    createMixer := false, placeholderAddInput := false, headAddPlaceholder := false,
    reverbAddInput := false, headAddReverb := false, getMasterChannelGroup := false,
    masterGetDSP := false, masterHeadGetOutput := false, targetGetOutput := false,
    getSoftwareFormat := none }

/-- How many times `n` can be divided by ten before it falls below ten: the
decimal logarithm of `n ≥ 1`, rounded down; `fuel` bounds the recursion. -/
def decLog : ℕ → ℕ → ℕ
  | 0, _ => 0
  | fuel + 1, n => if n < 10 then 0 else decLog fuel (n / 10) + 1

/-- Library functions for the examples: a power that is exact (before
rounding) at whole exponents and uses the exponent rounded down elsewhere, a
decimal logarithm that is exact at powers of ten, and a square root that is
exact (before rounding) at squares of whole numbers. -/
def exFloatLib : FloatLib :=
  { powf := fun b y =>
      match b, y with
      | .fin b, .fin y => if b = 0 then .fin 0 else XFloat.round (b ^ ⌊y⌋)
      | _, _ => .nan
    log10f := fun x =>
      match x with
      | .fin q =>
        if q < 0 then .nan
        else if q = 0 then .inf true
        else if 1 ≤ q then XFloat.round (decLog ⌊q⌋.toNat ⌊q⌋.toNat : ℕ)
        else XFloat.round (-(decLog ⌈1 / q⌉.toNat ⌈1 / q⌉.toNat : ℕ) : ℤ)
      | .inf false => .inf false
      | _ => .nan
    sqrtf := fun x =>
      match x with
      | .fin q =>
        if q < 0 then .nan
        else if q = 0 then .fin 0
        else XFloat.round (Nat.sqrt ⌈q⌉.toNat : ℕ)
      | .inf false => .inf false
      | _ => .nan }

/-- Reverb properties with the given integer levels and an `HFReference` of
5000. -/
def exReverb (Room RoomHF RoomLF Reflections Reverb : ℤ) : REVERB_PROPERTIES :=
  { exProps with Room := Room, RoomHF := RoomHF, RoomLF := RoomLF,
                 Reflections := Reflections, Reverb := Reverb }

/-- Console variables with the forced environment 2 and the default
environment 0. -/
def exForcedCVars : CVars := { exCVars with ForcedEnvironment := some 2 }

/-- A valid listener at the origin, above water, in the environment 1. -/
def exListenerIn1 : SoundListener := { exListener false with Environment := some 1 }

/-- A memory in which the environment at address `p` has the room level
`-1000 - p`, so that the three environments 0, 1 and 2 can be told apart; none
is modified and none asks for the software water effect. -/
def exEnvsById : Envs :=
  fun p => { Properties := { exProps with Room := -1000 - (p : ℤ) }, Modified := false,
             SoftwareWater := false }

/-- The whole part of the square root of `n`, one binary digit at a time from
the digit `2^(k-1)` down; `acc` holds the digits found so far. -/
def isqrtBits : ℕ → ℕ → ℕ → ℕ
  | 0, _, acc => acc
  | k + 1, n, acc =>
    isqrtBits k n (if (acc + 2 ^ k) * (acc + 2 ^ k) ≤ n then acc + 2 ^ k else acc)

/-- Library functions for the examples with a fine square root: the square
root cut off after 100 binary places and rounded to `double`, for arguments
below `2^120`. -/
def exFineExternals : Externals :=
  { exExternals with
    sqrt := fun x => f64 ((isqrtBits 160 ⌊x * 2 ^ 200⌋.toNat 0 : ℚ) / 2 ^ 100) }

/-- A point of `float` coordinates a little more than 32 units from the
origin: its squared distance is `1024 + 10 / 2^20`. -/
def exFarPoint : FVector3 := { X := 21069 / 1024, Y := 5287 / 256, Z := 13513 / 1024 }

/-- Another point of `float` coordinates a little more than 32 units from the
origin: its squared distance is `1024 + 10 / 2^22`. -/
def exFarPoint2 : FVector3 := { X := 41151 / 2048, Y := 5209 / 256, Z := 29411 / 2048 }

/-- A point of `float` coordinates whose squared distance from the origin is
below `0.0004 * 0.0004`. -/
def exNearPoint : FVector3 := { X := 12059 / 2 ^ 25, Y := 23571 / 2 ^ 27, Z := 0 }

/-- A point of `float` coordinates whose squared distance from the origin is
above `0.0004 * 0.0004`. -/
def exNotNearPoint : FVector3 := { X := 9381 / 2 ^ 26, Y := 25151 / 2 ^ 26, Z := 0 }

/-- An engine channel like `exChan` whose 3D level is 0. -/
def exChanLevel0 : ChannelReplies := { exChan 0 none true with get3DLevel := some 0 }

/-- The function `bitLength` counts binary digits: a positive `n` lies between
`2^(bitLength n n - 1)` and `2^(bitLength n n)`. -/
theorem bitLength_spec : ∀ (fuel n : ℕ), n ≤ fuel → 0 < n →
    1 ≤ bitLength fuel n ∧ 2 ^ (bitLength fuel n - 1) ≤ n ∧ n < 2 ^ bitLength fuel n := by
  intro fuel
  induction fuel with
  | zero => intro n h1 h2; omega
  | succ fuel ih =>
    intro n h1 h2
    have hn : n ≠ 0 := by omega
    simp only [bitLength, hn, if_false]
    rcases Nat.eq_zero_or_pos (n / 2) with h0 | hpos
    · have hb : bitLength fuel (n / 2) = 0 := by
        rw [h0]
        cases fuel <;> simp [bitLength]
      rw [hb]
      have : n = 1 := by omega
      subst this
      simp
    · obtain ⟨hb1, hlo, hhi⟩ := ih (n / 2) (by omega) hpos
      have hp : 2 ^ bitLength fuel (n / 2) = 2 * 2 ^ (bitLength fuel (n / 2) - 1) := by
        rw [← pow_succ']
        congr 1
        omega
      refine ⟨by omega, ?_, ?_⟩
      · rw [Nat.add_sub_cancel, hp]
        omega
      · rw [pow_succ]
        omega

/-- The function `ilog2` gives the binary exponent of a non-zero rational. -/
theorem ilog2_spec (x : ℚ) (hx : x ≠ 0) :
    (2 : ℚ) ^ ilog2 x ≤ |x| ∧ |x| < (2 : ℚ) ^ (ilog2 x + 1) := by
  have hN : 0 < x.num.natAbs := Int.natAbs_pos.mpr (Rat.num_ne_zero.mpr hx)
  have hD : 0 < x.den := x.den_pos
  obtain ⟨ha1, halo, hahi⟩ := bitLength_spec x.num.natAbs x.num.natAbs le_rfl hN
  obtain ⟨hb1, hblo, hbhi⟩ := bitLength_spec x.den x.den le_rfl hD
  set a := bitLength x.num.natAbs x.num.natAbs with ha
  set b := bitLength x.den x.den with hb
  have habs : |x| = (x.num.natAbs : ℚ) / (x.den : ℚ) := by
    conv_lhs => rw [← Rat.num_div_den x]
    rw [abs_div, Nat.abs_cast, Nat.cast_natAbs, Int.cast_abs]
  have hDq : (0 : ℚ) < x.den := by exact_mod_cast hD
  have h2 : (0 : ℚ) < 2 := by norm_num
  have haloq : (2 : ℚ) ^ (a - 1) ≤ x.num.natAbs := by exact_mod_cast halo
  have hahiq : (x.num.natAbs : ℚ) < 2 ^ a := by exact_mod_cast hahi
  have hbloq : (2 : ℚ) ^ (b - 1) ≤ x.den := by exact_mod_cast hblo
  have hbhiq : (x.den : ℚ) < 2 ^ b := by exact_mod_cast hbhi
  have ea : (2 : ℚ) ^ a = 2 * 2 ^ (a - 1) := by
    rw [← pow_succ']; congr 1; omega
  have eb : (2 : ℚ) ^ b = 2 * 2 ^ (b - 1) := by
    rw [← pow_succ']; congr 1; omega
  have hk : (2 : ℚ) ^ ((a : ℤ) - (b : ℤ)) = 2 ^ a / 2 ^ b := by
    rw [zpow_sub₀ (by norm_num), zpow_natCast, zpow_natCast]
  have hk1 : (2 : ℚ) ^ ((a : ℤ) - (b : ℤ) + 1) = 2 * (2 ^ a / 2 ^ b) := by
    rw [zpow_add_one₀ (by norm_num), hk]; ring
  have hkm : (2 : ℚ) ^ ((a : ℤ) - (b : ℤ) - 1) = 2 ^ a / 2 ^ b / 2 := by
    rw [zpow_sub_one₀ (by norm_num), hk]; ring
  have hpa : (0 : ℚ) < 2 ^ (a - 1) := by positivity
  have hpb : (0 : ℚ) < 2 ^ (b - 1) := by positivity
  unfold ilog2
  simp only [← ha, ← hb]
  by_cases hc : (2 : ℚ) ^ ((a : ℤ) - (b : ℤ)) ≤ |x|
  · rw [if_pos hc]
    refine ⟨hc, ?_⟩
    rw [hk1, habs, ea, eb, div_lt_iff₀ hDq]
    have : 2 * (2 * (2 : ℚ) ^ (a - 1) / (2 * 2 ^ (b - 1))) * (x.den : ℚ)
        = 2 * 2 ^ (a - 1) * ((x.den : ℚ) / 2 ^ (b - 1)) := by
      field_simp
      ring
    rw [this]
    have h1 : (1 : ℚ) ≤ (x.den : ℚ) / 2 ^ (b - 1) := by
      rw [le_div_iff₀ hpb]; linarith
    nlinarith
  · rw [if_neg hc]
    refine ⟨?_, ?_⟩
    · rw [hkm, habs, eb, le_div_iff₀ hDq]
      have : (2 : ℚ) ^ a / (2 * 2 ^ (b - 1)) / 2 * (x.den : ℚ)
          = 2 ^ a / 2 * ((x.den : ℚ) / (2 * 2 ^ (b - 1))) := by
        field_simp
        ring
      rw [this]
      have h1 : (x.den : ℚ) / (2 * 2 ^ (b - 1)) ≤ 1 := by
        rw [div_le_iff₀ (by positivity)]; linarith
      have h3 : (2 : ℚ) ^ a / 2 ≤ x.num.natAbs := by rw [ea]; linarith
      have h4 : (0 : ℚ) ≤ (x.den : ℚ) / (2 * 2 ^ (b - 1)) := by positivity
      nlinarith
    · rw [sub_add_cancel]
      exact lt_of_not_le hc

/-- The function `roundNE` returns an integer within one half of its argument. -/
theorem roundNE_spec (q : ℚ) : |(roundNE q : ℚ) - q| ≤ 1 / 2 := by
  have h1 := Int.floor_le q
  have h2 := Int.lt_floor_add_one q
  unfold roundNE
  simp only
  split_ifs with ha hb hc
  · rw [abs_le]; constructor <;> linarith
  · rw [abs_le]; push_cast; constructor <;> linarith
  · rw [abs_le]; constructor <;> linarith
  · rw [abs_le]; push_cast; constructor <;> linarith

/-- Rounding moves a value by at most half a unit in the last place: the
result of `fround p emin x` is an integer multiple of `2^e`, with `e` the
last-place exponent of `x`, and differs from `x` by at most `2^e / 2`. -/
theorem fround_spec (p : ℕ) (emin : ℤ) (x : ℚ) (hx : x ≠ 0) :
    ∃ m : ℤ, fround p emin x = m * (2 : ℚ) ^ (max (ilog2 x - ((p : ℤ) - 1)) emin)
      ∧ |fround p emin x - x| ≤ (2 : ℚ) ^ (max (ilog2 x - ((p : ℤ) - 1)) emin) / 2 := by
  set e := max (ilog2 x - ((p : ℤ) - 1)) emin with he
  have hpos : (0 : ℚ) < 2 ^ e := by positivity
  refine ⟨roundNE (x / 2 ^ e), by simp only [fround, hx, if_false, ← he], ?_⟩
  have h := roundNE_spec (x / 2 ^ e)
  have : fround p emin x - x = ((roundNE (x / 2 ^ e) : ℚ) - x / 2 ^ e) * 2 ^ e := by
    simp only [fround, hx, if_false, ← he]
    field_simp
  rw [this, abs_mul, abs_of_pos hpos]
  calc |(roundNE (x / 2 ^ e) : ℚ) - x / 2 ^ e| * 2 ^ e ≤ 1 / 2 * 2 ^ e := by
        exact mul_le_mul_of_nonneg_right h hpos.le
    _ = 2 ^ e / 2 := by ring

theorem QWORD_UNION.AsOne_lt (q : QWORD_UNION) : q.AsOne < 2 ^ 64 := by
  unfold QWORD_UNION.AsOne QWORD_UNION.hi QWORD_UNION.lo
  omega

theorem QWORD_UNION.AsOne_ofHalves (v : ℕ) : (QWORD_UNION.ofHalves v).AsOne = v % 2 ^ 64 := by
  have h1 : ∀ w : ℕ, w &&& 0xFFFFFFFF = w % 2 ^ 32 := fun w =>
    Nat.and_pow_two_sub_one_eq_mod w 32
  simp only [QWORD_UNION.AsOne, QWORD_UNION.hi, QWORD_UNION.lo, QWORD_UNION.ofHalves, h1,
    Nat.shiftRight_eq_div_pow]
  omega

theorem QWORD_UNION.AsOne_setAsOne (v : ℕ) : (QWORD_UNION.setAsOne v).AsOne = v % 2 ^ 64 := by
  simp only [QWORD_UNION.AsOne, QWORD_UNION.hi, QWORD_UNION.lo, QWORD_UNION.setAsOne]
  omega

theorem and_or_left_absorb (f a l : ℕ) : (f &&& (a ||| l)) &&& a = f &&& a := by
  apply Nat.eq_of_testBit_eq
  intro i
  simp only [Nat.testBit_and, Nat.testBit_or]
  cases f.testBit i <;> cases a.testBit i <;> cases l.testBit i <;> rfl

theorem and_or_right_absorb (f a l : ℕ) : (f &&& (a ||| l)) &&& l = f &&& l := by
  rw [Nat.lor_comm]; exact and_or_left_absorb f l a


/-- Rounding a value of the normal range moves it by at most the fraction
`2^-p` of its magnitude. -/
theorem fround_rel_error (p : ℕ) (emin : ℤ) (x : ℚ)
    (hx : (2 : ℚ) ^ (emin + (p : ℤ) - 1) ≤ |x|) :
    |fround p emin x - x| ≤ (2 : ℚ) ^ (-(p : ℤ)) * |x| := by
  have hx0 : x ≠ 0 := by
    intro h
    rw [h, abs_zero] at hx
    exact absurd hx (not_le.mpr (by positivity))
  obtain ⟨-, herr⟩ := (fround_spec p emin x hx0).choose_spec
  obtain ⟨hlo, hhi⟩ := ilog2_spec x hx0
  have h1 : emin + (p : ℤ) - 1 < ilog2 x + 1 :=
    (zpow_lt_zpow_iff_right₀ (by norm_num : (1 : ℚ) < 2)).mp (lt_of_le_of_lt hx hhi)
  have he : max (ilog2 x - ((p : ℤ) - 1)) emin = ilog2 x - ((p : ℤ) - 1) :=
    max_eq_left (by omega)
  rw [he] at herr
  have h2 : (2 : ℚ) ^ (ilog2 x - ((p : ℤ) - 1)) / 2 = 2 ^ (-(p : ℤ)) * 2 ^ ilog2 x := by
    rw [show ilog2 x - ((p : ℤ) - 1) = -(p : ℤ) + ilog2 x + 1 by ring,
      zpow_add_one₀ (by norm_num), zpow_add₀ (by norm_num)]
    ring
  rw [h2] at herr
  have h3 : (0 : ℚ) ≤ 2 ^ (-(p : ℤ)) := by positivity
  exact le_trans herr (mul_le_mul_of_nonneg_left hlo h3)

/-- Rounding moves any value by at most the fraction `2^-p` of its magnitude
plus half a unit in the last place of the subnormal numbers. -/
theorem fround_abs_error (p : ℕ) (emin : ℤ) (x : ℚ) :
    |fround p emin x - x| ≤ (2 : ℚ) ^ (-(p : ℤ)) * |x| + 2 ^ (emin - 1) := by
  have hp1 : (0 : ℚ) ≤ 2 ^ (-(p : ℤ)) * |x| := by positivity
  have hp2 : (0 : ℚ) ≤ 2 ^ (emin - 1) := by positivity
  by_cases hx0 : x = 0
  · simp only [fround, hx0, if_true, sub_self, abs_zero, mul_zero, zero_add]
    exact hp2
  by_cases hn : (2 : ℚ) ^ (emin + (p : ℤ) - 1) ≤ |x|
  · have := fround_rel_error p emin x hn
    linarith
  · push_neg at hn
    obtain ⟨-, herr⟩ := (fround_spec p emin x hx0).choose_spec
    obtain ⟨hlo, -⟩ := ilog2_spec x hx0
    have h1 : ilog2 x < emin + (p : ℤ) - 1 :=
      (zpow_lt_zpow_iff_right₀ (by norm_num : (1 : ℚ) < 2)).mp (lt_of_le_of_lt hlo hn)
    have he : max (ilog2 x - ((p : ℤ) - 1)) emin = emin := max_eq_right (by omega)
    rw [he] at herr
    have h2 : (2 : ℚ) ^ emin / 2 = 2 ^ (emin - 1) := by
      rw [zpow_sub_one₀ (by norm_num)]
      ring
    rw [h2] at herr
    linarith

/-- Rounding to `float` moves a value of magnitude at least `2^-126` by at
most the fraction `2^-24` of its magnitude. -/
theorem f32_rel_error (x : ℚ) (hx : (2 : ℚ) ^ (-126 : ℤ) ≤ |x|) :
    |f32 x - x| ≤ (2 : ℚ) ^ (-24 : ℤ) * |x| :=
  fround_rel_error 24 (-149) x (by norm_num at hx ⊢; exact hx)

/-- Rounding to `float` moves any value by at most the fraction `2^-24` of its
magnitude plus `2^-150`. -/
theorem f32_abs_error (x : ℚ) :
    |f32 x - x| ≤ (2 : ℚ) ^ (-24 : ℤ) * |x| + 2 ^ (-150 : ℤ) :=
  fround_abs_error 24 (-149) x

/-- With the absolute-time flag and a frequency of zero, which `StartSound`
and `StartSound3D` pass when `getDefaults` fails, the quotient is not finite and
its conversion to a 64-bit integer has no meaning. -/
theorem HandleChannelDelay_abstime_zero_freq (K : Consts) (r : Renderer) (h : Heap)
    (chan : ChannelReplies) (p : ChanPtr) (flags : ℕ)
    (hflag : flags &&& K.SNDF_ABSTIME ≠ 0) :
    HandleChannelDelay K r h chan (some p) flags 0 = .error .undefinedBehaviour := by
  simp only [HandleChannelDelay, hflag, ne_eq, not_false_eq_true, if_true]

/-- With the absolute-time flag, seek target 100000 and output rate 48000, the
32-bit product wraps from 4800000000 to 505032704: at clock `2^24` and
frequency 4096 the stored start time is `2^24 - 123299`, although
`S * OutputRate / frequency` is 1171875. Every floating-point step is exact
here. -/
theorem HandleChannelDelay_abstime_product_wraps :
    (HandleChannelDelay zdoomConsts (exRenderer 48000) (exHeap { Lo := 100000, Hi := 0 })
        (exChan 16777216 none true) (some 0) zdoomConsts.SNDF_ABSTIME 4096).toOption.map
      (fun d => (d.heap 0).StartTime.AsOne) = some (16777216 - 123299)
    ∧ (100000 * 48000 % 2 ^ 32 = 505032704 ∧ 505032704 / 4096 = 123299
        ∧ 100000 * 48000 / 4096 = 1171875) := by
  refine ⟨by decide!, by decide⟩

/-- The relative-time branch of `HandleChannelDelay` when a seek is made: with
a reuse session, the absolute-time flag clear, a recorded start time that is
neither zero nor the clock value `now`, and a non-zero output rate, the
function sends one millisecond seek and returns whether the engine accepted
it. `wrapped` is the elapsed time after the reduction of looping sounds. -/
theorem HandleChannelDelay_relative (K : Consts) (r : Renderer) (h : Heap)
    (chan : ChannelReplies) (p : ChanPtr) (flags : ℕ) (freq : ℚ)
    (habs : flags &&& K.SNDF_ABSTIME = 0)
    (hstart : (h p).StartTime.AsOne ≠ 0)
    (hdiff : ((QWORD_UNION.ofHalves chan.getDelay).AsOne + 2 ^ 64 - (h p).StartTime.AsOne)
        % 2 ^ 64 ≠ 0)
    (hrate : toU64 r.OutputRate ≠ 0) :
    ∃ wrapped : ℕ,
      wrapped = (if flags &&& K.SNDF_LOOP ≠ 0 then
          match chan.getCurrentSound with
          | some (some len) =>
            if len % 2 ^ 32 ≠ 0 then
              ((QWORD_UNION.ofHalves chan.getDelay).AsOne + 2 ^ 64 - (h p).StartTime.AsOne)
                % 2 ^ 64 % (len % 2 ^ 32)
            else ((QWORD_UNION.ofHalves chan.getDelay).AsOne + 2 ^ 64
                - (h p).StartTime.AsOne) % 2 ^ 64
          | _ => ((QWORD_UNION.ofHalves chan.getDelay).AsOne + 2 ^ 64
                - (h p).StartTime.AsOne) % 2 ^ 64
        else ((QWORD_UNION.ofHalves chan.getDelay).AsOne + 2 ^ 64
                - (h p).StartTime.AsOne) % 2 ^ 64) ∧
      HandleChannelDelay K r h chan (some p) flags freq
        = .ok { ret := chan.setPositionOK, heap := h
                calls := [.channel chan.handle
                  (.setPositionMS (wrapped / toU64 r.OutputRate % 2 ^ 32))] } := by
  refine ⟨_, rfl, ?_⟩
  simp only [HandleChannelDelay, habs, ne_eq, not_true_eq_false, if_false, hstart,
    not_false_eq_true, if_true, Nat.pos_of_ne_zero hdiff, gt_iff_lt, hrate]

/-- C3 (counterexample): for a looping sound whose length the engine reports as
0 ms, restarted 96000 samples after its start at output rate 48000, the seek
offset is 2, which is not below the length. -/
theorem C3_counterexample :
    (HandleChannelDelay zdoomConsts (exRenderer 48000) (exHeap { Lo := 1000, Hi := 0 })
        (exChan 97000 (some (some 0)) true) (some 0) zdoomConsts.SNDF_LOOP 11025).toOption.map
      (fun d => d.calls) = some [.channel 7 (.setPositionMS 2)]
    ∧ ¬ (2 < 0) := by
  refine ⟨by decide!, by decide⟩

/-- C3 (amended): for a looping relative-time resume whose sound length `L` the
engine reports with `0 < L < 2^32`, and a non-zero output rate,
`HandleChannelDelay` returns and every millisecond seek it sends has an offset
strictly below `L`. -/
theorem C3_loop_seek_below_length (K : Consts) (r : Renderer) (h : Heap)
    (chan : ChannelReplies) (reuse_chan : Option ChanPtr) (flags : ℕ) (freq : ℚ) (L : ℕ)
    (hloop : flags &&& K.SNDF_LOOP ≠ 0) (habs : flags &&& K.SNDF_ABSTIME = 0)
    (hlen : chan.getCurrentSound = some (some L)) (hL0 : 0 < L) (hL32 : L < 2 ^ 32)
    (hrate : toU64 r.OutputRate ≠ 0) :
    ∃ d, HandleChannelDelay K r h chan reuse_chan flags freq = .ok d ∧
      ∀ c pos, EngineCall.channel c (.setPositionMS pos) ∈ d.calls → pos < L := by
  have hLm : L % 2 ^ 32 = L := Nat.mod_eq_of_lt hL32
  cases reuse_chan with
  | none => exact ⟨_, rfl, by simp⟩
  | some p =>
    by_cases hstart : (h p).StartTime.AsOne = 0
    · refine ⟨{ ret := true, heap := h, calls := [] }, ?_, by simp⟩
      simp [HandleChannelDelay, habs, hstart]
    · by_cases hdiff : ((QWORD_UNION.ofHalves chan.getDelay).AsOne + 2 ^ 64
          - (h p).StartTime.AsOne) % 2 ^ 64 = 0
      · refine ⟨{ ret := true, heap := h, calls := [] }, ?_, by simp⟩
        simp only [HandleChannelDelay, habs, ne_eq, not_true_eq_false, if_false, hstart,
          not_false_eq_true, if_true, hdiff, gt_iff_lt, lt_self_iff_false]
      · obtain ⟨w, hw, heq⟩ := HandleChannelDelay_relative K r h chan p flags freq habs
          hstart hdiff hrate
        refine ⟨_, heq, ?_⟩
        intro c pos hmem
        simp only [List.mem_singleton, EngineCall.channel.injEq, ChannelCmd.setPositionMS.injEq]
          at hmem
        obtain ⟨-, hpos⟩ := hmem
        have hwL : w < L := by
          rw [hw]
          simp only [hloop, ne_eq, not_false_eq_true, if_true, hlen, hLm,
            Nat.pos_iff_ne_zero.mp hL0]
          exact Nat.mod_lt _ hL0
        rw [hpos]
        exact lt_of_le_of_lt (Nat.mod_le _ _) (lt_of_le_of_lt (Nat.div_le_self _ _) hwL)

/-- C3 (witness): start time 1000, length 500, clock 1700 and output rate 1,
where the seek offset is 200. -/
theorem C3_loop_seek_below_length_witness :
    ∃ d, HandleChannelDelay zdoomConsts (exRenderer 1) (exHeap { Lo := 1000, Hi := 0 })
        (exChan 1700 (some (some 500)) true) (some 0) zdoomConsts.SNDF_LOOP 11025 = .ok d ∧
      ∀ c pos, EngineCall.channel c (.setPositionMS pos) ∈ d.calls → pos < 500 :=
  C3_loop_seek_below_length zdoomConsts (exRenderer 1) (exHeap { Lo := 1000, Hi := 0 })
    (exChan 1700 (some (some 500)) true) (some 0) zdoomConsts.SNDF_LOOP 11025 500
    (by decide) (by decide) rfl (by decide) (by decide) (by decide)

/-- C4 (the code at the failing input): with the relative-time policy, clock
1000 and recorded start time 2000, the unsigned difference wraps to
`2^64 - 1000`, the test `difftime > 0` passes, and `HandleChannelDelay` sends a
seek to `(2^64 - 1000) / 48000 mod 2^32 = 2084490794` ms. -/
theorem C4_seek_when_clock_before_start :
    (HandleChannelDelay zdoomConsts (exRenderer 48000) (exHeap { Lo := 2000, Hi := 0 })
        (exChan 1000 (some (some 500)) true) (some 0) 0 11025).toOption.map
      (fun d => (d.ret, d.calls)) = some (true, [.channel 7 (.setPositionMS 2084490794)])
    ∧ (2 ^ 64 - 1000) / 48000 % 2 ^ 32 = 2084490794 := by
  refine ⟨by decide!, by decide⟩

/-- C5 (the code at the failing input): a restore with the absolute-time flag,
seek target 5 and an engine that rejects every seek. `HandleChannelDelay` sends
the PCM seek, ignores its result and returns true; `StartSound` and
`StartSound3D` go on to unpause the channel and return the reused game channel
at address 0, and never stop the channel. -/
theorem C5_abstime_seek_rejected_still_starts :
    (HandleChannelDelay zdoomConsts (exRenderer 48000) (exHeap { Lo := 5, Hi := 0 })
        (exChan 1000 none false) (some 0) zdoomConsts.SNDF_ABSTIME 11025).toOption.map
      (fun d => (d.ret, d.calls)) = some (true, [.channel 7 (.setPositionPCM 5)])
    ∧ (StartSound exExternals zdoomConsts exCVars (exRenderer 48000)
        (exHeap { Lo := 5, Hi := 0 }) (exSound (exChan 1000 none false)) 1 128
        zdoomConsts.SNDF_ABSTIME (some 0)).toOption.map
      (fun s => (s.ret, decide (EngineCall.channel 7 .stop ∈ s.calls),
        decide (EngineCall.channel 7 (.setPaused false) ∈ s.calls))) = some (some 0, false, true)
    ∧ (StartSound3D exExternals zdoomConsts exCVars (exRenderer 48000)
        (exHeap { Lo := 5, Hi := 0 }) (exSound (exChan 1000 none false)) (exListener false) 1
        exRolloff 1 128 0 exOrigin exOrigin zdoomConsts.SNDF_ABSTIME (some 0)).toOption.map
      (fun s => (s.ret, decide (EngineCall.channel 7 .stop ∈ s.calls),
        decide (EngineCall.channel 7 (.setPaused false) ∈ s.calls))) = some (some 0, false, true) := by
  refine ⟨by decide!, by decide!, by decide!⟩

/-- The tail shared by `StartSound` and `StartSound3D` on a relative-time
restart whose seek the engine rejects: the channel is stopped, no game channel
is returned, and neither the memory nor the renderer changes. -/
theorem finishStart_seek_rejected (X : Externals) (K : Consts) (r : Renderer) (h : Heap)
    (chan : ChannelReplies) (p : ChanPtr) (flags : ℕ) (freq : ℚ) (pre : List EngineCall)
    (rolloff : Option FRolloffInfo)
    (habs : flags &&& K.SNDF_ABSTIME = 0)
    (hstart0 : (h p).StartTime.AsOne ≠ 0)
    (hlt : (h p).StartTime.AsOne < (QWORD_UNION.ofHalves chan.getDelay).AsOne)
    (hrate : toU64 r.OutputRate ≠ 0)
    (hrej : chan.setPositionOK = false) :
    ∃ s, finishStart X K r h chan (some p) flags freq pre rolloff = .ok s ∧ s.ret = none
      ∧ s.calls.getLast? = some (.channel chan.handle .stop) ∧ s.heap = h ∧ s.r = r := by
  have hnow := QWORD_UNION.AsOne_lt (QWORD_UNION.ofHalves chan.getDelay)
  obtain ⟨w, -, heq⟩ := HandleChannelDelay_relative K r h chan p
    (flags &&& (K.SNDF_ABSTIME ||| K.SNDF_LOOP)) freq
    (by rw [and_or_left_absorb]; exact habs) hstart0 (by omega) hrate
  refine ⟨{ ret := none, r := r, heap := h
            calls := pre ++ [.channel chan.handle
                (.setPositionMS (w / toU64 r.OutputRate % 2 ^ 32))]
              ++ [.channel chan.handle .stop] }, ?_, rfl, ?_, rfl, rfl⟩
  · simp only [finishStart, heq, hrej, bind, Except.bind, pure, Except.pure]
    rfl
  · simp

/-- C6: on a relative-time restart (reuse session, absolute-time flag clear,
recorded start time non-zero and before the clock) whose seek the engine
rejects, both `StartSound` and `StartSound3D` return `NULL`, their last command
stops the engine channel `playSound` created, and the memory of game channels is
unchanged, so the reuse session keeps its engine-channel reference and start
time. The seek is reached when the output rate is non-zero and, in
`StartSound`, when `getMode` succeeds or `assert` is compiled out. -/
theorem C6_relative_seek_rejected (X : Externals) (K : Consts) (C : CVars) (r : Renderer)
    (h : Heap) (sfx : SoundReplies) (chan : ChannelReplies) (p : ChanPtr) (vol : ℚ)
    (pitch : ℤ) (flags : ℕ) (listener : SoundListener) (rolloff : FRolloffInfo)
    (distscale : ℚ) (priority : ℤ) (pos vel : FVector3)
    (hplay : sfx.playSound = some chan)
    (hmode : chan.getMode ≠ none ∨ K.NDEBUG = true)
    (habs : flags &&& K.SNDF_ABSTIME = 0)
    (hstart0 : (h p).StartTime.AsOne ≠ 0)
    (hlt : (h p).StartTime.AsOne < (QWORD_UNION.ofHalves chan.getDelay).AsOne)
    (hrate : toU64 r.OutputRate ≠ 0)
    (hrej : chan.setPositionOK = false) :
    (∃ s, StartSound X K C r h sfx vol pitch flags (some p) = .ok s ∧ s.ret = none
      ∧ s.calls.getLast? = some (.channel chan.handle .stop)
      ∧ s.heap = h
      ∧ (s.heap p).SysChannel = (h p).SysChannel ∧ (s.heap p).StartTime = (h p).StartTime)
    ∧ (∃ s, StartSound3D X K C r h sfx listener vol rolloff distscale pitch priority pos vel
          flags (some p) = .ok s ∧ s.ret = none
      ∧ s.calls.getLast? = some (.channel chan.handle .stop)
      ∧ s.heap = h
      ∧ (s.heap p).SysChannel = (h p).SysChannel ∧ (s.heap p).StartTime = (h p).StartTime) := by
  have key : ∀ (r1 : Renderer) (freq : ℚ) (pre : List EngineCall)
      (ro : Option FRolloffInfo), r1.OutputRate = r.OutputRate →
      ∃ s, finishStart X K r1 h chan (some p) flags freq pre ro = .ok s ∧ s.ret = none
        ∧ s.calls.getLast? = some (.channel chan.handle .stop) ∧ s.heap = h
        ∧ (s.heap p).SysChannel = (h p).SysChannel
        ∧ (s.heap p).StartTime = (h p).StartTime := by
    intro r1 freq pre ro hr
    obtain ⟨s, hs, h1, h2, h3, -⟩ := finishStart_seek_rejected X K r1 h chan p flags freq pre ro
      habs hstart0 hlt (by rw [hr]; exact hrate) hrej
    exact ⟨s, hs, h1, h2, h3, by rw [h3], by rw [h3]⟩
  constructor
  · cases hg : chan.getMode with
    | some m =>
      simp only [StartSound, hplay, hg, bind, Except.bind, pure, Except.pure]
      exact key _ _ _ _ rfl
    | none =>
      have hnd : K.NDEBUG = true := by
        rcases hmode with hne | hnd
        · exact absurd hg hne
        · exact hnd
      simp only [StartSound, hplay, hg, hnd, if_true, bind, Except.bind, pure, Except.pure]
      exact key _ _ _ _ rfl
  · simp only [StartSound3D, hplay]
    exact key _ _ _ _ rfl

/-- C6 (witness): a looping sound recorded at start time 1000 and restarted at
clock 1700 on an engine that rejects the seek. -/
theorem C6_relative_seek_rejected_witness :
    (∃ s, StartSound exExternals zdoomConsts exCVars (exRenderer 48000)
        (exHeap { Lo := 1000, Hi := 0 }) (exSound (exChan 1700 (some (some 500)) false)) 1 128
        zdoomConsts.SNDF_LOOP (some 0) = .ok s ∧ s.ret = none
      ∧ s.calls.getLast? = some (.channel (exChan 1700 (some (some 500)) false).handle .stop)
      ∧ s.heap = exHeap { Lo := 1000, Hi := 0 }
      ∧ (s.heap 0).SysChannel = (exHeap { Lo := 1000, Hi := 0 } 0).SysChannel
      ∧ (s.heap 0).StartTime = (exHeap { Lo := 1000, Hi := 0 } 0).StartTime)
    ∧ (∃ s, StartSound3D exExternals zdoomConsts exCVars (exRenderer 48000)
        (exHeap { Lo := 1000, Hi := 0 }) (exSound (exChan 1700 (some (some 500)) false))
        (exListener false) 1 exRolloff 1 128 0 exOrigin exOrigin
        zdoomConsts.SNDF_LOOP (some 0) = .ok s ∧ s.ret = none
      ∧ s.calls.getLast? = some (.channel (exChan 1700 (some (some 500)) false).handle .stop)
      ∧ s.heap = exHeap { Lo := 1000, Hi := 0 }
      ∧ (s.heap 0).SysChannel = (exHeap { Lo := 1000, Hi := 0 } 0).SysChannel
      ∧ (s.heap 0).StartTime = (exHeap { Lo := 1000, Hi := 0 } 0).StartTime) :=
  C6_relative_seek_rejected exExternals zdoomConsts exCVars (exRenderer 48000)
    (exHeap { Lo := 1000, Hi := 0 }) (exSound (exChan 1700 (some (some 500)) false))
    (exChan 1700 (some (some 500)) false) 0 1 128 zdoomConsts.SNDF_LOOP (exListener false)
    exRolloff 1 0 exOrigin exOrigin rfl (Or.inl (by decide)) (by decide) (by decide!)
    (by decide!) (by decide) rfl

/-- C7 (counterexample): after `Sync(true)` at clock 1000 has set the lock, a
second `Sync(true)` at clock 5000 returns normally: it sends `lockDSP` again and
overwrites the clock snapshot with 5000. No assertion is raised. -/
theorem C7_counterexample :
    (Sync (exRenderer 48000) 1000 true).toOption.map
        (fun s => (s.r.DSPLocked, s.r.DSPClock.AsOne)) = some (true, 1000)
    ∧ ((Sync (exRenderer 48000) 1000 true).bind (fun s => Sync s.r 5000 true)).toOption.map
        (fun s => (s.calls, s.r.DSPLocked, s.r.DSPClock.AsOne))
        = some ([EngineCall.lockDSP], true, 5000)
    ∧ (Sync (exRenderer 48000) 1000 true).bind (fun s => Sync s.r 5000 true)
        ≠ .error Fault.assertFailed := by
  refine ⟨by decide!, by decide!, ?_⟩
  intro h
  cases h

/-- C7 (amended): `Sync` makes no nesting check. In every renderer state,
locked or not, `Sync(true)` returns normally after sending `lockDSP`, setting
`DSPLocked` and storing the engine clock in `DSPClock`; it never fails an
assertion. -/
theorem C7_sync_true_never_asserts (r : Renderer) (clock : ℕ) :
    Sync r clock true
      = .ok { r := { r with DSPLocked := true, DSPClock := QWORD_UNION.ofHalves clock }
              calls := [.lockDSP] }
    ∧ Sync r clock true ≠ .error Fault.assertFailed
    ∧ ∀ s, Sync r clock true = .ok s → s.r.DSPClock.AsOne = clock % 2 ^ 64 := by
  refine ⟨rfl, ?_, ?_⟩
  · intro h
    cases h
  · intro s hs
    cases hs
    exact QWORD_UNION.AsOne_ofHalves clock

/-- One clock call never fails when `TICRATE` is non-zero; it keeps the output
rate, `UpdateSounds` leaves the clock at the reading plus one tic, `Sync(true)`
at the reading, and `Sync(false)` leaves it alone. -/
theorem clockStep_spec (K : Consts) (r : Renderer) (c : ClockCall) (clock : ℕ)
    (htic : K.TICRATE ≠ 0) (hb : clock + ticSamples K r < 2 ^ 64) :
    ∃ s, clockStep K r c clock = .ok s ∧ s.r.OutputRate = r.OutputRate ∧
      s.r.DSPClock.AsOne =
        (match c with
          | .UpdateSounds => clock + ticSamples K r
          | .Sync true => clock
          | .Sync false => r.DSPClock.AsOne) := by
  cases c with
  | UpdateSounds =>
    refine ⟨_, by simp only [clockStep, UpdateSounds, htic, if_false]; rfl, rfl, ?_⟩
    simp only [QWORD_UNION.AsOne_setAsOne, QWORD_UNION.AsOne_ofHalves]
    omega
  | Sync b =>
    cases b with
    | true =>
      refine ⟨_, rfl, rfl, ?_⟩
      simp only [QWORD_UNION.AsOne_ofHalves]
      omega
    | false => exact ⟨_, rfl, rfl, rfl⟩

/-- Along a sequence of clock calls whose engine clock readings never decrease
and start at or after `lo`, from a state whose clock is at most `lo` plus one
tic: the run reaches the last call, which leaves the clock as `clockStep_spec`
says, and the clock before that call is at most its reading plus one tic. -/
theorem clockRun_last (K : Consts) (htic : K.TICRATE ≠ 0) :
    ∀ (calls : List (ClockCall × ℕ)) (r : Renderer) (lo : ℕ) (c : ClockCall) (clock : ℕ),
      r.DSPClock.AsOne ≤ lo + ticSamples K r →
      (∀ x ∈ (calls ++ [(c, clock)]).map Prod.snd, lo ≤ x ∧ x + ticSamples K r < 2 ^ 64) →
      List.Pairwise (· ≤ ·) ((calls ++ [(c, clock)]).map Prod.snd) →
      ∃ r1 s, clockRun K r calls = .ok r1 ∧ clockStep K r1 c clock = .ok s ∧
        ticSamples K r1 = ticSamples K r ∧
        r1.DSPClock.AsOne ≤ clock + ticSamples K r ∧
        s.r.DSPClock.AsOne =
          (match c with
            | .UpdateSounds => clock + ticSamples K r
            | .Sync true => clock
            | .Sync false => r1.DSPClock.AsOne) := by
  intro calls
  induction calls with
  | nil =>
    intro r lo c clock hinv hb _
    have hc := hb clock (by simp)
    obtain ⟨s, hs, -, hval⟩ := clockStep_spec K r c clock htic hc.2
    exact ⟨r, s, rfl, hs, rfl, by omega, hval⟩
  | cons a rest ih =>
    intro r lo c clock hinv hb hp
    obtain ⟨c0, k⟩ := a
    have hk := hb k (by simp)
    obtain ⟨s0, hs0, hrate0, hval0⟩ := clockStep_spec K r c0 k htic hk.2
    have htic0 : ticSamples K s0.r = ticSamples K r := by
      unfold ticSamples
      rw [hrate0]
    simp only [List.cons_append, List.map_cons, List.pairwise_cons] at hp
    have hinv0 : s0.r.DSPClock.AsOne ≤ k + ticSamples K s0.r := by
      rw [hval0, htic0]
      cases c0 with
      | UpdateSounds => exact le_refl _
      | Sync b =>
        cases b with
        | true => exact Nat.le_add_right _ _
        | false => exact le_trans hinv (by omega)
    have hb0 : ∀ x ∈ (rest ++ [(c, clock)]).map Prod.snd,
        k ≤ x ∧ x + ticSamples K s0.r < 2 ^ 64 := by
      intro x hx
      rw [htic0]
      have hx2 : x ∈ (((c0, k) :: rest) ++ [(c, clock)]).map Prod.snd := by
        simp only [List.cons_append, List.map_cons, List.mem_cons]
        exact Or.inr hx
      exact ⟨hp.1 x hx, (hb x hx2).2⟩
    obtain ⟨r1, s, hrun, hstep, ht, hle, hval⟩ := ih s0.r k c clock hinv0 hb0 hp.2
    refine ⟨r1, s, ?_, hstep, by rw [ht, htic0], by rw [← htic0]; exact hle, ?_⟩
    · simp only [clockRun, hs0]
      exact hrun
    · rw [hval, htic0]

/-- C8 (counterexample): from the state `Init` leaves (clock 0, output rate
48000, `TICRATE` 35), `UpdateSounds` at engine clock 1000 sets `DSPClock` to
`1000 + 48000 / 35 = 2371`; `Sync(true)` at the later engine clock 1001 then
sets it to 1001, which is smaller. -/
theorem C8_counterexample :
    (clockRun zdoomConsts (exRenderer 48000) [(.UpdateSounds, 1000)]).toOption.map
        (fun r => r.DSPClock.AsOne) = some 2371
    ∧ (clockRun zdoomConsts (exRenderer 48000)
        [(.UpdateSounds, 1000), (.Sync true, 1001)]).toOption.map
        (fun r => r.DSPClock.AsOne) = some 1001
    ∧ 1000 ≤ 1001 ∧ 1001 < 2371 := by
  refine ⟨by decide!, by decide!, by decide, by decide⟩

/-- C8 (amended): start from a state whose `DSPClock` is 0, as `Init` leaves
it, and make any sequence of `UpdateSounds` and `Sync` calls against engine
clock readings that never decrease and stay below `2^64` minus one tic. Then
no call fails; every `UpdateSounds` and every `Sync(false)` leaves `DSPClock`
at least as large as before the call; and every `Sync(true)` sets `DSPClock` to
the engine clock reading, which is below the value before the call by at most
one tic (`OutputRate / TICRATE`). -/
theorem C8_clock_steps (K : Consts) (r0 : Renderer) (calls : List (ClockCall × ℕ))
    (c : ClockCall) (clock : ℕ)
    (htic : K.TICRATE ≠ 0)
    (h0 : r0.DSPClock.AsOne = 0)
    (hmono : List.Pairwise (· ≤ ·) ((calls ++ [(c, clock)]).map Prod.snd))
    (hbound : ∀ x ∈ (calls ++ [(c, clock)]).map Prod.snd, x + ticSamples K r0 < 2 ^ 64) :
    ∃ r1 s, clockRun K r0 calls = .ok r1 ∧ clockStep K r1 c clock = .ok s ∧
      (c ≠ .Sync true → r1.DSPClock.AsOne ≤ s.r.DSPClock.AsOne) ∧
      (c = .Sync true → s.r.DSPClock.AsOne = clock ∧
        r1.DSPClock.AsOne ≤ s.r.DSPClock.AsOne + ticSamples K r0) := by
  obtain ⟨r1, s, hrun, hstep, -, hle, hval⟩ := clockRun_last K htic calls r0 0 c clock
    (by rw [h0]; exact Nat.zero_le _) (fun x hx => ⟨Nat.zero_le _, hbound x hx⟩) hmono
  refine ⟨r1, s, hrun, hstep, ?_, ?_⟩
  · intro hc
    rw [hval]
    cases c with
    | UpdateSounds => exact hle
    | Sync b =>
      cases b with
      | true => exact absurd rfl hc
      | false => exact le_refl _
  · intro hc
    subst hc
    rw [hval]
    exact ⟨rfl, hle⟩

/-- C8 (witness): the run `UpdateSounds` at 1000, `Sync(true)` at 1001, followed
by `UpdateSounds` at 1002, which raises the clock from 1001 to 2373. -/
theorem C8_clock_steps_witness :
    ∃ r1 s, clockRun zdoomConsts (exRenderer 48000)
        [(.UpdateSounds, 1000), (.Sync true, 1001)] = .ok r1 ∧
      clockStep zdoomConsts r1 .UpdateSounds 1002 = .ok s ∧
      (ClockCall.UpdateSounds ≠ .Sync true → r1.DSPClock.AsOne ≤ s.r.DSPClock.AsOne) ∧
      (ClockCall.UpdateSounds = .Sync true → s.r.DSPClock.AsOne = 1002 ∧
        r1.DSPClock.AsOne ≤ s.r.DSPClock.AsOne + ticSamples zdoomConsts (exRenderer 48000)) :=
  C8_clock_steps zdoomConsts (exRenderer 48000) [(.UpdateSounds, 1000), (.Sync true, 1001)]
    .UpdateSounds 1002 (by decide) (by decide) (by decide) (by decide!)

/-- Every command of `ReconnectSFXReverbUnit` is change-guarded and none is the
reverb parameter set. -/
theorem ReconnectSFXReverbUnit_calls (r : Renderer) (g : GraphReplies) :
    (ReconnectSFXReverbUnit r g).2.filter (fun c => !changeGuarded c) = []
    ∧ (ReconnectSFXReverbUnit r g).2.filter isReverbSet = [] := by
  unfold ReconnectSFXReverbUnit
  split
  · exact ⟨rfl, rfl⟩
  · split
    · exact ⟨rfl, rfl⟩
    · split
      · exact ⟨rfl, rfl⟩
      · split
        · exact ⟨rfl, rfl⟩
        · split <;> exact ⟨rfl, rfl⟩

/-- The environment block of `UpdateListener`: it sends the reverb parameter set
exactly when the environment differs from `PrevEnvironment` or is modified; all
its commands are change-guarded; it leaves the environment unmodified and
recorded, and touches nothing the underwater block reads. -/
theorem updateEnvironment_spec (r : Renderer) (envs : Envs) (g : GraphReplies) (env : EnvPtr) :
    ((updateEnvironment r envs g env).calls.filter isReverbSet
        = if r.PrevEnvironment ≠ some env ∨ (envs env).Modified = true then
            [.setSystemReverbProperties (envs env).Properties] else [])
    ∧ (updateEnvironment r envs g env).calls.filter (fun c => !changeGuarded c) = []
    ∧ (updateEnvironment r envs g env).r.PrevEnvironment = some env
    ∧ ((updateEnvironment r envs g env).envs env).Modified = false
    ∧ ((updateEnvironment r envs g env).envs env).SoftwareWater = (envs env).SoftwareWater
    ∧ (updateEnvironment r envs g env).r.WaterLP = r.WaterLP
    ∧ (updateEnvironment r envs g env).r.WaterReverb = r.WaterReverb
    ∧ (updateEnvironment r envs g env).r.SfxConnection = r.SfxConnection
    ∧ (updateEnvironment r envs g env).r.LastWaterLP = r.LastWaterLP := by
  have hR := fun r1 => ReconnectSFXReverbUnit_calls r1 g
  unfold updateEnvironment
  by_cases hc : r.PrevEnvironment ≠ some env ∨ (envs env).Modified = true
  · rw [if_pos hc, if_pos hc]
    cases hh : r.SfxReverbHooked
    · simp only [Bool.not_false, if_true, List.filter_append, (hR _).1, (hR _).2,
        List.append_nil, Function.update_same]
      repeat' apply And.intro
      all_goals first | rfl | trivial
    · simp only [Bool.not_true, Bool.false_eq_true, if_false, Function.update_same]
      repeat' apply And.intro
      all_goals first | rfl | trivial
  · rw [if_neg hc, if_neg hc]
    simp only [not_or, ne_eq, not_not, Bool.not_eq_true] at hc
    exact ⟨rfl, rfl, hc.1, hc.2, rfl, rfl, rfl, rfl, rfl⟩

/-- The environment block does nothing when the environment is the recorded one
and is unmodified. -/
theorem updateEnvironment_unchanged (r : Renderer) (envs : Envs) (g : GraphReplies)
    (env : EnvPtr) (hp : r.PrevEnvironment = some env) (hm : (envs env).Modified = false) :
    updateEnvironment r envs g env = { r := r, envs := envs, calls := [] } := by
  simp [updateEnvironment, hp, hm]

/-- The underwater block: it returns when the dry connection exists wherever the
low-pass unit does; it never sends the reverb parameter set and always sets the
pitch; and run again on the state it leaves, with the same condition, it leaves
that state alone and repeats all its commands except the low-pass cutoff. -/
theorem updateWater_spec (C : CVars) (r : Renderer) (water : Bool)
    (hconn : r.WaterLP = true → r.SfxConnection = true) :
    ∃ w, updateWater C r water = .ok w
      ∧ w.calls.filter isReverbSet = []
      ∧ (∃ pitch, EngineCall.PausableSfx_setPitch pitch ∈ w.calls.filter (fun c => !changeGuarded c))
      ∧ w.r.PrevEnvironment = r.PrevEnvironment
      ∧ updateWater C w.r water
          = .ok { r := w.r, calls := w.calls.filter (fun c => !changeGuarded c) } := by
  rcases r with ⟨rate, clk, locked, hooked, last, lp, wr, conn, tu, ph, prev, gr, gd⟩
  simp only at hconn
  cases water <;> cases lp <;> cases wr <;> cases conn <;> cases hcv : C.snd_waterreverb <;>
    by_cases hcut : last = C.snd_waterlp <;>
    simp [updateWater, hcv, hcut, isReverbSet, changeGuarded] at hconn ⊢

/-- Two calls of `UpdateListener` with a valid listener and the same console
variables, one after the other: both return; the first sends the reverb
parameter set exactly when the environment in effect differs from
`PrevEnvironment` or is modified, and leaves it unmodified and recorded; the
second changes nothing and repeats the commands of the first except the
change-guarded ones. -/
theorem UpdateListener_twice (X : Externals) (C : CVars) (r : Renderer) (envs : Envs)
    (g g2 : GraphReplies) (listener : SoundListener)
    (hvalid : listener.valid = true)
    (hconn : r.WaterLP = true → r.SfxConnection = true) :
    ∃ res1 res2, UpdateListener X C r envs g listener = .ok res1
      ∧ UpdateListener X C res1.r res1.envs g2 listener = .ok res2
      ∧ (res1.calls.filter isReverbSet
          = if r.PrevEnvironment ≠ some (effectiveEnv C listener)
                ∨ (envs (effectiveEnv C listener)).Modified = true then
              [.setSystemReverbProperties (envs (effectiveEnv C listener)).Properties]
            else [])
      ∧ (res1.envs (effectiveEnv C listener)).Modified = false
      ∧ res1.r.PrevEnvironment = some (effectiveEnv C listener)
      ∧ res2.r = res1.r ∧ res2.envs = res1.envs
      ∧ res2.calls = res1.calls.filter (fun c => !changeGuarded c)
      ∧ res2.calls.filter isReverbSet = []
      ∧ (∃ pitch, EngineCall.PausableSfx_setPitch pitch ∈ res2.calls) := by
  obtain ⟨he1, he2, he3, he4, he5, he6, he7, he8, he9⟩ :=
    updateEnvironment_spec r envs g (effectiveEnv C listener)
  generalize hedef : updateEnvironment r envs g (effectiveEnv C listener) = e at *
  have hconn1 : e.r.WaterLP = true → e.r.SfxConnection = true := by
    rw [he6, he8]; exact hconn
  obtain ⟨w, hw1, hw2, ⟨pitch, hw3⟩, hw4, hw5⟩ := updateWater_spec C e.r
    ((listener.underwater && decide (C.snd_waterlp ≠ 0))
      || (e.envs (effectiveEnv C listener)).SoftwareWater) hconn1
  have hsecond : updateEnvironment w.r e.envs g2 (effectiveEnv C listener)
      = { r := w.r, envs := e.envs, calls := [] } :=
    updateEnvironment_unchanged w.r e.envs g2 _ (by rw [hw4, he3]) he4
  refine ⟨{ r := w.r, envs := e.envs
            calls := [.set3DListenerAttributes listener.position listener.velocity
                { X := X.cosf listener.angle, Y := 0, Z := X.sinf listener.angle }
                { X := 0, Y := 1, Z := 0 }] ++ e.calls ++ w.calls },
          { r := w.r, envs := e.envs
            calls := [.set3DListenerAttributes listener.position listener.velocity
                { X := X.cosf listener.angle, Y := 0, Z := X.sinf listener.angle }
                { X := 0, Y := 1, Z := 0 }] ++ []
              ++ w.calls.filter (fun c => !changeGuarded c) }, ?_, ?_, ?_, he4, ?_, rfl, rfl,
          ?_, ?_, ?_⟩
  · simp only [UpdateListener, hvalid, hedef, hw1, bind, Except.bind, pure, Except.pure,
      Bool.not_true, Bool.false_eq_true, if_false]
  · simp only [UpdateListener, hvalid, hsecond, hw5, bind, Except.bind, pure, Except.pure,
      Bool.not_true, Bool.false_eq_true, if_false]
  · simp only [List.filter_append, he1, hw2, List.append_nil]
    simp [isReverbSet]
  · simp only [hw4, he3]
  · simp only [List.filter_append, he2, List.append_nil]
    simp [changeGuarded]
  · rw [List.filter_eq_nil_iff]
    intro c hc
    simp only [List.mem_append, List.mem_singleton, List.not_mem_nil, or_false,
      List.mem_filter] at hc
    rcases hc with rfl | ⟨-, hg⟩
    · simp [isReverbSet]
    · cases c <;> simp_all [isReverbSet, changeGuarded]
  · exact ⟨pitch, by simp only [List.mem_append]; exact Or.inr hw3⟩

/-- C10: for a valid listener, `UpdateListener` works with the environment
`env` that is the forced one when there is a forced one, else the listener's
when the listener has one, else the default. It sends the reverb parameter set
if and only if `env` differs from `PrevEnvironment` or has `Modified` set, and
then sends it once, with the properties of `env`. It leaves `Modified` of `env`
clear and `env` recorded in `PrevEnvironment`, so a second `UpdateListener`
with the same environment and no modification in between does not send the
parameter set again. -/
theorem C10_reverb_pushed_iff_changed (X : Externals) (C : CVars) (r : Renderer)
    (envs : Envs) (g g2 : GraphReplies) (listener : SoundListener) (env : EnvPtr)
    (hvalid : listener.valid = true)
    (hconn : r.WaterLP = true → r.SfxConnection = true)
    (henv : C.ForcedEnvironment = some env
      ∨ (C.ForcedEnvironment = none ∧ listener.Environment = some env)
      ∨ (C.ForcedEnvironment = none ∧ listener.Environment = none
          ∧ C.DefaultEnvironment0 = env)) :
    ∃ res1, UpdateListener X C r envs g listener = .ok res1
      ∧ ((∃ props, EngineCall.setSystemReverbProperties props ∈ res1.calls)
          ↔ (r.PrevEnvironment ≠ some env ∨ (envs env).Modified = true))
      ∧ (res1.calls.filter isReverbSet
          = if r.PrevEnvironment ≠ some env ∨ (envs env).Modified = true then
              [.setSystemReverbProperties (envs env).Properties]
            else [])
      ∧ (res1.envs env).Modified = false
      ∧ (∀ other, other ≠ env → res1.envs other = envs other)
      ∧ res1.r.PrevEnvironment = some env
      ∧ ∃ res2, UpdateListener X C res1.r res1.envs g2 listener = .ok res2
          ∧ ∀ props, EngineCall.setSystemReverbProperties props ∉ res2.calls := by
  have he : effectiveEnv C listener = env := by
    rcases henv with h1 | ⟨h1, h2⟩ | ⟨h1, h2, h3⟩
    · simp only [effectiveEnv, h1]
    · simp only [effectiveEnv, h1, h2]
    · simp only [effectiveEnv, h1, h2, h3]
  obtain ⟨res1, res2, h1, h2, h3, h4, h5, -, -, -, h6, -⟩ :=
    UpdateListener_twice X C r envs g g2 listener hvalid hconn
  rw [he] at h3 h4 h5
  have hmem : ∀ (l : List EngineCall) (props : REVERB_PROPERTIES),
      EngineCall.setSystemReverbProperties props ∈ l
        ↔ EngineCall.setSystemReverbProperties props ∈ l.filter isReverbSet := by
    intro l props
    simp [List.mem_filter, isReverbSet]
  have hother : ∀ other, other ≠ env → res1.envs other = envs other := by
    intro other hne
    obtain ⟨w, hw⟩ : ∃ w, updateWater C (updateEnvironment r envs g env).r
        ((listener.underwater && decide (C.snd_waterlp ≠ 0))
          || ((updateEnvironment r envs g env).envs env).SoftwareWater) = .ok w := by
      have hu := h1
      simp only [UpdateListener, hvalid, he, bind, Except.bind, pure, Except.pure,
        Bool.not_true, Bool.false_eq_true, if_false] at hu
      cases hw : updateWater C (updateEnvironment r envs g env).r
        ((listener.underwater && decide (C.snd_waterlp ≠ 0))
          || ((updateEnvironment r envs g env).envs env).SoftwareWater) with
      | error f => rw [hw] at hu; cases hu
      | ok w => exact ⟨w, rfl⟩
    have hu := h1
    simp only [UpdateListener, hvalid, he, hw, bind, Except.bind, pure, Except.pure,
      Bool.not_true, Bool.false_eq_true, if_false] at hu
    have hr : res1.envs = (updateEnvironment r envs g env).envs := by
      cases hu
      rfl
    rw [hr]
    unfold updateEnvironment
    by_cases hc : r.PrevEnvironment ≠ some env ∨ (envs env).Modified = true
    · rw [if_pos hc]
      cases hh : r.SfxReverbHooked
      · simp only [Bool.not_false, if_true, Function.update_noteq hne]
      · simp only [Bool.not_true, Bool.false_eq_true, if_false, Function.update_noteq hne]
    · rw [if_neg hc]
  refine ⟨res1, h1, ?_, h3, h4, hother, h5, res2, h2, ?_⟩
  · constructor
    · rintro ⟨props, hp⟩
      by_contra hc
      rw [hmem, h3, if_neg hc] at hp
      exact List.not_mem_nil _ hp
    · intro hc
      refine ⟨(envs env).Properties, ?_⟩
      rw [hmem, h3, if_pos hc]
      exact List.mem_singleton_self _
  · intro props hp
    rw [hmem, h6] at hp
    exact List.not_mem_nil _ hp

/-- C10 (witness): the forced environment 2, a listener in the environment 1
and the default environment 0, which is the recorded one. The first call sends
the parameter set of the environment 2 and the second sends none. -/
theorem C10_reverb_pushed_iff_changed_witness :
    ∃ res1, UpdateListener exExternals exForcedCVars (exRenderer 48000) exEnvsById exGraph
          exListenerIn1 = .ok res1
      ∧ ((∃ props, EngineCall.setSystemReverbProperties props ∈ res1.calls)
          ↔ ((exRenderer 48000).PrevEnvironment ≠ some 2 ∨ (exEnvsById 2).Modified = true))
      ∧ (res1.calls.filter isReverbSet
          = if (exRenderer 48000).PrevEnvironment ≠ some 2 ∨ (exEnvsById 2).Modified = true then
              [.setSystemReverbProperties (exEnvsById 2).Properties]
            else [])
      ∧ (res1.envs 2).Modified = false
      ∧ (∀ other, other ≠ 2 → res1.envs other = exEnvsById other)
      ∧ res1.r.PrevEnvironment = some 2
      ∧ ∃ res2, UpdateListener exExternals exForcedCVars res1.r res1.envs exGraph exListenerIn1
            = .ok res2
          ∧ ∀ props, EngineCall.setSystemReverbProperties props ∉ res2.calls :=
  C10_reverb_pushed_iff_changed exExternals exForcedCVars (exRenderer 48000) exEnvsById exGraph
    exGraph exListenerIn1 2 rfl (fun _ => rfl) (Or.inl rfl)

/-- The three sources of the environment at example inputs, the environment 0
being the recorded one: with the forced environment 2 the parameter set sent has
the room level -1002; without it and with the listener in the environment 1 the
room level is -1001; without either the environment is the default 0, which is
the recorded one and unmodified, and nothing is sent. -/
theorem UpdateListener_environment_examples :
    ((UpdateListener exExternals exForcedCVars (exRenderer 48000) exEnvsById exGraph
        exListenerIn1).toOption.map
      (fun res => ((res.calls.filter isReverbSet).map
        (fun c => match c with
          | .setSystemReverbProperties props => props.Room
          | _ => 0), res.r.PrevEnvironment)) = some ([-1002], some 2))
    ∧ ((UpdateListener exExternals exCVars (exRenderer 48000) exEnvsById exGraph
        exListenerIn1).toOption.map
      (fun res => ((res.calls.filter isReverbSet).map
        (fun c => match c with
          | .setSystemReverbProperties props => props.Room
          | _ => 0), res.r.PrevEnvironment)) = some ([-1001], some 1))
    ∧ ((UpdateListener exExternals exCVars (exRenderer 48000) exEnvsById exGraph
        (exListener false)).toOption.map
      (fun res => ((res.calls.filter isReverbSet).map
        (fun c => match c with
          | .setSystemReverbProperties props => props.Room
          | _ => 0), res.r.PrevEnvironment)) = some ([], some 0)) := by
  refine ⟨by decide!, by decide!, by decide!⟩

/-- The integer `roundNE q` is a nearest integer to `q`. -/
theorem roundNE_nearest (q : ℚ) (n : ℤ) : |(roundNE q : ℚ) - q| ≤ |(n : ℚ) - q| := by
  have h := roundNE_spec q
  by_cases hn : n = roundNE q
  · rw [hn]
  · have h1 : (1 : ℚ) ≤ |(n : ℚ) - roundNE q| := by
      have : (1 : ℤ) ≤ |n - roundNE q| := Int.one_le_abs (sub_ne_zero.mpr hn)
      exact_mod_cast this
    have h2 : |(n : ℚ) - roundNE q| ≤ |(n : ℚ) - q| + |(roundNE q : ℚ) - q| := by
      have := abs_sub_le (n : ℚ) q (roundNE q)
      rwa [abs_sub_comm q] at this
    linarith

/-- Rounding is to nearest: no representable value is closer to `x` than
`fround p emin x`. -/
theorem fround_nearest (p : ℕ) (emin : ℤ) (x f : ℚ) (hf : Representable p emin f) :
    |fround p emin x - x| ≤ |f - x| := by
  by_cases hx : x = 0
  · simp [fround, hx]
  obtain ⟨m, e', he', hm, rfl⟩ := hf
  obtain ⟨-, herr⟩ := (fround_spec p emin x hx).choose_spec
  set e := max (ilog2 x - ((p : ℤ) - 1)) emin with he
  have hpos : (0 : ℚ) < 2 ^ e := by positivity
  have hfr : fround p emin x = (roundNE (x / 2 ^ e) : ℚ) * 2 ^ e := by
    simp only [fround, hx, if_false, ← he]
  by_cases hle : e ≤ e'
  · obtain ⟨n, hn⟩ : ∃ n : ℤ, (m : ℚ) * 2 ^ e' = n * 2 ^ e := by
      refine ⟨m * 2 ^ (e' - e).toNat, ?_⟩
      push_cast
      have : (2 : ℚ) ^ e' = 2 ^ (((e' - e).toNat : ℕ) : ℤ) * 2 ^ e := by
        rw [← zpow_add₀ (by norm_num)]
        congr 1
        rw [Int.toNat_of_nonneg (by omega)]
        ring
      rw [this, zpow_natCast]
      ring
    rw [hn, hfr]
    have h := roundNE_nearest (x / 2 ^ e) n
    have e1 : (roundNE (x / 2 ^ e) : ℚ) * 2 ^ e - x
        = ((roundNE (x / 2 ^ e) : ℚ) - x / 2 ^ e) * 2 ^ e := by field_simp
    have e2 : (n : ℚ) * 2 ^ e - x = ((n : ℚ) - x / 2 ^ e) * 2 ^ e := by field_simp
    rw [e1, e2, abs_mul, abs_mul, abs_of_pos hpos]
    exact mul_le_mul_of_nonneg_right h hpos.le
  · push_neg at hle
    have hek : e = ilog2 x - ((p : ℤ) - 1) := by
      rcases max_cases (ilog2 x - ((p : ℤ) - 1)) emin with ⟨h1, -⟩ | ⟨h1, -⟩
      · rw [he, h1]
      · rw [he, h1] at hle
        omega
    obtain ⟨hlo, -⟩ := ilog2_spec x hx
    have hk : (2 : ℚ) ^ ilog2 x = 2 ^ p * 2 ^ (e - 1) := by
      rw [← zpow_natCast, ← zpow_add₀ (by norm_num)]
      congr 1
      omega
    have hhalf : (2 : ℚ) ^ e / 2 = 2 ^ (e - 1) := by
      rw [zpow_sub_one₀ (by norm_num)]
      ring
    have hm1 : |(m : ℚ)| ≤ 2 ^ p - 1 := by
      have : |m| ≤ 2 ^ p - 1 := by omega
      exact_mod_cast this
    have hpow : (2 : ℚ) ^ e' ≤ 2 ^ (e - 1) :=
      zpow_le_zpow_right₀ (by norm_num) (by omega)
    have hp1 : (0 : ℚ) < 2 ^ (e - 1) := by positivity
    have hp2 : (0 : ℚ) < 2 ^ e' := by positivity
    have hf : |(m : ℚ) * 2 ^ e'| ≤ (2 ^ p - 1) * 2 ^ (e - 1) := by
      rw [abs_mul, abs_of_pos hp2]
      have h0 : (0 : ℚ) ≤ |(m : ℚ)| := abs_nonneg _
      calc |(m : ℚ)| * 2 ^ e' ≤ |(m : ℚ)| * 2 ^ (e - 1) :=
            mul_le_mul_of_nonneg_left hpow h0
        _ ≤ (2 ^ p - 1) * 2 ^ (e - 1) := mul_le_mul_of_nonneg_right hm1 hp1.le
    have htri : |x| - |(m : ℚ) * 2 ^ e'| ≤ |(m : ℚ) * 2 ^ e' - x| := by
      rw [abs_sub_comm]
      exact abs_sub_abs_le_abs_sub _ _
    rw [hhalf] at herr
    rw [hk] at hlo
    have : (2 : ℚ) ^ (e - 1) ≤ |(m : ℚ) * 2 ^ e' - x| := by nlinarith
    exact le_trans herr this

/-- A representable value rounds to itself. -/
theorem fround_of_representable (p : ℕ) (emin : ℤ) (f : ℚ) (hf : Representable p emin f) :
    fround p emin f = f := by
  have h := fround_nearest p emin f f hf
  rw [sub_self, abs_zero] at h
  exact sub_eq_zero.mp (abs_nonpos_iff.mp h)

/-- The result of rounding is representable. -/
theorem fround_representable (p : ℕ) (emin : ℤ) (x : ℚ) (hp : 1 ≤ p) :
    Representable p emin (fround p emin x) := by
  by_cases hx : x = 0
  · exact ⟨0, emin, le_refl _, by positivity, by simp [fround, hx]⟩
  set e := max (ilog2 x - ((p : ℤ) - 1)) emin with he
  have hpos : (0 : ℚ) < 2 ^ e := by positivity
  have hfr : fround p emin x = (roundNE (x / 2 ^ e) : ℚ) * 2 ^ e := by
    simp only [fround, hx, if_false, ← he]
  obtain ⟨-, hhi⟩ := ilog2_spec x hx
  have hq : |x / 2 ^ e| < 2 ^ p := by
    rw [abs_div, abs_of_pos hpos, div_lt_iff₀ hpos]
    have h1 : (2 : ℚ) ^ (ilog2 x + 1) ≤ 2 ^ p * 2 ^ e := by
      rw [← zpow_natCast, ← zpow_add₀ (by norm_num)]
      apply zpow_le_zpow_right₀ (by norm_num)
      have := le_max_left (ilog2 x - ((p : ℤ) - 1)) emin
      omega
    exact lt_of_lt_of_le hhi h1
  have hr := roundNE_spec (x / 2 ^ e)
  have hrq : |(roundNE (x / 2 ^ e) : ℚ)| < 2 ^ p + 1 := by
    have := abs_sub_abs_le_abs_sub (roundNE (x / 2 ^ e) : ℚ) (x / 2 ^ e)
    linarith
  have hrz : |roundNE (x / 2 ^ e)| ≤ 2 ^ p := by
    have : ((|roundNE (x / 2 ^ e)| : ℤ) : ℚ) < ((2 ^ p + 1 : ℤ) : ℚ) := by
      push_cast
      exact hrq
    have := Int.cast_lt.mp this
    omega
  rcases lt_or_eq_of_le hrz with hlt | heq
  · exact ⟨roundNE (x / 2 ^ e), e, le_max_right _ _, hlt, hfr⟩
  · have hsign : roundNE (x / 2 ^ e) = 2 ^ p ∨ roundNE (x / 2 ^ e) = -(2 ^ p) := by
      rcases abs_cases (roundNE (x / 2 ^ e)) with ⟨h1, -⟩ | ⟨h1, -⟩
      · left; rw [← h1]; exact heq
      · right; rw [← heq, h1]; ring
    have hone : (1 : ℤ) < 2 ^ p := by
      calc (1 : ℤ) < 2 := by norm_num
        _ = 2 ^ 1 := by norm_num
        _ ≤ 2 ^ p := pow_le_pow_right₀ (by norm_num) hp
    have hee : emin ≤ e + p := by
      have := le_max_right (ilog2 x - ((p : ℤ) - 1)) emin
      omega
    have hz : (2 : ℚ) ^ (e + (p : ℤ)) = 2 ^ p * 2 ^ e := by
      rw [zpow_add₀ (by norm_num), zpow_natCast]
      ring
    rcases hsign with h1 | h1
    · refine ⟨1, e + p, hee, by simpa using hone, ?_⟩
      rw [hfr, h1, hz]
      push_cast
      ring
    · refine ⟨-1, e + p, hee, by simpa using hone, ?_⟩
      rw [hfr, h1, hz]
      push_cast
      ring

/-- Rounding is monotone. -/
theorem fround_mono (p : ℕ) (emin : ℤ) (hp : 1 ≤ p) (x y : ℚ) (hxy : x ≤ y) :
    fround p emin x ≤ fround p emin y := by
  by_contra hlt
  push_neg at hlt
  have h1 := fround_nearest p emin x (fround p emin y) (fround_representable p emin y hp)
  have h2 := fround_nearest p emin y (fround p emin x) (fround_representable p emin x hp)
  have s1 := sq_le_sq.mpr h1
  have s2 := sq_le_sq.mpr h2
  have hxy2 : x < y := by
    rcases lt_or_eq_of_le hxy with h | h
    · exact h
    · rw [h] at hlt
      exact absurd hlt (lt_irrefl _)
  nlinarith
/-- The square root used in the examples has the assumed properties. -/
theorem exExternals_sqrtFacts : SqrtFacts exExternals where
  nonneg := fun x => by
    show (0 : ℚ) ≤ ((Nat.sqrt ⌊x⌋.toNat : ℕ) : ℚ)
    exact Nat.cast_nonneg _
  mono := fun x y _ hxy => by
    show ((Nat.sqrt ⌊x⌋.toNat : ℕ) : ℚ) ≤ ((Nat.sqrt ⌊y⌋.toNat : ℕ) : ℚ)
    exact Nat.cast_le.mpr (Nat.sqrt_le_sqrt (Int.toNat_le_toNat (Int.floor_mono hxy)))
  exact := fun n _ => by
    show ((Nat.sqrt ⌊(n : ℚ) * n⌋.toNat : ℕ) : ℚ) = n
    have : ⌊(n : ℚ) * n⌋ = ((n * n : ℕ) : ℤ) := by
      rw [← Nat.cast_mul]
      exact Int.floor_natCast _
    rw [this, Int.toNat_natCast, Nat.sqrt_eq]

/-- The rounding error of `fround` on a value of magnitude at most `2^k`. -/
theorem fround_error_le (p : ℕ) (emin k : ℤ) (x : ℚ) (hk : |x| ≤ 2 ^ k)
    (hemin : emin ≤ k - ((p : ℤ) - 1)) :
    |fround p emin x - x| ≤ (2 : ℚ) ^ (k - (p : ℤ)) := by
  by_cases hx : x = 0
  · simp only [fround, hx, if_true, sub_self, abs_zero]
    positivity
  obtain ⟨-, herr⟩ := (fround_spec p emin x hx).choose_spec
  obtain ⟨hlo, -⟩ := ilog2_spec x hx
  have hik : ilog2 x ≤ k :=
    (zpow_le_zpow_iff_right₀ (by norm_num : (1 : ℚ) < 2)).mp (le_trans hlo hk)
  have he : max (ilog2 x - ((p : ℤ) - 1)) emin ≤ k - ((p : ℤ) - 1) :=
    max_le (by omega) hemin
  have h1 : (2 : ℚ) ^ (max (ilog2 x - ((p : ℤ) - 1)) emin) ≤ 2 ^ (k - ((p : ℤ) - 1)) :=
    zpow_le_zpow_right₀ (by norm_num) he
  have h2 : (2 : ℚ) ^ (k - ((p : ℤ) - 1)) / 2 = 2 ^ (k - (p : ℤ)) := by
    rw [show k - ((p : ℤ) - 1) = k - (p : ℤ) + 1 by ring, zpow_add_one₀ (by norm_num)]
    ring
  calc |fround p emin x - x| ≤ (2 : ℚ) ^ (max (ilog2 x - ((p : ℤ) - 1)) emin) / 2 := herr
    _ ≤ 2 ^ (k - ((p : ℤ) - 1)) / 2 := by linarith
    _ = 2 ^ (k - (p : ℤ)) := h2

/-- Rounding to `float` and to `double` is monotone. -/
theorem f32_mono (x y : ℚ) (h : x ≤ y) : f32 x ≤ f32 y := fround_mono 24 (-149) (by norm_num) x y h

/-- Rounding to `double` is monotone. -/
theorem f64_mono (x y : ℚ) (h : x ≤ y) : f64 x ≤ f64 y := fround_mono 53 (-1074) (by norm_num) x y h

/-- Rounding to `float` keeps zero and the sign. -/
theorem f32_nonneg (x : ℚ) (hx : 0 ≤ x) : 0 ≤ f32 x := by
  have h := f32_mono 0 x hx
  have h0 : f32 0 = 0 := by simp [f32, fround]
  rwa [h0] at h

/-- Rounding to `float` keeps zero and the sign. -/
theorem f32_nonpos (x : ℚ) (hx : x ≤ 0) : f32 x ≤ 0 := by
  have h := f32_mono x 0 hx
  have h0 : f32 0 = 0 := by simp [f32, fround]
  rwa [h0] at h

/-- The interpolated level grows with the square root. -/
theorem interpLevel_mono (s t : ℚ) (h : s ≤ t) : interpLevel s ≤ interpLevel t := by
  unfold interpLevel
  apply f32_mono
  apply f64_mono
  have h1 : f64 (32 - t) ≤ f64 (32 - s) := f64_mono _ _ (by linarith)
  have h2 : f64 (f64 (32 - t) / 32) ≤ f64 (f64 (32 - s) / 32) :=
    f64_mono _ _ (by linarith)
  linarith

/-- The interpolated level is 0 for a square root of 0 and 1 for one of 32. -/
theorem interpLevel_ends : interpLevel 0 = 0 ∧ interpLevel 32 = 1 := by
  constructor <;> decide!

/-- The interpolated level lies between 0 and 1 for a square root between 0
and 32. -/
theorem interpLevel_bounds (s : ℚ) (h0 : 0 ≤ s) (h32 : s ≤ 32) :
    0 ≤ interpLevel s ∧ interpLevel s ≤ 1 := by
  have h1 := interpLevel_mono 0 s h0
  have h2 := interpLevel_mono s 32 h32
  rw [interpLevel_ends.1] at h1
  rw [interpLevel_ends.2] at h2
  exact ⟨h1, h2⟩

/-- The level of an area sound in terms of `interpLevel`. -/
theorem areaLevel_eq (X : Externals) (dist_sqr : ℚ) :
    areaLevel X dist_sqr
      = if dist_sqr = 0 then 0
        else if dist_sqr ≤ 32 * 32 then interpLevel (X.sqrt dist_sqr) else 1 := by
  have h : f64 (32 * 32) = 32 * 32 := by decide!
  simp only [areaLevel, interpLevel, h]

/-- The interpolated level is within `2^-23` of the exact value of
`1 - (32 - s) / 32` for a square root `s` between 0 and 32. -/
theorem interpLevel_error (s : ℚ) (h0 : 0 ≤ s) (h32 : s ≤ 32) :
    |interpLevel s - (1 - (32 - s) / 32)| ≤ (2 : ℚ) ^ (-23 : ℤ) := by
  have h64 : f64 0 = 0 ∧ f64 32 = 32 ∧ f64 1 = 1 := by
    refine ⟨by decide!, by decide!, by decide!⟩
  -- a = f64 (32 - s)
  have ha0 : 0 ≤ f64 (32 - s) := by
    have := f64_mono 0 (32 - s) (by linarith)
    rwa [h64.1] at this
  have ha1 : f64 (32 - s) ≤ 32 := by
    have := f64_mono (32 - s) 32 (by linarith)
    rwa [h64.2.1] at this
  have ea : |f64 (32 - s) - (32 - s)| ≤ (2 : ℚ) ^ ((5 : ℤ) - ((53 : ℕ) : ℤ)) :=
    fround_error_le 53 (-1074) 5 (32 - s)
      (by rw [abs_of_nonneg (by linarith)]; norm_num; linarith) (by norm_num)
  -- b = f64 (a / 32)
  have hb0 : 0 ≤ f64 (f64 (32 - s) / 32) := by
    have := f64_mono 0 (f64 (32 - s) / 32) (by positivity)
    rwa [h64.1] at this
  have hb1 : f64 (f64 (32 - s) / 32) ≤ 1 := by
    have := f64_mono (f64 (32 - s) / 32) 1 (by linarith)
    rwa [h64.2.2] at this
  have eb : |f64 (f64 (32 - s) / 32) - f64 (32 - s) / 32| ≤ (2 : ℚ) ^ ((0 : ℤ) - ((53 : ℕ) : ℤ)) :=
    fround_error_le 53 (-1074) 0 _
      (by rw [abs_of_nonneg (by positivity)]; norm_num; linarith) (by norm_num)
  -- c = f64 (1 - b)
  have hc0 : 0 ≤ f64 (1 - f64 (f64 (32 - s) / 32)) := by
    have := f64_mono 0 (1 - f64 (f64 (32 - s) / 32)) (by linarith)
    rwa [h64.1] at this
  have hc1 : f64 (1 - f64 (f64 (32 - s) / 32)) ≤ 1 := by
    have := f64_mono (1 - f64 (f64 (32 - s) / 32)) 1 (by linarith)
    rwa [h64.2.2] at this
  have ec : |f64 (1 - f64 (f64 (32 - s) / 32)) - (1 - f64 (f64 (32 - s) / 32))|
      ≤ (2 : ℚ) ^ ((0 : ℤ) - ((53 : ℕ) : ℤ)) :=
    fround_error_le 53 (-1074) 0 _
      (by rw [abs_of_nonneg (by linarith)]; norm_num; linarith) (by norm_num)
  have el : |interpLevel s - f64 (1 - f64 (f64 (32 - s) / 32))|
      ≤ (2 : ℚ) ^ ((0 : ℤ) - ((24 : ℕ) : ℤ)) :=
    fround_error_le 24 (-149) 0 _
      (by rw [abs_of_nonneg hc0]; norm_num; exact hc1) (by norm_num)
  rw [abs_le] at ea eb ec el ⊢
  norm_num at ea eb ec el ⊢
  constructor <;> linarith [ea.1, ea.2, eb.1, eb.2, ec.1, ec.2, el.1, el.2]

/-- The interpolated level of a whole number `n` between 0 and 32 is exactly
`1 - (32 - n) / 32`. -/
theorem interpLevel_nat (n : ℕ) (h32 : n ≤ 32) :
    interpLevel (n : ℚ) = 1 - (32 - (n : ℚ)) / 32 := by
  interval_cases n <;> decide!

/-- Bits of a 32-bit mode after clearing the single bit `2^b`: bit `b` is
clear and every other bit is as before. -/
theorem clearBits_testBit (mode b i : ℕ) (hmode : mode < 2 ^ 32) :
    (clearBits mode (2 ^ b)).testBit i = (mode.testBit i && decide (i ≠ b)) := by
  have hF : (0xFFFFFFFF : ℕ) = 2 ^ 32 - 1 := by norm_num
  simp only [clearBits, hF, Nat.testBit_and, Nat.testBit_xor, Nat.testBit_two_pow,
    Nat.testBit_two_pow_sub_one]
  by_cases hi : i < 32
  · by_cases hib : b = i
    · subst hib
      simp [hi]
    · have : i ≠ b := fun h => hib h.symm
      simp [hi, hib, this]
  · have hz : mode.testBit i = false :=
      Nat.testBit_eq_false_of_lt (lt_of_lt_of_le hmode
        (Nat.pow_le_pow_right (by norm_num) (by omega)))
    simp [hz]

/-- Bits of a mode after clearing the bit `2^b` and setting the bit `2^a`. -/
theorem clearBits_or_testBit (mode a b i : ℕ) (hmode : mode < 2 ^ 32) (hab : a ≠ b) :
    (clearBits mode (2 ^ b) ||| 2 ^ a).testBit i
      = if i = a then true else if i = b then false else mode.testBit i := by
  rw [Nat.testBit_or, clearBits_testBit mode b i hmode, Nat.testBit_two_pow]
  by_cases hia : i = a
  · subst hia
    simp
  · have hai : ¬ a = i := fun h => hia h.symm
    by_cases hib : i = b
    · subst hib
      simp [hia, hab]
    · simp [hia, hib, hai]

/-- Rounding a value that is not negative to `float`: the result is not
negative and within the fraction `2^-24` of the value, plus `2^-150`. -/
theorem f32_nonneg_error (y : ℚ) (hy : 0 ≤ y) :
    0 ≤ f32 y ∧ y * (1 - (2 : ℚ) ^ (-24 : ℤ)) - 2 ^ (-150 : ℤ) ≤ f32 y
      ∧ f32 y ≤ y * (1 + (2 : ℚ) ^ (-24 : ℤ)) + 2 ^ (-150 : ℤ) := by
  have h := f32_abs_error y
  rw [abs_of_nonneg hy, abs_le] at h
  refine ⟨f32_nonneg y hy, ?_, ?_⟩ <;> linarith [h.1, h.2]

/-- The square of a rounded difference: `f32 d * f32 d` is within the factors
`(1 - 2^-24)^2` and `(1 + 2^-24)^2` of `d * d`, up to `2^-252`. -/
theorem f32_sq_error (d : ℚ) :
    0 ≤ f32 d * f32 d
      ∧ d ^ 2 * (1 - (2 : ℚ) ^ (-24 : ℤ)) ^ 2 - 2 ^ (-252 : ℤ) ≤ f32 d * f32 d
      ∧ f32 d * f32 d ≤ d ^ 2 * (1 + (2 : ℚ) ^ (-24 : ℤ)) ^ 2 + 2 ^ (-252 : ℤ) := by
  have hsq : f32 d * f32 d = |f32 d| ^ 2 := by rw [sq_abs]; ring
  have hd2 : d ^ 2 = |d| ^ 2 := (sq_abs d).symm
  have hu : (0 : ℚ) ≤ 1 - 2 ^ (-24 : ℤ) := by norm_num
  have hd0 : 0 ≤ |d| := abs_nonneg d
  have hf0 : 0 ≤ |f32 d| := abs_nonneg _
  have he : (0 : ℚ) ≤ 2 ^ (-252 : ℤ) := by positivity
  refine ⟨mul_self_nonneg _, ?_, ?_⟩
  · by_cases hn : (2 : ℚ) ^ (-126 : ℤ) ≤ |d|
    · have h := f32_rel_error d hn
      have h1 : |d| * (1 - 2 ^ (-24 : ℤ)) ≤ |f32 d| := by
        have := abs_sub_abs_le_abs_sub d (f32 d)
        rw [abs_sub_comm d (f32 d)] at this
        linarith
      have h2 : (|d| * (1 - 2 ^ (-24 : ℤ))) ^ 2 ≤ |f32 d| ^ 2 :=
        pow_le_pow_left₀ (mul_nonneg hd0 hu) h1 2
      rw [hsq, hd2, ← mul_pow]
      linarith
    · push_neg at hn
      have h1 : |d| ^ 2 ≤ (2 ^ (-126 : ℤ)) ^ 2 := pow_le_pow_left₀ hd0 hn.le 2
      have h2 : ((2 : ℚ) ^ (-126 : ℤ)) ^ 2 = 2 ^ (-252 : ℤ) := by
        rw [← zpow_natCast, ← zpow_mul]
        norm_num
      have h3 : |d| ^ 2 * (1 - (2 : ℚ) ^ (-24 : ℤ)) ^ 2 ≤ |d| ^ 2 * 1 := by
        apply mul_le_mul_of_nonneg_left _ (by positivity)
        norm_num
      have h4 : 0 ≤ f32 d * f32 d := mul_self_nonneg _
      rw [hd2]
      linarith
  · by_cases hn : (2 : ℚ) ^ (-126 : ℤ) ≤ |d|
    · have h := f32_rel_error d hn
      have h1 : |f32 d| ≤ |d| * (1 + 2 ^ (-24 : ℤ)) := by
        have := abs_sub_abs_le_abs_sub (f32 d) d
        linarith
      have h2 : |f32 d| ^ 2 ≤ (|d| * (1 + 2 ^ (-24 : ℤ))) ^ 2 := pow_le_pow_left₀ hf0 h1 2
      rw [hsq, hd2, ← mul_pow]
      linarith
    · push_neg at hn
      have hb : f32 ((2 : ℚ) ^ (-126 : ℤ)) = 2 ^ (-126 : ℤ)
          ∧ f32 (-(2 : ℚ) ^ (-126 : ℤ)) = -2 ^ (-126 : ℤ) := by
        constructor <;> decide!
      have hlt := abs_lt.mp hn
      have h1 : f32 d ≤ 2 ^ (-126 : ℤ) := by
        have := f32_mono d _ hlt.2.le
        rwa [hb.1] at this
      have h2 : -(2 : ℚ) ^ (-126 : ℤ) ≤ f32 d := by
        have := f32_mono _ d hlt.1.le
        rwa [hb.2] at this
      have h3 : |f32 d| ≤ 2 ^ (-126 : ℤ) := abs_le.mpr ⟨h2, h1⟩
      have h4 : |f32 d| ^ 2 ≤ (2 ^ (-126 : ℤ)) ^ 2 := pow_le_pow_left₀ hf0 h3 2
      have h5 : ((2 : ℚ) ^ (-126 : ℤ)) ^ 2 = 2 ^ (-252 : ℤ) := by
        rw [← zpow_natCast, ← zpow_mul]
        norm_num
      have h6 : 0 ≤ d ^ 2 * (1 + (2 : ℚ) ^ (-24 : ℤ)) ^ 2 := by positivity
      rw [hsq]
      linarith

/-- The squared distance `(a - b).LengthSquared()` computed in `float`
arithmetic is within the fraction `2^-21` of the exact squared distance, plus
`2^-146`. -/
theorem LengthSquared_error (a b : FVector3) :
    |(a.sub b).LengthSquared - a.distSquared b|
      ≤ (2 : ℚ) ^ (-21 : ℤ) * a.distSquared b + 2 ^ (-146 : ℤ) := by
  obtain ⟨x0, x1, x2⟩ := f32_sq_error (a.X - b.X)
  obtain ⟨y0, y1, y2⟩ := f32_sq_error (a.Y - b.Y)
  obtain ⟨z0, z1, z2⟩ := f32_sq_error (a.Z - b.Z)
  obtain ⟨sx0, sx1, sx2⟩ := f32_nonneg_error _ x0
  obtain ⟨sy0, sy1, sy2⟩ := f32_nonneg_error _ y0
  obtain ⟨sz0, sz1, sz2⟩ := f32_nonneg_error _ z0
  obtain ⟨s0, s1, s2⟩ := f32_nonneg_error _ (add_nonneg sx0 sy0)
  obtain ⟨l0, l1, l2⟩ := f32_nonneg_error _ (add_nonneg s0 sz0)
  have hX : 0 ≤ (a.X - b.X) ^ 2 := sq_nonneg _
  have hY : 0 ≤ (a.Y - b.Y) ^ 2 := sq_nonneg _
  have hZ : 0 ≤ (a.Z - b.Z) ^ 2 := sq_nonneg _
  simp only [FVector3.sub, FVector3.LengthSquared, FVector3.distSquared]
  generalize (a.X - b.X) ^ 2 = DX at *
  generalize (a.Y - b.Y) ^ 2 = DY at *
  generalize (a.Z - b.Z) ^ 2 = DZ at *
  generalize f32 (a.X - b.X) * f32 (a.X - b.X) = EX at *
  generalize f32 (a.Y - b.Y) * f32 (a.Y - b.Y) = EY at *
  generalize f32 (a.Z - b.Z) * f32 (a.Z - b.Z) = EZ at *
  generalize f32 EX = SX at *
  generalize f32 EY = SY at *
  generalize f32 EZ = SZ at *
  generalize f32 (SX + SY) = S1 at *
  generalize f32 (S1 + SZ) = L at *
  rw [abs_le]
  norm_num at x1 x2 y1 y2 z1 z2 sx1 sx2 sy1 sy2 sz1 sz2 s1 s2 l1 l2 ⊢
  constructor <;> linarith

/-- The function `isqrtBits` finds the whole part of the square root: started
from an `acc` whose square is at most `n`, with `n` below the square of
`acc + 2^k`, it returns the `r` with `r * r ≤ n < (r + 1) * (r + 1)`. -/
theorem isqrtBits_spec : ∀ (k n acc : ℕ), acc * acc ≤ n → n < (acc + 2 ^ k) * (acc + 2 ^ k) →
    isqrtBits k n acc * isqrtBits k n acc ≤ n
      ∧ n < (isqrtBits k n acc + 1) * (isqrtBits k n acc + 1) := by
  intro k
  induction k with
  | zero =>
    intro n acc h1 h2
    simpa [isqrtBits] using ⟨h1, h2⟩
  | succ k ih =>
    intro n acc h1 h2
    simp only [isqrtBits]
    by_cases hc : (acc + 2 ^ k) * (acc + 2 ^ k) ≤ n
    · rw [if_pos hc]
      apply ih _ _ hc
      have : acc + 2 ^ k + 2 ^ k = acc + 2 ^ (k + 1) := by ring
      rw [this]
      exact h2
    · rw [if_neg hc]
      exact ih _ _ h1 (not_le.mp hc)

/-- The fine square root of the examples is the correctly rounded one at the
arguments the examples use: at 2, at `1024 - 2^-14` and at 1024 the value
returned is a `double` and the exact square root lies within half a unit in its
last place of it (`2^-53` for a value between 1 and 2, `2^-49` for a value
between 16 and 32). -/
theorem exFineExternals_sqrt_examples :
    (exFineExternals.sqrt 2 = 6369051672525773 / 2 ^ 52
      ∧ (6369051672525773 / 2 ^ 52 - 1 / 2 ^ 53 : ℚ) ^ 2 < 2
      ∧ (2 : ℚ) < (6369051672525773 / 2 ^ 52 + 1 / 2 ^ 53) ^ 2)
    ∧ (exFineExternals.sqrt (1024 - 1 / 2 ^ 14) = 32 - 1 / 2 ^ 20 - 1 / 2 ^ 46
      ∧ (32 - 1 / 2 ^ 20 - 1 / 2 ^ 46 - 1 / 2 ^ 49 : ℚ) ^ 2 < 1024 - 1 / 2 ^ 14
      ∧ (1024 - 1 / 2 ^ 14 : ℚ) < (32 - 1 / 2 ^ 20 - 1 / 2 ^ 46 + 1 / 2 ^ 49) ^ 2)
    ∧ exFineExternals.sqrt 1024 = 32 := by
  refine ⟨⟨by decide!, by norm_num, by norm_num⟩, ⟨by decide!, by norm_num, by norm_num⟩,
    by decide!⟩

/-- C11 (counterexample): a sound at the point `exFarPoint`, whose coordinates
are `float`s and whose squared distance from the listener at the origin is
`1024 + 10 / 2^20`, more than 32 units away. The squared distance computed in
`float` arithmetic is `1024 - 2^-14`, so the level is interpolated: the level
sent to the channel is `1 - 2^-24`, not 1, and the mix levels are set as for
every level below 1. -/
theorem C11_counterexample :
    (32 : ℚ) ^ 2 < (exListener false).position.distSquared exFarPoint
    ∧ ((exListener false).position.sub exFarPoint).LengthSquared = 1024 - 1 / 2 ^ 14
    ∧ SetChanHeadSettings exFineExternals zdoomConsts (exListener false) (exChan 0 none true)
        exFarPoint true 0
      = (0, [.channel 7 (.set3DLevel (16777215 / 16777216)),
             .channel 7 (.setMixLevelsOutput (f32 (70711 / 100000)))])
    ∧ (16777215 / 16777216 : ℚ) ≠ 1 := by
  refine ⟨by decide!, by decide!, by decide!, by norm_num⟩

/-- C11 (amended): for a valid listener and an area sound, the level
`SetChanHeadSettings` computes, which it sends to the channel when it differs
from the level the channel has, is exactly 0 when listener and sound are at the
same place (distance 0), and exactly 1 whenever the squared distance computed in
`float` arithmetic is at least `32 * 32`. That computed value is within the
fraction `2^-21` of the exact squared distance, plus `2^-146`, so the level is
exactly 1 whenever the exact squared distance is at least
`(1 + 2^-20) * 32 * 32`. The square root is taken to be exact at `32 * 32`. -/
theorem C11_area_level_endpoints (X : Externals) (K : Consts) (listener : SoundListener)
    (chan : ChannelReplies) (pos : FVector3) (oldmode : ℕ) (old_level : ℚ)
    (hvalid : listener.valid = true)
    (hold : chan.get3DLevel = some old_level)
    (hsqrt : X.sqrt (32 * 32) = 32) :
    SetChanHeadSettings X K listener chan pos true oldmode
        = (oldmode,
            if old_level ≠ areaLevel X (listener.position.sub pos).LengthSquared then
              [.channel chan.handle
                  (.set3DLevel (areaLevel X (listener.position.sub pos).LengthSquared))]
                ++ (if areaLevel X (listener.position.sub pos).LengthSquared < 1 then
                      [.channel chan.handle (.setMixLevelsOutput (f32 (70711 / 100000)))]
                    else [])
            else [])
    ∧ (listener.position.distSquared pos = 0 →
        listener.position = pos
        ∧ areaLevel X (listener.position.sub pos).LengthSquared = 0)
    ∧ ((1 + (2 : ℚ) ^ (-20 : ℤ)) * (32 * 32) ≤ listener.position.distSquared pos →
        areaLevel X (listener.position.sub pos).LengthSquared = 1)
    ∧ (32 * 32 ≤ (listener.position.sub pos).LengthSquared →
        areaLevel X (listener.position.sub pos).LengthSquared = 1)
    ∧ |(listener.position.sub pos).LengthSquared - listener.position.distSquared pos|
        ≤ (2 : ℚ) ^ (-21 : ℤ) * listener.position.distSquared pos + 2 ^ (-146 : ℤ)
    ∧ areaLevel X 0 = 0
    ∧ (∀ dist_sqr : ℚ, 32 * 32 ≤ dist_sqr → areaLevel X dist_sqr = 1) := by
  have hfar : ∀ dist_sqr : ℚ, 32 * 32 ≤ dist_sqr → areaLevel X dist_sqr = 1 := by
    intro d hd
    rw [areaLevel_eq]
    have hd0 : d ≠ 0 := by
      intro h0
      rw [h0] at hd
      norm_num at hd
    rw [if_neg hd0]
    rcases lt_or_eq_of_le hd with hlt | heq
    · rw [if_neg (not_le.mpr hlt)]
    · rw [if_pos (le_of_eq heq.symm), ← heq, hsqrt]
      exact interpLevel_ends.2
  have hzero : areaLevel X 0 = 0 := by
    rw [areaLevel_eq, if_pos rfl]
  have herr := LengthSquared_error listener.position pos
  refine ⟨?_, ?_, ?_, fun h => hfar _ h, herr, hzero, hfar⟩
  · simp only [SetChanHeadSettings, hvalid, Bool.not_true, Bool.false_eq_true, if_false,
      if_true, hold]
  · intro hT
    have hx : 0 ≤ (listener.position.X - pos.X) ^ 2 := sq_nonneg _
    have hy : 0 ≤ (listener.position.Y - pos.Y) ^ 2 := sq_nonneg _
    have hz : 0 ≤ (listener.position.Z - pos.Z) ^ 2 := sq_nonneg _
    unfold FVector3.distSquared at hT
    have ex : listener.position.X = pos.X :=
      sub_eq_zero.mp ((pow_eq_zero_iff two_ne_zero).mp (by linarith))
    have ey : listener.position.Y = pos.Y :=
      sub_eq_zero.mp ((pow_eq_zero_iff two_ne_zero).mp (by linarith))
    have ez : listener.position.Z = pos.Z :=
      sub_eq_zero.mp ((pow_eq_zero_iff two_ne_zero).mp (by linarith))
    have hpos : listener.position = pos := by
      cases hl : listener.position
      cases pos
      rw [hl] at ex ey ez
      simp only at ex ey ez
      rw [ex, ey, ez]
    refine ⟨hpos, ?_⟩
    have hz : (listener.position.sub pos).LengthSquared = 0 := by
      rw [hpos]
      have h0 : f32 0 = 0 := by decide!
      simp only [FVector3.sub, FVector3.LengthSquared, sub_self, h0, mul_zero, add_zero]
    rw [hz]
    exact hzero
  · intro hT
    apply hfar
    rw [abs_le] at herr
    norm_num at herr hT ⊢
    linarith [herr.1]

/-- C11 (witness): a listener at the origin, a sound 40 units away and a
channel whose level is 1. -/
theorem C11_area_level_endpoints_witness :
    SetChanHeadSettings exExternals zdoomConsts (exListener false) (exChan 0 none true)
          { X := 40, Y := 0, Z := 0 } true 0
        = (0,
            if (1 : ℚ) ≠ areaLevel exExternals
                ((exListener false).position.sub { X := 40, Y := 0, Z := 0 }).LengthSquared then
              [.channel (exChan 0 none true).handle
                  (.set3DLevel (areaLevel exExternals
                    ((exListener false).position.sub { X := 40, Y := 0, Z := 0 }).LengthSquared))]
                ++ (if areaLevel exExternals
                        ((exListener false).position.sub
                          { X := 40, Y := 0, Z := 0 }).LengthSquared < 1 then
                      [.channel (exChan 0 none true).handle
                        (.setMixLevelsOutput (f32 (70711 / 100000)))]
                    else [])
            else [])
    ∧ ((exListener false).position.distSquared { X := 40, Y := 0, Z := 0 } = 0 →
        (exListener false).position = { X := 40, Y := 0, Z := 0 }
        ∧ areaLevel exExternals
            ((exListener false).position.sub { X := 40, Y := 0, Z := 0 }).LengthSquared = 0)
    ∧ ((1 + (2 : ℚ) ^ (-20 : ℤ)) * (32 * 32)
          ≤ (exListener false).position.distSquared { X := 40, Y := 0, Z := 0 } →
        areaLevel exExternals
          ((exListener false).position.sub { X := 40, Y := 0, Z := 0 }).LengthSquared = 1)
    ∧ (32 * 32 ≤ ((exListener false).position.sub { X := 40, Y := 0, Z := 0 }).LengthSquared →
        areaLevel exExternals
          ((exListener false).position.sub { X := 40, Y := 0, Z := 0 }).LengthSquared = 1)
    ∧ |((exListener false).position.sub { X := 40, Y := 0, Z := 0 }).LengthSquared
          - (exListener false).position.distSquared { X := 40, Y := 0, Z := 0 }|
        ≤ (2 : ℚ) ^ (-21 : ℤ) * (exListener false).position.distSquared { X := 40, Y := 0, Z := 0 }
          + 2 ^ (-146 : ℤ)
    ∧ areaLevel exExternals 0 = 0
    ∧ (∀ dist_sqr : ℚ, 32 * 32 ≤ dist_sqr → areaLevel exExternals dist_sqr = 1) :=
  C11_area_level_endpoints exExternals zdoomConsts (exListener false) (exChan 0 none true)
    { X := 40, Y := 0, Z := 0 } 0 1 rfl rfl
    (by have h := exExternals_sqrtFacts.exact 32 (by norm_num)
        norm_num at h ⊢
        exact h)

/-- The level of an area sound at example inputs, for a channel whose level is
0 and a listener at the origin: nothing is sent for a sound at the origin (the
level stays 0); at 16 units the level 1/2 is sent with the mix levels; at 32
units and at 40 units the level 1 is sent, without the mix levels. -/
theorem SetChanHeadSettings_area_examples :
    SetChanHeadSettings exFineExternals zdoomConsts (exListener false) exChanLevel0
        exOrigin true 0 = (0, [])
    ∧ SetChanHeadSettings exFineExternals zdoomConsts (exListener false) exChanLevel0
        { X := 0, Y := 16, Z := 0 } true 0
      = (0, [.channel 7 (.set3DLevel (1 / 2)),
             .channel 7 (.setMixLevelsOutput (f32 (70711 / 100000)))])
    ∧ SetChanHeadSettings exFineExternals zdoomConsts (exListener false) exChanLevel0
        { X := 32, Y := 0, Z := 0 } true 0 = (0, [.channel 7 (.set3DLevel 1)])
    ∧ SetChanHeadSettings exFineExternals zdoomConsts (exListener false) exChanLevel0
        { X := 0, Y := 0, Z := 40 } true 0 = (0, [.channel 7 (.set3DLevel 1)]) := by
  refine ⟨by decide!, by decide!, by decide!, by decide!⟩

/-- The level of an area sound as a function of the squared distance, with a
square root that is never negative, monotone and exact on squares of whole
numbers: it never decreases as the squared distance grows and lies between 0
and 1. For a squared distance in `(0, 32 * 32]` it is the expression
`1 - (32 - s) / 32`, with `s` the computed square root, evaluated in `double`
arithmetic and rounded to `float`; it is within `2^-23` of the exact value of
that expression, and equals `1 - (32 - d) / 32` exactly when the distance `d`
is a whole number. -/
theorem areaLevel_monotone (X : Externals) (hX : SqrtFacts X) :
    (∀ s1 s2 : ℚ, 0 ≤ s1 → s1 ≤ s2 → areaLevel X s1 ≤ areaLevel X s2)
    ∧ (∀ s : ℚ, 0 ≤ s → 0 ≤ areaLevel X s ∧ areaLevel X s ≤ 1)
    ∧ (∀ dist_sqr : ℚ, 0 < dist_sqr → dist_sqr ≤ 32 * 32 →
        areaLevel X dist_sqr = interpLevel (X.sqrt dist_sqr)
        ∧ |areaLevel X dist_sqr - (1 - (32 - X.sqrt dist_sqr) / 32)| ≤ (2 : ℚ) ^ (-23 : ℤ))
    ∧ (∀ d : ℕ, 0 < d → d ≤ 32 → areaLevel X ((d : ℚ) * d) = 1 - (32 - (d : ℚ)) / 32) := by
  have h32 : X.sqrt (32 * 32) = 32 := by
    have h := hX.exact 32 (by norm_num)
    norm_num at h ⊢
    exact h
  have hs : ∀ d : ℚ, 0 ≤ d → d ≤ 32 * 32 → 0 ≤ X.sqrt d ∧ X.sqrt d ≤ 32 := by
    intro d h0 h1
    refine ⟨hX.nonneg d, ?_⟩
    have := hX.mono d (32 * 32) h0 h1
    rwa [h32] at this
  have hnn : ∀ d : ℚ, 0 ≤ d → 0 ≤ areaLevel X d ∧ areaLevel X d ≤ 1 := by
    intro d h0
    rw [areaLevel_eq]
    split_ifs with h1 h2
    · exact ⟨le_refl _, by norm_num⟩
    · exact interpLevel_bounds _ (hs d h0 h2).1 (hs d h0 h2).2
    · exact ⟨by norm_num, le_refl _⟩
  have hmono : ∀ s1 s2 : ℚ, 0 ≤ s1 → s1 ≤ s2 → areaLevel X s1 ≤ areaLevel X s2 := by
    intro s1 s2 h0 h12
    by_cases hz : s1 = 0
    · rw [hz, areaLevel_eq, if_pos rfl]
      exact (hnn s2 (le_trans h0 h12)).1
    · have hz2 : s2 ≠ 0 := by
        intro h
        have : s1 = 0 := le_antisymm (h ▸ h12) h0
        exact hz this
      by_cases hb2 : s2 ≤ 32 * 32
      · have hb1 : s1 ≤ 32 * 32 := le_trans h12 hb2
        rw [areaLevel_eq, areaLevel_eq, if_neg hz, if_neg hz2, if_pos hb1, if_pos hb2]
        exact interpLevel_mono _ _ (hX.mono s1 s2 h0 h12)
      · have : areaLevel X s2 = 1 := by
          rw [areaLevel_eq, if_neg hz2, if_neg hb2]
        rw [this]
        exact (hnn s1 h0).2
  refine ⟨hmono, hnn, ?_, ?_⟩
  · intro d h0 h1
    have he : areaLevel X d = interpLevel (X.sqrt d) := by
      rw [areaLevel_eq, if_neg h0.ne', if_pos h1]
    refine ⟨he, ?_⟩
    rw [he]
    exact interpLevel_error _ (hs d h0.le h1).1 (hs d h0.le h1).2
  · intro d h0 h1
    have hd : (0 : ℚ) < (d : ℚ) * d := by
      have : (0 : ℚ) < d := by exact_mod_cast h0
      positivity
    have hd2 : (d : ℚ) * d ≤ 32 * 32 := by
      have : (d : ℚ) ≤ 32 := by exact_mod_cast h1
      have h3 : (0 : ℚ) ≤ d := Nat.cast_nonneg _
      exact mul_le_mul this this h3 (by norm_num)
    rw [areaLevel_eq, if_neg hd.ne', if_pos hd2, hX.exact d (le_trans h1 (by norm_num))]
    exact interpLevel_nat d h1

/-- The squared distance computed in `float` arithmetic is never negative. -/
theorem LengthSquared_nonneg (a : FVector3) : 0 ≤ a.LengthSquared := by
  unfold FVector3.LengthSquared
  have hx := f32_nonneg _ (mul_self_nonneg a.X)
  have hy := f32_nonneg _ (mul_self_nonneg a.Y)
  have hz := f32_nonneg _ (mul_self_nonneg a.Z)
  exact f32_nonneg _ (add_nonneg (f32_nonneg _ (add_nonneg hx hy)) hz)

/-- C12 (counterexample): with the listener at the origin and a channel whose
level is 0, a sound at `(32, 0, 0)`, exactly 32 units away, gets the level 1,
and a sound at the point `exFarPoint2`, which is farther away, gets the smaller
level `1 - 2^-24`: the level decreases as the distance grows. And a sound at
`(1, 1, 0)`, at distance `√2`, gets the level `11863283 / 2^28`, a `float`,
while `1 - (32 - √2) / 32` is irrational. -/
theorem C12_counterexample :
    ((exListener false).position.distSquared { X := 32, Y := 0, Z := 0 }
        < (exListener false).position.distSquared exFarPoint2
      ∧ SetChanHeadSettings exFineExternals zdoomConsts (exListener false) exChanLevel0
          { X := 32, Y := 0, Z := 0 } true 0 = (0, [.channel 7 (.set3DLevel 1)])
      ∧ SetChanHeadSettings exFineExternals zdoomConsts (exListener false) exChanLevel0
          exFarPoint2 true 0
        = (0, [.channel 7 (.set3DLevel (16777215 / 16777216)),
               .channel 7 (.setMixLevelsOutput (f32 (70711 / 100000)))])
      ∧ (16777215 / 16777216 : ℚ) < 1)
    ∧ ((exListener false).position.distSquared { X := 1, Y := 1, Z := 0 } = 2
      ∧ SetChanHeadSettings exFineExternals zdoomConsts (exListener false) exChanLevel0
          { X := 1, Y := 1, Z := 0 } true 0
        = (0, [.channel 7 (.set3DLevel (11863283 / 268435456)),
               .channel 7 (.setMixLevelsOutput (f32 (70711 / 100000)))])
      ∧ (((11863283 / 268435456 : ℚ)) : ℝ) ≠ 1 - (32 - Real.sqrt 2) / 32) := by
  refine ⟨⟨by decide!, by decide!, by decide!, by norm_num⟩, by decide!, by decide!, ?_⟩
  intro h
  have h2 : Real.sqrt 2 = (((32 * (11863283 / 268435456) : ℚ)) : ℝ) := by
    push_cast at h ⊢
    linarith
  exact irrational_sqrt_two.ne_rat _ h2

/-- C12 (amended): for a valid listener and an area sound, with a square root
that is never negative, monotone and exact on squares of whole numbers. The
level `SetChanHeadSettings` computes, which it sends to the channel when it
differs from the level the channel has, lies between 0 and 1 and never
decreases as the squared distance computed in `float` arithmetic grows; hence
of two sounds the one whose exact squared distance is smaller by more than the
rounding error (the fraction `2^-20`, plus `2^-140`) never has the larger
level. For a computed squared distance in `(0, 32 * 32]` the level is the
expression `1 - (32 - s) / 32`, with `s` the computed square root, evaluated in
`double` arithmetic and rounded to `float`; it is within `2^-23` of the exact
value of that expression, and equals `1 - (32 - d) / 32` exactly for a sound a
whole number `d` of units away along the first axis. -/
theorem C12_area_level_monotone (X : Externals) (hX : SqrtFacts X) (K : Consts)
    (listener : SoundListener) (chan : ChannelReplies) (p1 p2 : FVector3) (oldmode : ℕ)
    (old_level : ℚ)
    (hvalid : listener.valid = true)
    (hold : chan.get3DLevel = some old_level) :
    (∀ pos : FVector3, SetChanHeadSettings X K listener chan pos true oldmode
        = (oldmode,
            if old_level ≠ areaLevel X (listener.position.sub pos).LengthSquared then
              [.channel chan.handle
                  (.set3DLevel (areaLevel X (listener.position.sub pos).LengthSquared))]
                ++ (if areaLevel X (listener.position.sub pos).LengthSquared < 1 then
                      [.channel chan.handle (.setMixLevelsOutput (f32 (70711 / 100000)))]
                    else [])
            else []))
    ∧ (0 ≤ areaLevel X (listener.position.sub p1).LengthSquared
        ∧ areaLevel X (listener.position.sub p1).LengthSquared ≤ 1)
    ∧ ((listener.position.sub p1).LengthSquared ≤ (listener.position.sub p2).LengthSquared →
        areaLevel X (listener.position.sub p1).LengthSquared
          ≤ areaLevel X (listener.position.sub p2).LengthSquared)
    ∧ (listener.position.distSquared p1
          ≤ (1 - (2 : ℚ) ^ (-20 : ℤ)) * listener.position.distSquared p2 - 2 ^ (-140 : ℤ) →
        areaLevel X (listener.position.sub p1).LengthSquared
          ≤ areaLevel X (listener.position.sub p2).LengthSquared)
    ∧ (0 < (listener.position.sub p1).LengthSquared →
        (listener.position.sub p1).LengthSquared ≤ 32 * 32 →
        areaLevel X (listener.position.sub p1).LengthSquared
            = interpLevel (X.sqrt (listener.position.sub p1).LengthSquared)
        ∧ |areaLevel X (listener.position.sub p1).LengthSquared
              - (1 - (32 - X.sqrt (listener.position.sub p1).LengthSquared) / 32)|
            ≤ (2 : ℚ) ^ (-23 : ℤ))
    ∧ (∀ d : ℕ, 0 < d → d ≤ 32 →
        listener.position.X - p1.X = d → listener.position.Y = p1.Y →
        listener.position.Z = p1.Z →
        (listener.position.sub p1).LengthSquared = (d : ℚ) * d
        ∧ areaLevel X (listener.position.sub p1).LengthSquared = 1 - (32 - (d : ℚ)) / 32)
    ∧ |(listener.position.sub p1).LengthSquared - listener.position.distSquared p1|
        ≤ (2 : ℚ) ^ (-21 : ℤ) * listener.position.distSquared p1 + 2 ^ (-146 : ℤ) := by
  obtain ⟨hmono, hnn, hform, hnat⟩ := areaLevel_monotone X hX
  have hL1 := LengthSquared_nonneg (listener.position.sub p1)
  have herr1 := LengthSquared_error listener.position p1
  have herr2 := LengthSquared_error listener.position p2
  refine ⟨?_, hnn _ hL1, fun h => hmono _ _ hL1 h, ?_, fun h0 h1 => hform _ h0 h1, ?_, herr1⟩
  · intro pos
    simp only [SetChanHeadSettings, hvalid, Bool.not_true, Bool.false_eq_true, if_false,
      if_true, hold]
  · intro hT
    apply hmono _ _ hL1
    rw [abs_le] at herr1 herr2
    norm_num at herr1 herr2 hT
    linarith [herr1.2, herr2.1]
  · intro d h0 h1 hx hy hz
    have hd : ∀ n : ℕ, n ≤ 32 → f32 (n : ℚ) = n ∧ f32 ((n : ℚ) * n) = (n : ℚ) * n := by
      intro n hn
      interval_cases n <;> exact ⟨by decide!, by decide!⟩
    have h00 : f32 0 = 0 := by decide!
    have hL : (listener.position.sub p1).LengthSquared = (d : ℚ) * d := by
      simp only [FVector3.sub, FVector3.LengthSquared, hx, hy, hz, sub_self, h00, mul_zero,
        add_zero, (hd d h1).1, (hd d h1).2]
    exact ⟨hL, by rw [hL]; exact hnat d h0 h1⟩

/-- C12 (witness): the amended statement for the square root of the examples,
a listener at the origin, a sound 16 units away and a sound 40 units away. -/
theorem C12_area_level_monotone_witness :
    (∀ pos : FVector3, SetChanHeadSettings exExternals zdoomConsts (exListener false)
          (exChan 0 none true) pos true 0
        = (0,
            if (1 : ℚ) ≠ areaLevel exExternals ((exListener false).position.sub pos).LengthSquared
            then
              [.channel (exChan 0 none true).handle
                  (.set3DLevel (areaLevel exExternals
                    ((exListener false).position.sub pos).LengthSquared))]
                ++ (if areaLevel exExternals
                        ((exListener false).position.sub pos).LengthSquared < 1 then
                      [.channel (exChan 0 none true).handle
                        (.setMixLevelsOutput (f32 (70711 / 100000)))]
                    else [])
            else []))
    ∧ (0 ≤ areaLevel exExternals
          ((exListener false).position.sub { X := -16, Y := 0, Z := 0 }).LengthSquared
        ∧ areaLevel exExternals
          ((exListener false).position.sub { X := -16, Y := 0, Z := 0 }).LengthSquared ≤ 1)
    ∧ (((exListener false).position.sub { X := -16, Y := 0, Z := 0 }).LengthSquared
          ≤ ((exListener false).position.sub { X := 0, Y := 40, Z := 0 }).LengthSquared →
        areaLevel exExternals
            ((exListener false).position.sub { X := -16, Y := 0, Z := 0 }).LengthSquared
          ≤ areaLevel exExternals
            ((exListener false).position.sub { X := 0, Y := 40, Z := 0 }).LengthSquared)
    ∧ ((exListener false).position.distSquared { X := -16, Y := 0, Z := 0 }
          ≤ (1 - (2 : ℚ) ^ (-20 : ℤ))
              * (exListener false).position.distSquared { X := 0, Y := 40, Z := 0 }
            - 2 ^ (-140 : ℤ) →
        areaLevel exExternals
            ((exListener false).position.sub { X := -16, Y := 0, Z := 0 }).LengthSquared
          ≤ areaLevel exExternals
            ((exListener false).position.sub { X := 0, Y := 40, Z := 0 }).LengthSquared)
    ∧ (0 < ((exListener false).position.sub { X := -16, Y := 0, Z := 0 }).LengthSquared →
        ((exListener false).position.sub { X := -16, Y := 0, Z := 0 }).LengthSquared ≤ 32 * 32 →
        areaLevel exExternals
              ((exListener false).position.sub { X := -16, Y := 0, Z := 0 }).LengthSquared
            = interpLevel (exExternals.sqrt
                ((exListener false).position.sub { X := -16, Y := 0, Z := 0 }).LengthSquared)
        ∧ |areaLevel exExternals
                ((exListener false).position.sub { X := -16, Y := 0, Z := 0 }).LengthSquared
              - (1 - (32 - exExternals.sqrt
                  ((exListener false).position.sub
                    { X := -16, Y := 0, Z := 0 }).LengthSquared) / 32)|
            ≤ (2 : ℚ) ^ (-23 : ℤ))
    ∧ (∀ d : ℕ, 0 < d → d ≤ 32 →
        (exListener false).position.X - (-16 : ℚ) = d → (exListener false).position.Y = 0 →
        (exListener false).position.Z = 0 →
        ((exListener false).position.sub { X := -16, Y := 0, Z := 0 }).LengthSquared
            = (d : ℚ) * d
        ∧ areaLevel exExternals
              ((exListener false).position.sub { X := -16, Y := 0, Z := 0 }).LengthSquared
            = 1 - (32 - (d : ℚ)) / 32)
    ∧ |((exListener false).position.sub { X := -16, Y := 0, Z := 0 }).LengthSquared
          - (exListener false).position.distSquared { X := -16, Y := 0, Z := 0 }|
        ≤ (2 : ℚ) ^ (-21 : ℤ)
            * (exListener false).position.distSquared { X := -16, Y := 0, Z := 0 }
          + 2 ^ (-146 : ℤ) :=
  C12_area_level_monotone exExternals exExternals_sqrtFacts zdoomConsts (exListener false)
    (exChan 0 none true) { X := -16, Y := 0, Z := 0 } { X := 0, Y := 40, Z := 0 } 0 1 rfl rfl

/-- C16 (counterexample): with the listener at the origin and the old mode
`FMOD_3D | FMOD_LOOP_NORMAL = 18`, a sound at the point `exNearPoint`, whose
squared distance is below `0.0004` squared, is given the mode 18, with the 3D
bit set and the 2D bit clear; and a sound at the point `exNotNearPoint`, whose
squared distance is not below `0.0004` squared, is given the mode 10, with the
2D bit set and the 3D bit clear. In both cases the squared distance computed in
`float` arithmetic lies on the other side of the threshold. -/
theorem C16_counterexample :
    ((exListener false).position.distSquared exNearPoint < (4 / 10000) ^ 2
      ∧ ¬ ((exListener false).position.sub exNearPoint).LengthSquared
            < f64 (f64 (4 / 10000) * f64 (4 / 10000))
      ∧ SetChanHeadSettings exExternals zdoomConsts (exListener false) (exChan 0 none true)
          exNearPoint false 18 = (18, [])
      ∧ (18 : ℕ).testBit 4 = true ∧ (18 : ℕ).testBit 3 = false)
    ∧ (¬ (exListener false).position.distSquared exNotNearPoint < (4 / 10000) ^ 2
      ∧ ((exListener false).position.sub exNotNearPoint).LengthSquared
            < f64 (f64 (4 / 10000) * f64 (4 / 10000))
      ∧ SetChanHeadSettings exExternals zdoomConsts (exListener false) (exChan 0 none true)
          exNotNearPoint false 18 = (10, [])
      ∧ (10 : ℕ).testBit 3 = true ∧ (10 : ℕ).testBit 4 = false) := by
  refine ⟨⟨by decide!, by decide!, by decide!, by decide, by decide⟩,
    by decide!, by decide!, by decide!, by decide, by decide⟩

/-- C16 (amended): for a valid listener and a non-area sound,
`SetChanHeadSettings` sends nothing and returns the old mode with the 3D bit
cleared and the 2D bit set when the squared distance it computes in `float`
arithmetic is below the `double` product `0.0004 * 0.0004`, and otherwise with
the 2D bit cleared and the 3D bit set. The computed squared distance is within
the fraction `2^-21` of the exact one, plus `2^-146`; so the first case holds
whenever the exact squared distance is at most `(1 - 2^-20)` times `0.0004`
squared and the second whenever it is at least `(1 + 2^-20)` times `0.0004`
squared. With `FMOD_2D` and `FMOD_3D` two distinct single bits and a 32-bit old
mode, exactly one of them is set in the result and every other bit is
unchanged. -/
theorem C16_non_area_mode (X : Externals) (K : Consts) (listener : SoundListener)
    (chan : ChannelReplies) (pos : FVector3) (oldmode a b : ℕ)
    (hvalid : listener.valid = true)
    (h2 : K.FMOD_2D = 2 ^ a) (h3 : K.FMOD_3D = 2 ^ b) (hab : a ≠ b)
    (hmode : oldmode < 2 ^ 32) :
    ((listener.position.sub pos).LengthSquared < f64 (f64 (4 / 10000) * f64 (4 / 10000)) →
      SetChanHeadSettings X K listener chan pos false oldmode
          = (clearBits oldmode K.FMOD_3D ||| K.FMOD_2D, [])
      ∧ (SetChanHeadSettings X K listener chan pos false oldmode).1.testBit a = true
      ∧ (SetChanHeadSettings X K listener chan pos false oldmode).1.testBit b = false
      ∧ ∀ i, i ≠ a → i ≠ b →
          (SetChanHeadSettings X K listener chan pos false oldmode).1.testBit i
            = oldmode.testBit i)
    ∧ (¬ (listener.position.sub pos).LengthSquared
          < f64 (f64 (4 / 10000) * f64 (4 / 10000)) →
      SetChanHeadSettings X K listener chan pos false oldmode
          = (clearBits oldmode K.FMOD_2D ||| K.FMOD_3D, [])
      ∧ (SetChanHeadSettings X K listener chan pos false oldmode).1.testBit b = true
      ∧ (SetChanHeadSettings X K listener chan pos false oldmode).1.testBit a = false
      ∧ ∀ i, i ≠ a → i ≠ b →
          (SetChanHeadSettings X K listener chan pos false oldmode).1.testBit i
            = oldmode.testBit i)
    ∧ |(listener.position.sub pos).LengthSquared - listener.position.distSquared pos|
        ≤ (2 : ℚ) ^ (-21 : ℤ) * listener.position.distSquared pos + 2 ^ (-146 : ℤ)
    ∧ (listener.position.distSquared pos ≤ (1 - (2 : ℚ) ^ (-20 : ℤ)) * (4 / 10000) ^ 2 →
        SetChanHeadSettings X K listener chan pos false oldmode
          = (clearBits oldmode K.FMOD_3D ||| K.FMOD_2D, []))
    ∧ ((1 + (2 : ℚ) ^ (-20 : ℤ)) * (4 / 10000) ^ 2 ≤ listener.position.distSquared pos →
        SetChanHeadSettings X K listener chan pos false oldmode
          = (clearBits oldmode K.FMOD_2D ||| K.FMOD_3D, [])) := by
  have herr := LengthSquared_error listener.position pos
  have hthr : f64 (f64 (4 / 10000) * f64 (4 / 10000))
      = 3022314549036573 / 18889465931478580854784 := by decide!
  have hnearEq : (listener.position.sub pos).LengthSquared
        < f64 (f64 (4 / 10000) * f64 (4 / 10000)) →
      SetChanHeadSettings X K listener chan pos false oldmode
        = (clearBits oldmode K.FMOD_3D ||| K.FMOD_2D, []) := by
    intro hnear
    simp only [SetChanHeadSettings, hvalid, Bool.not_true, Bool.false_eq_true, if_false,
      hnear, if_true]
  have hfarEq : ¬ (listener.position.sub pos).LengthSquared
        < f64 (f64 (4 / 10000) * f64 (4 / 10000)) →
      SetChanHeadSettings X K listener chan pos false oldmode
        = (clearBits oldmode K.FMOD_2D ||| K.FMOD_3D, []) := by
    intro hfar
    simp only [SetChanHeadSettings, hvalid, Bool.not_true, Bool.false_eq_true, if_false,
      hfar]
  refine ⟨?_, ?_, herr, ?_, ?_⟩
  · intro hnear
    rw [hnearEq hnear, h2, h3]
    refine ⟨rfl, ?_, ?_, ?_⟩
    · rw [clearBits_or_testBit oldmode a b a hmode hab, if_pos rfl]
    · rw [clearBits_or_testBit oldmode a b b hmode hab, if_neg (Ne.symm hab), if_pos rfl]
    · intro i hia hib
      rw [clearBits_or_testBit oldmode a b i hmode hab, if_neg hia, if_neg hib]
  · intro hfar
    rw [hfarEq hfar, h2, h3]
    refine ⟨rfl, ?_, ?_, ?_⟩
    · rw [clearBits_or_testBit oldmode b a b hmode (Ne.symm hab), if_pos rfl]
    · rw [clearBits_or_testBit oldmode b a a hmode (Ne.symm hab), if_neg hab, if_pos rfl]
    · intro i hia hib
      rw [clearBits_or_testBit oldmode b a i hmode (Ne.symm hab), if_neg hib, if_neg hia]
  · intro hT
    apply hnearEq
    rw [hthr]
    rw [abs_le] at herr
    norm_num at herr hT ⊢
    linarith [herr.2]
  · intro hT
    apply hfarEq
    rw [hthr, not_lt]
    rw [abs_le] at herr
    norm_num at herr hT ⊢
    linarith [herr.1]

/-- C16 (witness): the constants of FMOD Ex (`FMOD_2D = 2^3`, `FMOD_3D = 2^4`),
a listener at the origin, a sound at the point `exNotNearPoint` and the old mode
`FMOD_3D | FMOD_LOOP_NORMAL = 18`. -/
theorem C16_non_area_mode_witness :
    ((((exListener false).position.sub exNotNearPoint).LengthSquared
        < f64 (f64 (4 / 10000) * f64 (4 / 10000)) →
      SetChanHeadSettings exExternals zdoomConsts (exListener false) (exChan 0 none true)
          exNotNearPoint false 18
          = (clearBits 18 zdoomConsts.FMOD_3D ||| zdoomConsts.FMOD_2D, [])
      ∧ (SetChanHeadSettings exExternals zdoomConsts (exListener false) (exChan 0 none true)
          exNotNearPoint false 18).1.testBit 3 = true
      ∧ (SetChanHeadSettings exExternals zdoomConsts (exListener false) (exChan 0 none true)
          exNotNearPoint false 18).1.testBit 4 = false
      ∧ ∀ i, i ≠ 3 → i ≠ 4 →
          (SetChanHeadSettings exExternals zdoomConsts (exListener false) (exChan 0 none true)
            exNotNearPoint false 18).1.testBit i = (18 : ℕ).testBit i)
    ∧ (¬ ((exListener false).position.sub exNotNearPoint).LengthSquared
          < f64 (f64 (4 / 10000) * f64 (4 / 10000)) →
      SetChanHeadSettings exExternals zdoomConsts (exListener false) (exChan 0 none true)
          exNotNearPoint false 18
          = (clearBits 18 zdoomConsts.FMOD_2D ||| zdoomConsts.FMOD_3D, [])
      ∧ (SetChanHeadSettings exExternals zdoomConsts (exListener false) (exChan 0 none true)
          exNotNearPoint false 18).1.testBit 4 = true
      ∧ (SetChanHeadSettings exExternals zdoomConsts (exListener false) (exChan 0 none true)
          exNotNearPoint false 18).1.testBit 3 = false
      ∧ ∀ i, i ≠ 3 → i ≠ 4 →
          (SetChanHeadSettings exExternals zdoomConsts (exListener false) (exChan 0 none true)
            exNotNearPoint false 18).1.testBit i = (18 : ℕ).testBit i)
    ∧ |((exListener false).position.sub exNotNearPoint).LengthSquared
          - (exListener false).position.distSquared exNotNearPoint|
        ≤ (2 : ℚ) ^ (-21 : ℤ) * (exListener false).position.distSquared exNotNearPoint
          + 2 ^ (-146 : ℤ)
    ∧ ((exListener false).position.distSquared exNotNearPoint
          ≤ (1 - (2 : ℚ) ^ (-20 : ℤ)) * (4 / 10000) ^ 2 →
        SetChanHeadSettings exExternals zdoomConsts (exListener false) (exChan 0 none true)
            exNotNearPoint false 18
          = (clearBits 18 zdoomConsts.FMOD_3D ||| zdoomConsts.FMOD_2D, []))
    ∧ ((1 + (2 : ℚ) ^ (-20 : ℤ)) * (4 / 10000) ^ 2
          ≤ (exListener false).position.distSquared exNotNearPoint →
        SetChanHeadSettings exExternals zdoomConsts (exListener false) (exChan 0 none true)
            exNotNearPoint false 18
          = (clearBits 18 zdoomConsts.FMOD_2D ||| zdoomConsts.FMOD_3D, []))) :=
  C16_non_area_mode exExternals zdoomConsts (exListener false) (exChan 0 none true)
    exNotNearPoint 18 3 4 rfl rfl rfl (by decide) (by decide)


/-- The head-relative case of C16 at the example input: the squared distance
0 is below the threshold and the mode 18 becomes 10, `FMOD_2D | FMOD_LOOP_NORMAL`;
a sound one unit away keeps the mode 18. -/
theorem SetChanHeadSettings_non_area_examples :
    (SetChanHeadSettings exExternals zdoomConsts (exListener false) (exChan 0 none true)
        exOrigin false 18).1 = 10
    ∧ (SetChanHeadSettings exExternals zdoomConsts (exListener false) (exChan 0 none true)
        { X := 1, Y := 0, Z := 0 } false 18).1 = 18 := by
  constructor <;> decide!

/-- C14 (the code at the failing input): `StartSound3D` restarting a sound
whose recorded start time is 1000 at clock 1700, on an engine that rejects the
seek. The call returns `NULL`, and `GRolloff` still holds the rolloff passed in:
the return after `chan->stop()` does not clear it. -/
theorem C14_rolloff_left_set_on_seek_failure :
    (StartSound3D exExternals zdoomConsts exCVars (exRenderer 48000)
        (exHeap { Lo := 1000, Hi := 0 }) (exSound (exChan 1700 (some (some 500)) false))
        (exListener false) 1 exRolloff 1 128 0 exOrigin exOrigin
        zdoomConsts.SNDF_LOOP (some 0)).toOption.map
      (fun s => (s.ret, s.r.GRolloff)) = some (none, some exRolloff) := by
  decide!

/-- The other paths of C14 at example inputs: `GRolloff` is `NULL` after a
successful `StartSound3D`, after a `StartSound3D` whose `playSound` fails, and
after a `StartSound` whose resume seek fails. -/
theorem GRolloff_cleared_on_other_paths :
    (StartSound3D exExternals zdoomConsts exCVars (exRenderer 48000)
        (exHeap { Lo := 1000, Hi := 0 }) (exSound (exChan 1700 (some (some 500)) true))
        (exListener false) 1 exRolloff 1 128 0 exOrigin exOrigin
        zdoomConsts.SNDF_LOOP (some 0)).toOption.map
      (fun s => (s.ret, s.r.GRolloff)) = some (some 0, none)
    ∧ (StartSound3D exExternals zdoomConsts exCVars (exRenderer 48000)
        (exHeap { Lo := 1000, Hi := 0 })
        { getDefaults := some (11025, 128), getFormat := some 1, playSound := none }
        (exListener false) 1 exRolloff 1 128 0 exOrigin exOrigin
        zdoomConsts.SNDF_LOOP (some 0)).toOption.map
      (fun s => (s.ret, s.r.GRolloff)) = some (none, none)
    ∧ (StartSound exExternals zdoomConsts exCVars
        { exRenderer 48000 with GRolloff := some exRolloff }
        (exHeap { Lo := 1000, Hi := 0 }) (exSound (exChan 1700 (some (some 500)) false)) 1 128
        zdoomConsts.SNDF_LOOP (some 0)).toOption.map
      (fun s => (s.ret, s.r.GRolloff)) = some (none, none) := by
  refine ⟨by decide!, by decide!, by decide!⟩

/-- C15: `RolloffCallback` takes its rolloff from `GRolloff` when that is set,
evaluating it at `distance * GDistScale`; otherwise from the game channel the
engine channel is tagged with, evaluating that channel's curve at
`distance * DistanceScale`; and it returns 0 when there is neither, that is
when the tag is `NULL` or the tag query fails. The products are `float`
products. -/
theorem C15_rolloff_source_order (S_GetRolloff : FRolloffInfo → ℚ → Bool → ℚ)
    (r : Renderer) (h : Heap) (getUserData : Option (Option ChanPtr)) (distance : ℚ) :
    (∀ rolloff, r.GRolloff = some rolloff →
      RolloffCallback S_GetRolloff r h getUserData distance
        = S_GetRolloff rolloff (f32 (distance * r.GDistScale)) true)
    ∧ (∀ schan, r.GRolloff = none → getUserData = some (some schan) →
      RolloffCallback S_GetRolloff r h getUserData distance
        = S_GetRolloff (h schan).Rolloff (f32 (distance * (h schan).DistanceScale)) true)
    ∧ (r.GRolloff = none → (getUserData = some none ∨ getUserData = none) →
      RolloffCallback S_GetRolloff r h getUserData distance = 0) := by
  refine ⟨?_, ?_, ?_⟩
  · intro rolloff hg
    simp only [RolloffCallback, hg]
  · intro schan hg hu
    simp only [RolloffCallback, hg, hu]
  · intro hg hu
    rcases hu with hu | hu <;> simp only [RolloffCallback, hg, hu]

/-- C15 (witness): an override with minimum distance 200 and scale 1/2, and a
tagged game channel with minimum distance 100 and scale 2, at distance 400: the
override gives 1 when set, the game channel gives 8 when it is not, and an
untagged channel gives 0. -/
theorem C15_rolloff_source_order_witness :
    ((∀ rolloff, ({ exRenderer 48000 with GRolloff := some exRolloff, GDistScale := 1 / 2 }
          : Renderer).GRolloff = some rolloff →
      RolloffCallback exGetRolloff
          { exRenderer 48000 with GRolloff := some exRolloff, GDistScale := 1 / 2 }
          (fun _ => { exChannel (some 7) { Lo := 0, Hi := 0 } with
                        Rolloff := exRolloff2, DistanceScale := 2 })
          (some (some 3)) 400
        = exGetRolloff rolloff (f32 (400 * ({ exRenderer 48000 with
              GRolloff := some exRolloff, GDistScale := 1 / 2 } : Renderer).GDistScale)) true)
    ∧ (∀ schan, ({ exRenderer 48000 with GRolloff := some exRolloff, GDistScale := 1 / 2 }
          : Renderer).GRolloff = none → (some (some 3) : Option (Option ChanPtr))
            = some (some schan) →
      RolloffCallback exGetRolloff
          { exRenderer 48000 with GRolloff := some exRolloff, GDistScale := 1 / 2 }
          (fun _ => { exChannel (some 7) { Lo := 0, Hi := 0 } with
                        Rolloff := exRolloff2, DistanceScale := 2 })
          (some (some 3)) 400
        = exGetRolloff ((fun _ => { exChannel (some 7) { Lo := 0, Hi := 0 } with
                        Rolloff := exRolloff2, DistanceScale := 2 } : Heap) schan).Rolloff
            (f32 (400 * ((fun _ => { exChannel (some 7) { Lo := 0, Hi := 0 } with
                        Rolloff := exRolloff2, DistanceScale := 2 } : Heap) schan).DistanceScale))
            true)
    ∧ (({ exRenderer 48000 with GRolloff := some exRolloff, GDistScale := 1 / 2 }
          : Renderer).GRolloff = none →
        ((some (some 3) : Option (Option ChanPtr)) = some none
          ∨ (some (some 3) : Option (Option ChanPtr)) = none) →
      RolloffCallback exGetRolloff
          { exRenderer 48000 with GRolloff := some exRolloff, GDistScale := 1 / 2 }
          (fun _ => { exChannel (some 7) { Lo := 0, Hi := 0 } with
                        Rolloff := exRolloff2, DistanceScale := 2 })
          (some (some 3)) 400 = 0)) :=
  C15_rolloff_source_order exGetRolloff
    { exRenderer 48000 with GRolloff := some exRolloff, GDistScale := 1 / 2 }
    (fun _ => { exChannel (some 7) { Lo := 0, Hi := 0 } with
                  Rolloff := exRolloff2, DistanceScale := 2 })
    (some (some 3)) 400

/-- The three cases of C15 evaluated: with the override set the result is
`400 * (1/2) / 200 = 1`; without it and with a tagged channel it is
`400 * 2 / 100 = 8`; without either it is 0. -/
theorem RolloffCallback_examples :
    RolloffCallback exGetRolloff
        { exRenderer 48000 with GRolloff := some exRolloff, GDistScale := 1 / 2 }
        (fun _ => { exChannel (some 7) { Lo := 0, Hi := 0 } with
                      Rolloff := exRolloff2, DistanceScale := 2 })
        (some (some 3)) 400 = 1
    ∧ RolloffCallback exGetRolloff (exRenderer 48000)
        (fun _ => { exChannel (some 7) { Lo := 0, Hi := 0 } with
                      Rolloff := exRolloff2, DistanceScale := 2 })
        (some (some 3)) 400 = 8
    ∧ RolloffCallback exGetRolloff (exRenderer 48000)
        (fun _ => { exChannel (some 7) { Lo := 0, Hi := 0 } with
                      Rolloff := exRolloff2, DistanceScale := 2 })
        (some none) 400 = 0
    ∧ RolloffCallback exGetRolloff (exRenderer 48000)
        (fun _ => { exChannel (some 7) { Lo := 0, Hi := 0 } with
                      Rolloff := exRolloff2, DistanceScale := 2 })
        none 400 = 0 := by
  refine ⟨by decide!, by decide!, by decide!, by decide!⟩

/-- The commands of `SetChanHeadSettings` are neither `setMode` nor
`set3DAttributes`. -/
theorem SetChanHeadSettings_calls (X : Externals) (K : Consts) (listener : SoundListener)
    (chan : ChannelReplies) (pos : FVector3) (areasound : Bool) (oldmode : ℕ) :
    (SetChanHeadSettings X K listener chan pos areasound oldmode).2.filter isSetMode = []
    ∧ (SetChanHeadSettings X K listener chan pos areasound oldmode).2.filter
        isSet3DAttributes = [] := by
  unfold SetChanHeadSettings
  cases listener.valid <;> cases areasound <;> cases chan.get3DLevel <;>
    simp only [Bool.not_true, Bool.not_false, Bool.false_eq_true, if_true, if_false] <;>
    (try split_ifs) <;> exact ⟨rfl, rfl⟩

/-- C17: for a game channel with a live engine channel, `UpdateSoundParams3D`
sends `setMode` if and only if the mode `SetChanHeadSettings` computes differs
from the mode of the channel (the mode `getMode` reports, or
`FMOD_3D | FMOD_SOFTWARE` when `getMode` fails), and then sends it once with the
computed mode; it sends exactly one `set3DAttributes`, with the given position
and velocity, as its last command. For a `NULL` game channel or a game channel
whose engine channel is `NULL` it sends nothing. -/
theorem C17_update_params_calls (X : Externals) (K : Consts)
    (engine : SysChan → ChannelReplies) (h : Heap) (listener : SoundListener)
    (areasound : Bool) (pos vel : FVector3) :
    UpdateSoundParams3D X K engine h listener none areasound pos vel = []
    ∧ (∀ p, (h p).SysChannel = none →
        UpdateSoundParams3D X K engine h listener (some p) areasound pos vel = [])
    ∧ (∀ p sys oldmode, (h p).SysChannel = some sys →
        oldmode = (engine sys).getMode.getD (K.FMOD_3D ||| K.FMOD_SOFTWARE) →
        ((UpdateSoundParams3D X K engine h listener (some p) areasound pos vel).filter isSetMode
          = if (SetChanHeadSettings X K listener (engine sys) pos areasound oldmode).1 ≠ oldmode
            then [.channel (engine sys).handle (.setMode
              (SetChanHeadSettings X K listener (engine sys) pos areasound oldmode).1)]
            else [])
        ∧ (UpdateSoundParams3D X K engine h listener (some p) areasound pos vel).filter
            isSet3DAttributes = [.channel (engine sys).handle (.set3DAttributes pos vel)]
        ∧ (UpdateSoundParams3D X K engine h listener (some p) areasound pos vel).getLast?
            = some (.channel (engine sys).handle (.set3DAttributes pos vel))) := by
  refine ⟨rfl, ?_, ?_⟩
  · intro p hp
    simp only [UpdateSoundParams3D, hp]
  · intro p sys oldmode hp hold
    have hold2 : (match (engine sys).getMode with
        | some m => m
        | none => K.FMOD_3D ||| K.FMOD_SOFTWARE) = oldmode := by
      rw [hold]
      cases (engine sys).getMode <;> rfl
    obtain ⟨hc1, hc2⟩ := SetChanHeadSettings_calls X K listener (engine sys) pos areasound
      oldmode
    simp only [UpdateSoundParams3D, hp, hold2, List.filter_append, hc1, hc2, List.nil_append]
    refine ⟨?_, ?_, ?_⟩
    · split_ifs <;> simp [isSetMode]
    · split_ifs <;> simp [isSet3DAttributes]
    · simp

/-- C17 (witness): a game channel on engine channel 7 whose mode is 0, a
listener at the origin and a non-area sound at the origin, for which the
computed mode is `FMOD_2D = 8` and `setMode` is sent. -/
theorem C17_update_params_calls_witness :
    UpdateSoundParams3D exExternals zdoomConsts (exEngine 0) exLiveHeap (exListener false) none
        false exOrigin exOrigin = []
    ∧ (∀ p, (exLiveHeap p).SysChannel = none →
        UpdateSoundParams3D exExternals zdoomConsts (exEngine 0) exLiveHeap (exListener false)
          (some p) false exOrigin exOrigin = [])
    ∧ (∀ p sys oldmode, (exLiveHeap p).SysChannel = some sys →
        oldmode = (exEngine 0 sys).getMode.getD
          (zdoomConsts.FMOD_3D ||| zdoomConsts.FMOD_SOFTWARE) →
        ((UpdateSoundParams3D exExternals zdoomConsts (exEngine 0) exLiveHeap
            (exListener false) (some p) false exOrigin exOrigin).filter isSetMode
          = if (SetChanHeadSettings exExternals zdoomConsts (exListener false)
                  (exEngine 0 sys) exOrigin false oldmode).1 ≠ oldmode
            then [.channel (exEngine 0 sys).handle (.setMode
              (SetChanHeadSettings exExternals zdoomConsts (exListener false)
                  (exEngine 0 sys) exOrigin false oldmode).1)]
            else [])
        ∧ (UpdateSoundParams3D exExternals zdoomConsts (exEngine 0) exLiveHeap
            (exListener false) (some p) false exOrigin exOrigin).filter
            isSet3DAttributes = [.channel (exEngine 0 sys).handle
              (.set3DAttributes exOrigin exOrigin)]
        ∧ (UpdateSoundParams3D exExternals zdoomConsts (exEngine 0) exLiveHeap
            (exListener false) (some p) false exOrigin exOrigin).getLast?
            = some (.channel (exEngine 0 sys).handle (.set3DAttributes exOrigin exOrigin))) :=
  C17_update_params_calls exExternals zdoomConsts (exEngine 0) exLiveHeap (exListener false)
    false exOrigin exOrigin

/-- The case of C17 evaluated at the example input: a mode change from 0 to 8
is sent before the position; with the sound one unit away the computed mode is
`FMOD_3D = 16`; and a channel already in mode 8 gets the position alone. -/
theorem UpdateSoundParams3D_examples :
    UpdateSoundParams3D exExternals zdoomConsts (exEngine 0) exLiveHeap (exListener false)
        (some 0) false exOrigin exOrigin
      = [.channel 7 (.setMode 8), .channel 7 (.set3DAttributes exOrigin exOrigin)]
    ∧ UpdateSoundParams3D exExternals zdoomConsts
        (fun _ => { exChan 0 none true with getMode := some 8 }) exLiveHeap (exListener false)
        (some 0) false exOrigin exOrigin
      = [.channel 7 (.set3DAttributes exOrigin exOrigin)]
    ∧ UpdateSoundParams3D exExternals zdoomConsts (exEngine 0) (exHeap { Lo := 0, Hi := 0 })
        (exListener false) (some 0) false exOrigin exOrigin = [] := by
  refine ⟨by decide!, by decide!, by decide!⟩

/-- The two stores of `QWORD_UNION.ofHalves` lose nothing of a 64-bit value:
each half fits 32 bits and `Hi * 2^32 + Lo` is the value. -/
theorem QWORD_UNION.ofHalves_lossless (v : ℕ) (hv : v < 2 ^ 64) :
    (QWORD_UNION.ofHalves v).Lo < 2 ^ 32 ∧ (QWORD_UNION.ofHalves v).Hi < 2 ^ 32
    ∧ (QWORD_UNION.ofHalves v).Hi * 2 ^ 32 + (QWORD_UNION.ofHalves v).Lo = v := by
  have h1 : ∀ w : ℕ, w &&& 0xFFFFFFFF = w % 2 ^ 32 := fun w =>
    Nat.and_pow_two_sub_one_eq_mod w 32
  simp only [QWORD_UNION.ofHalves, h1, Nat.shiftRight_eq_div_pow]
  omega

/-- C18: with no reuse session, `CommonChannelSetup` stores in the start time
of the game channel it gets from `S_GetChannel` the 64-bit value read from the
engine channel, split without loss: each half fits 32 bits and
`Hi * 2^32 + Lo` is the value read; so does a `StartSound` that succeeds
without a reuse session. `MarkStartTime` stores the DSP clock of the engine
channel in the same way and sends nothing to the engine, so it neither plays
nor seeks. -/
theorem C18_start_time_lossless (X : Externals) (K : Consts) (C : CVars) (r : Renderer)
    (h : Heap) (sfx : SoundReplies) (chan : ChannelReplies) (vol : ℚ) (pitch : ℤ) (flags : ℕ)
    (engine : SysChan → ChannelReplies) (p : ChanPtr) (sys : SysChan)
    (hplay : sfx.playSound = some chan)
    (hmode : chan.getMode ≠ none ∨ K.NDEBUG = true)
    (hdelay : chan.getDelay < 2 ^ 64)
    (hsys : (h p).SysChannel = some sys)
    (hclock : (engine sys).getDSPClock < 2 ^ 64) :
    ((CommonChannelSetup X r h chan none).schan = X.S_GetChannel
      ∧ ((CommonChannelSetup X r h chan none).heap X.S_GetChannel).StartTime.Hi * 2 ^ 32
          + ((CommonChannelSetup X r h chan none).heap X.S_GetChannel).StartTime.Lo
          = chan.getDelay
      ∧ ((CommonChannelSetup X r h chan none).heap X.S_GetChannel).StartTime.Lo < 2 ^ 32
      ∧ ((CommonChannelSetup X r h chan none).heap X.S_GetChannel).StartTime.Hi < 2 ^ 32
      ∧ ((CommonChannelSetup X r h chan none).heap X.S_GetChannel).StartTime.AsOne
          = chan.getDelay)
    ∧ (∃ s, StartSound X K C r h sfx vol pitch flags none = .ok s
        ∧ s.ret = some X.S_GetChannel
        ∧ (s.heap X.S_GetChannel).StartTime.Hi * 2 ^ 32 + (s.heap X.S_GetChannel).StartTime.Lo
            = chan.getDelay
        ∧ (s.heap X.S_GetChannel).StartTime.AsOne = chan.getDelay)
    ∧ (∃ h1, MarkStartTime engine h p = .ok (h1, [])
        ∧ (h1 p).StartTime.Hi * 2 ^ 32 + (h1 p).StartTime.Lo = (engine sys).getDSPClock
        ∧ (h1 p).StartTime.Lo < 2 ^ 32 ∧ (h1 p).StartTime.Hi < 2 ^ 32
        ∧ (h1 p).StartTime.AsOne = (engine sys).getDSPClock
        ∧ (h1 p).SysChannel = (h p).SysChannel
        ∧ ∀ q, q ≠ p → h1 q = h q) := by
  obtain ⟨hl1, hl2, hl3⟩ := QWORD_UNION.ofHalves_lossless chan.getDelay hdelay
  have hA : (QWORD_UNION.ofHalves chan.getDelay).AsOne = chan.getDelay := by
    rw [QWORD_UNION.AsOne_ofHalves, Nat.mod_eq_of_lt hdelay]
  obtain ⟨hm1, hm2, hm3⟩ := QWORD_UNION.ofHalves_lossless (engine sys).getDSPClock hclock
  have hB : (QWORD_UNION.ofHalves (engine sys).getDSPClock).AsOne = (engine sys).getDSPClock := by
    rw [QWORD_UNION.AsOne_ofHalves, Nat.mod_eq_of_lt hclock]
  have hsetup : ∀ r1 : Renderer, ∀ h0 : Heap,
      (CommonChannelSetup X r1 h0 chan none).schan = X.S_GetChannel
      ∧ ((CommonChannelSetup X r1 h0 chan none).heap X.S_GetChannel).StartTime
          = QWORD_UNION.ofHalves chan.getDelay := by
    intro r1 h0
    exact ⟨rfl, by simp only [CommonChannelSetup, Function.update_same]⟩
  refine ⟨?_, ?_, ?_⟩
  · obtain ⟨e1, e2⟩ := hsetup r h
    rw [e2]
    exact ⟨e1, hl3, hl1, hl2, hA⟩
  · have hfin : ∀ (r1 : Renderer) (freq : ℚ) (pre : List EngineCall),
        ∃ s, finishStart X K r1 h chan none flags freq pre none = .ok s
          ∧ s.ret = some X.S_GetChannel
          ∧ (s.heap X.S_GetChannel).StartTime = QWORD_UNION.ofHalves chan.getDelay := by
      intro r1 freq pre
      refine ⟨_, rfl, ?_, ?_⟩
      · exact congrArg some (hsetup r1 h).1
      · exact (hsetup r1 h).2
    have hstart : ∃ s, StartSound X K C r h sfx vol pitch flags none = .ok s
        ∧ s.ret = some X.S_GetChannel
        ∧ (s.heap X.S_GetChannel).StartTime = QWORD_UNION.ofHalves chan.getDelay := by
      cases hg : chan.getMode with
      | some m =>
        simp only [StartSound, hplay, hg, bind, Except.bind, pure, Except.pure]
        exact hfin _ _ _
      | none =>
        have hnd : K.NDEBUG = true := by
          rcases hmode with hne | hnd
          · exact absurd hg hne
          · exact hnd
        simp only [StartSound, hplay, hg, hnd, if_true, bind, Except.bind, pure, Except.pure]
        exact hfin _ _ _
    obtain ⟨s, hs, hret, hst⟩ := hstart
    refine ⟨s, hs, hret, ?_, ?_⟩
    · rw [hst]; exact hl3
    · rw [hst]; exact hA
  · refine ⟨Function.update h p
        { h p with StartTime := QWORD_UNION.ofHalves (engine sys).getDSPClock },
      ?_, ?_, ?_, ?_, ?_, ?_, ?_⟩
    · simp only [MarkStartTime, hsys]
    · simp only [Function.update_same]; exact hm3
    · simp only [Function.update_same]; exact hm1
    · simp only [Function.update_same]; exact hm2
    · simp only [Function.update_same]; exact hB
    · simp only [Function.update_same]
    · intro q hq
      exact Function.update_noteq hq _ _

/-- C18 (witness): an engine clock of `5 * 2^32 + 9`, which needs both halves. -/
theorem C18_start_time_lossless_witness :
    ((CommonChannelSetup exExternals (exRenderer 48000) exLiveHeap
          (exChan 21474836489 none true) none).schan = exExternals.S_GetChannel
      ∧ ((CommonChannelSetup exExternals (exRenderer 48000) exLiveHeap
            (exChan 21474836489 none true) none).heap exExternals.S_GetChannel).StartTime.Hi
            * 2 ^ 32
          + ((CommonChannelSetup exExternals (exRenderer 48000) exLiveHeap
            (exChan 21474836489 none true) none).heap exExternals.S_GetChannel).StartTime.Lo
          = (exChan 21474836489 none true).getDelay
      ∧ ((CommonChannelSetup exExternals (exRenderer 48000) exLiveHeap
            (exChan 21474836489 none true) none).heap exExternals.S_GetChannel).StartTime.Lo
          < 2 ^ 32
      ∧ ((CommonChannelSetup exExternals (exRenderer 48000) exLiveHeap
            (exChan 21474836489 none true) none).heap exExternals.S_GetChannel).StartTime.Hi
          < 2 ^ 32
      ∧ ((CommonChannelSetup exExternals (exRenderer 48000) exLiveHeap
            (exChan 21474836489 none true) none).heap exExternals.S_GetChannel).StartTime.AsOne
          = (exChan 21474836489 none true).getDelay)
    ∧ (∃ s, StartSound exExternals zdoomConsts exCVars (exRenderer 48000) exLiveHeap
          (exSound (exChan 21474836489 none true)) 1 128 0 none = .ok s
        ∧ s.ret = some exExternals.S_GetChannel
        ∧ (s.heap exExternals.S_GetChannel).StartTime.Hi * 2 ^ 32
            + (s.heap exExternals.S_GetChannel).StartTime.Lo
            = (exChan 21474836489 none true).getDelay
        ∧ (s.heap exExternals.S_GetChannel).StartTime.AsOne
            = (exChan 21474836489 none true).getDelay)
    ∧ (∃ h1, MarkStartTime (exEngine 21474836489) exLiveHeap 0 = .ok (h1, [])
        ∧ (h1 0).StartTime.Hi * 2 ^ 32 + (h1 0).StartTime.Lo
            = (exEngine 21474836489 7).getDSPClock
        ∧ (h1 0).StartTime.Lo < 2 ^ 32 ∧ (h1 0).StartTime.Hi < 2 ^ 32
        ∧ (h1 0).StartTime.AsOne = (exEngine 21474836489 7).getDSPClock
        ∧ (h1 0).SysChannel = (exLiveHeap 0).SysChannel
        ∧ ∀ q, q ≠ 0 → h1 q = exLiveHeap q) :=
  C18_start_time_lossless exExternals zdoomConsts exCVars (exRenderer 48000) exLiveHeap
    (exSound (exChan 21474836489 none true)) (exChan 21474836489 none true) 1 128 0
    (exEngine 21474836489) 0 7 rfl (Or.inl (by decide)) (by decide) rfl (by decide)

/-- The stored halves of C18 at the example input are `Lo = 9` and `Hi = 5`. -/
theorem MarkStartTime_example :
    (MarkStartTime (exEngine 21474836489) exLiveHeap 0).toOption.map
      (fun x => ((x.1 0).StartTime, x.2)) = some ({ Lo := 9, Hi := 5 }, []) := by
  decide!


/-- The last block of `IsEnded`: for a capsule with a stream and a channel
that is playing, not ended, on an engine that reports an open state other than
the error state, and not stalled (a URL stream that is ready but was not just
started), `IsEnded` returns false, changes only the two flags `JustStarted`
and `Starved`, and sends a volume command exactly when the starving flag
differs from the recorded one: 0 when starving, the recorded volume when
not. -/
theorem IsEnded_playing (K : Consts) (S : StreamConsts) (e : StreamReplies)
    (s : FMODStreamCapsule) (ch : SysChan) (os : FMOD_OPENSTATE) (starving : Bool)
    (hstream : s.Stream ≠ none) (hchan : s.Channel = some ch) (hended : s.Ended = false)
    (hopen : e.getOpenState = some (os, starving)) (hos : os ≠ .ERROR)
    (hplaying : e.isPlaying = some true)
    (hstall : ¬ (s.URL ≠ "" ∧ s.JustStarted = false ∧ os = .READY)) :
    FMODStreamCapsule.IsEnded K S e s = .ok
      { ret := false
        s := { s with
          JustStarted := if s.JustStarted = true ∧ os = .PLAYING then false else s.JustStarted
          Starved := starving }
        calls := if starving ≠ s.Starved then
          [.channel ch (.setVolume (if starving then 0 else s.Volume))] else [] } := by
  obtain ⟨st, hst⟩ := Option.ne_none_iff_exists'.mp hstream
  rcases s with ⟨Stream, Channel, URL, Ended, JustStarted, Starved, Loop, Volume⟩
  simp only at hst hchan hended hstall
  subst hst hchan hended
  by_cases h1 : JustStarted = true ∧ os = .PLAYING <;> by_cases h2 : starving = Starved
  all_goals simp [FMODStreamCapsule.IsEnded, hopen, hos, hplaying, hstall, h1, h2]

/-- A call of `Play` that returns true leaves the channel `playSound` gave,
records the volume and clears the starved flag, and its third channel command
sets that volume. -/
theorem Play_records_volume (K : Consts) (e : StreamReplies) (s : FMODStreamCapsule)
    (looping : Bool) (volume : ℚ) (p : StreamResult)
    (h : FMODStreamCapsule.Play K e s looping volume = .ok p) (hret : p.ret = true) :
    p.s.Volume = volume ∧ p.s.Starved = false ∧ p.s.Ended = false ∧ p.s.Stream = s.Stream
      ∧ ∃ ch, p.s.Channel = some ch ∧ StreamCall.channel ch (.setVolume volume) ∈ p.calls := by
  unfold FMODStreamCapsule.Play at h
  cases hs : s.Stream with
  | none => simp [hs] at h
  | some st =>
    cases hok : e.playSoundOK with
    | false =>
      simp [hs, hok] at h
      subst h
      simp at hret
    | true =>
      cases hc : e.playSoundChannel with
      | none => simp [hs, hok, hc] at h
      | some ch =>
        simp [hs, hok, hc] at h
        subst h
        simp [hs]

/-- C13: for a stream that is playing on channel `ch` (stream and channel
present, not ended, the engine reporting it open and playing, not a stalled
URL stream), `IsEnded` returns false and keeps the stream, the channel and the
recorded volume; when the engine reports starving and the capsule was not
starved, the only command is `setVolume(0)` on the channel (no stop); when the
engine reports not starving and the capsule was starved, the only command is
`setVolume(Volume)` with the recorded volume (no `playSound`); when the flag is
as recorded, nothing is sent. The recorded volume is the last one requested:
`SetVolume` always records its argument, sending it to the channel only when
the capsule is not starved, and a `Play` that succeeds records its argument
and clears the starved flag. -/
theorem C13_starvation_mutes_and_restores (K : Consts) (S : StreamConsts)
    (e : StreamReplies) (s : FMODStreamCapsule) (ch : SysChan) (os : FMOD_OPENSTATE)
    (starving : Bool)
    (hstream : s.Stream ≠ none) (hchan : s.Channel = some ch) (hended : s.Ended = false)
    (hopen : e.getOpenState = some (os, starving)) (hos : os ≠ .ERROR)
    (hplaying : e.isPlaying = some true)
    (hstall : ¬ (s.URL ≠ "" ∧ s.JustStarted = false ∧ os = .READY)) :
    (∃ res, FMODStreamCapsule.IsEnded K S e s = .ok res ∧ res.ret = false
      ∧ res.s.Stream = s.Stream ∧ res.s.Channel = some ch ∧ res.s.Volume = s.Volume
      ∧ res.s.Starved = starving
      ∧ (s.Starved = false → starving = true → res.calls = [.channel ch (.setVolume 0)])
      ∧ (s.Starved = true → starving = false →
          res.calls = [.channel ch (.setVolume s.Volume)])
      ∧ (starving = s.Starved → res.calls = []))
    ∧ (∀ v : ℚ, (FMODStreamCapsule.SetVolume s v).1 = { s with Volume := v }
        ∧ (FMODStreamCapsule.SetVolume s v).2 =
            if s.Starved then [] else [.channel ch (.setVolume v)])
    ∧ (∀ (e2 : StreamReplies) (s2 : FMODStreamCapsule) (looping : Bool) (v : ℚ)
        (p : StreamResult), FMODStreamCapsule.Play K e2 s2 looping v = .ok p → p.ret = true →
        p.s.Volume = v ∧ p.s.Starved = false) := by
  refine ⟨⟨_, IsEnded_playing K S e s ch os starving hstream hchan hended hopen hos hplaying
    hstall, rfl, rfl, hchan, rfl, rfl, ?_, ?_, ?_⟩, ?_, ?_⟩
  · intro h1 h2
    simp [h1, h2]
  · intro h1 h2
    simp [h1, h2]
  · intro h1
    simp [h1]
  · intro v
    cases hst : s.Starved <;> simp [FMODStreamCapsule.SetVolume, hchan, hst]
  · intro e2 s2 looping v p h hret
    have := Play_records_volume K e2 s2 looping v p h hret
    exact ⟨this.1, this.2.1⟩

/-- C13 at the scenario of the specification: a stream playing on channel 7 at
volume 0.8 whose engine reports starving is muted with `setVolume(0)` and kept
on its channel. -/
theorem C13_starvation_mutes_and_restores_witness :
    (∃ res, FMODStreamCapsule.IsEnded zdoomConsts fmodStreamConsts
        (exStreamReplies .PLAYING true)
        { exFileCapsule with Channel := some 7, JustStarted := true, Volume := 4 / 5 } = .ok res
      ∧ res.ret = false ∧ res.s.Channel = some 7 ∧ res.s.Volume = 4 / 5
      ∧ res.s.Starved = true ∧ res.calls = [.channel 7 (.setVolume 0)]) := by
  obtain ⟨⟨res, h, hret, -, hc, hv, hs, hmute, -, -⟩, -, -⟩ :=
    C13_starvation_mutes_and_restores zdoomConsts fmodStreamConsts
      (exStreamReplies .PLAYING true)
      { exFileCapsule with Channel := some 7, JustStarted := true, Volume := 4 / 5 }
      7 .PLAYING true (by decide) rfl rfl rfl (by decide) rfl (by decide)
  exact ⟨res, h, hret, hc, hv, hs, hmute rfl rfl⟩

/-- The scenario of the specification from start to end: a file stream is
played at volume 0.8, the engine reports starving, the stream is asked for
volume 0.5 and then 0.8 while starved, and the engine reports well-fed again.
The commands are those of `Play`, then `setVolume(0)`, nothing for the two
requests, then `setVolume(0.8)`; there is one `playSound` and no stop. -/
theorem stream_starvation_scenario :
    (streamRun zdoomConsts fmodStreamConsts exFileCapsule
        [(.Play false (4 / 5), exStreamReplies .READY false),
         (.IsEnded, exStreamReplies .PLAYING false),
         (.IsEnded, exStreamReplies .PLAYING true),
         (.SetVolume (1 / 2), exStreamReplies .PLAYING true),
         (.SetVolume (4 / 5), exStreamReplies .PLAYING true),
         (.IsEnded, exStreamReplies .PLAYING true),
         (.IsEnded, exStreamReplies .PLAYING false)]).toOption.map (fun x => x.2)
      = some [.setMode (1 ||| 64 ||| 8), .playSound, .setChannelGroup 7,
          .channel 7 (.setMixLevelsOutput 1), .channel 7 (.setVolume (4 / 5)),
          .channel 7 (.setReverbProperties 0 0), .channel 7 (.setPaused false),
          .channel 7 (.setVolume 0), .channel 7 (.setVolume (4 / 5))] := by
  decide!

/-- A URL stream from start to reconnection: `Play(true, 0.8)`, the stream
reported playing, then reported ready again (stalled), then ready after the
reconnection. Every mode sent has `FMOD_LOOP_OFF`: 73 to `setMode` both times
and 73 | 128 | 65536 = 65737 to `createSound`; on a file capsule the same
`Play` sends `FMOD_LOOP_NORMAL | FMOD_SOFTWARE | FMOD_2D` = 74. -/
theorem url_stream_reconnect_scenario :
    ((streamRun zdoomConsts fmodStreamConsts exUrlCapsule
        [(.Play true (4 / 5), exStreamReplies .READY false),
         (.IsEnded, exStreamReplies .PLAYING false),
         (.IsEnded, exStreamReplies .READY false),
         (.IsEnded, exStreamReplies .READY false)]).toOption.map
        (fun x => (x.1.Loop, x.2.filterMap StreamCall.mode?))
      = some (false, [73, 65737, 73]))
    ∧ ((streamRun zdoomConsts fmodStreamConsts exFileCapsule
        [(.Play true (4 / 5), exStreamReplies .READY false)]).toOption.map
        (fun x => (x.1.Loop, x.2.filterMap StreamCall.mode?))
      = some (true, [74])) := by
  decide!

/-- The underwater block on a renderer with a low-pass unit and a dry
connection returns and keeps both units; whatever the values last sent before
it, after its commands they are: for the condition true, pitch 0.7937005f and
the low-pass active, with mix 0 and the reverb active and not bypassed when
the reverb unit exists and `snd_waterreverb` is on, else mix 0.1f and the
reverb, if it exists, active and bypassed; for the condition false, pitch 1,
mix 1, the low-pass inactive and the reverb, if it exists, inactive. -/
theorem updateWater_chain (C : CVars) (r : Renderer) (water : Bool) (c : WaterChain)
    (hlp : r.WaterLP = true) (hconn : r.SfxConnection = true) :
    ∃ w, updateWater C r water = .ok w
      ∧ w.r.WaterLP = true ∧ w.r.WaterReverb = r.WaterReverb ∧ w.r.SfxConnection = true
      ∧ (water = true →
          (WaterChain.run c w.calls).pitch = f32 (7937005 / 10000000)
          ∧ (WaterChain.run c w.calls).lowpassActive = true
          ∧ (r.WaterReverb = true ∧ C.snd_waterreverb = true →
              (WaterChain.run c w.calls).dryMix = 0
              ∧ (WaterChain.run c w.calls).reverbActive = true
              ∧ (WaterChain.run c w.calls).reverbBypass = false)
          ∧ (¬ (r.WaterReverb = true ∧ C.snd_waterreverb = true) →
              (WaterChain.run c w.calls).dryMix = f32 (1 / 10)
              ∧ (r.WaterReverb = true →
                  (WaterChain.run c w.calls).reverbActive = true
                  ∧ (WaterChain.run c w.calls).reverbBypass = true)
              ∧ (r.WaterReverb = false →
                  (WaterChain.run c w.calls).reverbActive = c.reverbActive
                  ∧ (WaterChain.run c w.calls).reverbBypass = c.reverbBypass)))
      ∧ (water = false →
          (WaterChain.run c w.calls).pitch = 1
          ∧ (WaterChain.run c w.calls).dryMix = 1
          ∧ (WaterChain.run c w.calls).lowpassActive = false
          ∧ (r.WaterReverb = true → (WaterChain.run c w.calls).reverbActive = false)
          ∧ (WaterChain.run c w.calls).reverbBypass = c.reverbBypass
          ∧ (WaterChain.run c w.calls).lowpassCutoff = c.lowpassCutoff) := by
  rcases r with ⟨rate, clk, locked, hooked, last, lp, wr, conn, tu, ph, prev, gr, gd⟩
  simp only at hlp hconn
  subst hlp hconn
  cases water <;> cases wr <;> cases hcv : C.snd_waterreverb <;>
    by_cases hcut : last = C.snd_waterlp <;>
    simp [updateWater, hcv, hcut, WaterChain.run, WaterChain.apply]

/-- C20: with a valid listener, a low-pass unit and its dry connection,
`UpdateListener` returns and keeps the low-pass and water reverb units as they
were (present stays present); whatever values were last sent to the underwater
chain before the call, after the commands of the call they depend on the
condition alone. Engaged (listener underwater with `snd_waterlp` non-zero, or
`SoftwareWater` of the environment in effect): pitch 0.7937005f, low-pass
active, and either dry mix 0 with the water reverb active and not bypassed
(reverb unit present and `snd_waterreverb` on) or dry mix 0.1f with the water
reverb, if present, active and bypassed. Disengaged: pitch 1, dry mix 1,
low-pass inactive and the water reverb, if present, inactive. -/
theorem C20_underwater_chain_state (X : Externals) (C : CVars) (r : Renderer) (envs : Envs)
    (g : GraphReplies) (listener : SoundListener) (c0 : WaterChain)
    (hvalid : listener.valid = true) (hlp : r.WaterLP = true)
    (hconn : r.SfxConnection = true) :
    ∃ res, UpdateListener X C r envs g listener = .ok res
      ∧ res.r.WaterLP = true ∧ res.r.WaterReverb = r.WaterReverb
      ∧ (((listener.underwater = true ∧ C.snd_waterlp ≠ 0)
            ∨ (envs (effectiveEnv C listener)).SoftwareWater = true) →
          (WaterChain.run c0 res.calls).pitch = f32 (7937005 / 10000000)
          ∧ (WaterChain.run c0 res.calls).lowpassActive = true
          ∧ (r.WaterReverb = true ∧ C.snd_waterreverb = true →
              (WaterChain.run c0 res.calls).dryMix = 0
              ∧ (WaterChain.run c0 res.calls).reverbActive = true
              ∧ (WaterChain.run c0 res.calls).reverbBypass = false)
          ∧ (¬ (r.WaterReverb = true ∧ C.snd_waterreverb = true) →
              (WaterChain.run c0 res.calls).dryMix = f32 (1 / 10)
              ∧ (r.WaterReverb = true →
                  (WaterChain.run c0 res.calls).reverbActive = true
                  ∧ (WaterChain.run c0 res.calls).reverbBypass = true)))
      ∧ (¬ ((listener.underwater = true ∧ C.snd_waterlp ≠ 0)
            ∨ (envs (effectiveEnv C listener)).SoftwareWater = true) →
          (WaterChain.run c0 res.calls).pitch = 1
          ∧ (WaterChain.run c0 res.calls).dryMix = 1
          ∧ (WaterChain.run c0 res.calls).lowpassActive = false
          ∧ (r.WaterReverb = true → (WaterChain.run c0 res.calls).reverbActive = false)) := by
  obtain ⟨-, -, -, -, hsw, hwlp, hwr, hwc, -⟩ :=
    updateEnvironment_spec r envs g (effectiveEnv C listener)
  generalize hedef : updateEnvironment r envs g (effectiveEnv C listener) = e at *
  set water : Bool := (listener.underwater && decide (C.snd_waterlp ≠ 0))
    || (e.envs (effectiveEnv C listener)).SoftwareWater with hwater
  set c1 : WaterChain := WaterChain.run c0
    ([.set3DListenerAttributes listener.position listener.velocity
        { X := X.cosf listener.angle, Y := 0, Z := X.sinf listener.angle }
        { X := 0, Y := 1, Z := 0 }] ++ e.calls) with hc1
  obtain ⟨w, hw, hw1, hw2, -, hon, hoff⟩ :=
    updateWater_chain C e.r water c1 (hwlp.trans hlp) (hwc.trans hconn)
  have heval : UpdateListener X C r envs g listener
      = .ok { r := w.r, envs := e.envs
              calls := [.set3DListenerAttributes listener.position listener.velocity
                { X := X.cosf listener.angle, Y := 0, Z := X.sinf listener.angle }
                { X := 0, Y := 1, Z := 0 }] ++ e.calls ++ w.calls } := by
    simp only [UpdateListener, hvalid, hedef, ← hwater, hw, Bool.not_true, Bool.false_eq_true,
      if_false, bind, Except.bind, pure, Except.pure]
  have hrun : WaterChain.run c0
      ([.set3DListenerAttributes listener.position listener.velocity
        { X := X.cosf listener.angle, Y := 0, Z := X.sinf listener.angle }
        { X := 0, Y := 1, Z := 0 }] ++ e.calls ++ w.calls) = WaterChain.run c1 w.calls := by
    simp only [hc1, WaterChain.run, List.foldl_append]
  have hcond : water = true ↔ ((listener.underwater = true ∧ C.snd_waterlp ≠ 0)
      ∨ (envs (effectiveEnv C listener)).SoftwareWater = true) := by
    simp [hwater, hsw]
  refine ⟨_, heval, hw1, hw2.trans hwr, ?_, ?_⟩
  · intro h
    obtain ⟨h1, h2, h3, h4⟩ := hon (hcond.mpr h)
    simp only [hrun]
    rw [hwr] at h3 h4
    exact ⟨h1, h2, h3, fun hn => ⟨(h4 hn).1, (h4 hn).2.1⟩⟩
  · intro h
    have hwf : water = false := by
      cases hwt : water
      · rfl
      · exact absurd (hcond.mp hwt) h
    obtain ⟨h1, h2, h3, h4, -, -⟩ := hoff hwf
    simp only [hrun]
    rw [hwr] at h4
    exact ⟨h1, h2, h3, h4⟩

/-- C20 at a concrete input: an underwater listener, cutoff 250, water reverb
present and enabled, starting from a neutral chain: pitch 0.7937005f, low-pass
active, dry mix 0, reverb active and not bypassed. -/
theorem C20_underwater_chain_state_witness :
    ∃ res, UpdateListener exExternals exCVars (exRenderer 48000) (exEnvs false) exGraph
          (exListener true) = .ok res
      ∧ res.r.WaterLP = true ∧ res.r.WaterReverb = true
      ∧ (WaterChain.run exChain res.calls).pitch = f32 (7937005 / 10000000)
      ∧ (WaterChain.run exChain res.calls).lowpassActive = true
      ∧ (WaterChain.run exChain res.calls).dryMix = 0
      ∧ (WaterChain.run exChain res.calls).reverbActive = true
      ∧ (WaterChain.run exChain res.calls).reverbBypass = false := by
  obtain ⟨res, h, h1, h2, hon, -⟩ :=
    C20_underwater_chain_state exExternals exCVars (exRenderer 48000) (exEnvs false) exGraph
      (exListener true) exChain rfl rfl rfl
  obtain ⟨hp, hl, hr, -⟩ := hon (Or.inl ⟨rfl, by decide!⟩)
  obtain ⟨hd, ha, hb⟩ := hr ⟨rfl, rfl⟩
  exact ⟨res, h, h1, h2, hp, hl, hd, ha, hb⟩

/-- The underwater chain after `UpdateListener` in four situations (cutoff
250, all units present). Under water with `snd_waterreverb` on: mix 0, reverb
active. Under water with `snd_waterreverb` off: mix 0.1f, reverb active but
bypassed. Above water after having been under water with the reverb bypassed:
pitch 1, mix 1, both units inactive (the bypass flag is not touched). Above
water in an environment with `SoftwareWater`: engaged as under water. -/
theorem UpdateListener_chain_examples :
    ((UpdateListener exExternals exCVars (exRenderer 48000) (exEnvs false) exGraph
        (exListener true)).toOption.map (fun res => WaterChain.run exChain res.calls)
      = some { pitch := f32 (7937005 / 10000000), lowpassActive := true, lowpassCutoff := 250,
               reverbActive := true, reverbBypass := false, dryMix := 0 })
    ∧ ((UpdateListener exExternals { exCVars with snd_waterreverb := false } (exRenderer 48000)
        (exEnvs false) exGraph (exListener true)).toOption.map
          (fun res => WaterChain.run exChain res.calls)
      = some { pitch := f32 (7937005 / 10000000), lowpassActive := true, lowpassCutoff := 250,
               reverbActive := true, reverbBypass := true, dryMix := f32 (1 / 10) })
    ∧ ((UpdateListener exExternals exCVars (exRenderer 48000) (exEnvs false) exGraph
        (exListener false)).toOption.map
          (fun res => WaterChain.run
            { pitch := f32 (7937005 / 10000000), lowpassActive := true, lowpassCutoff := 250,
              reverbActive := true, reverbBypass := true, dryMix := f32 (1 / 10) } res.calls)
      = some { pitch := 1, lowpassActive := false, lowpassCutoff := 250,
               reverbActive := false, reverbBypass := true, dryMix := 1 })
    ∧ ((UpdateListener exExternals exCVars (exRenderer 48000)
        (fun _ => { Properties := exProps, Modified := false, SoftwareWater := true }) exGraph
        (exListener false)).toOption.map (fun res => WaterChain.run exChain res.calls)
      = some { pitch := f32 (7937005 / 10000000), lowpassActive := true, lowpassCutoff := 250,
               reverbActive := true, reverbBypass := false, dryMix := 0 })
    ∧ f32 (7937005 / 10000000) = 13316085 / 16777216
    ∧ f32 (1 / 10) = 13421773 / 134217728 := by
  decide!


/-- The setter of `snd_waterlp` on every value that is not NaN, the infinities
included: it leaves either exactly 0 or a value in `[10, 22000]`; a value that
is 0 or in `[10, 22000]` is left as it is (so an assignment of 10 or 22000 made
by the setter itself changes nothing more); running the setter on its own result
changes nothing; and the result is 0 only for the value 0. -/
theorem snd_waterlp_setter_spec (v : XFloat) (hv : v ≠ .nan) :
    (snd_waterlp_setter v = .fin 0
      ∨ ∃ q, snd_waterlp_setter v = .fin q ∧ 10 ≤ q ∧ q ≤ 22000)
    ∧ ((v = .fin 0 ∨ ∃ q, v = .fin q ∧ 10 ≤ q ∧ q ≤ 22000) → snd_waterlp_setter v = v)
    ∧ snd_waterlp_setter (snd_waterlp_setter v) = snd_waterlp_setter v
    ∧ (snd_waterlp_setter v = .fin 0 ↔ v = .fin 0) := by
  have hfix : ∀ w : XFloat, (w = .fin 0 ∨ ∃ q, w = .fin q ∧ 10 ≤ q ∧ q ≤ 22000) →
      snd_waterlp_setter w = w := by
    intro w hw
    rcases hw with rfl | ⟨q, rfl, h1, h2⟩
    · simp [snd_waterlp_setter, XFloat.lt]
    · have h3 : ¬ q < 10 := not_lt.mpr h1
      have h4 : ¬ 22000 < q := not_lt.mpr h2
      simp [snd_waterlp_setter, XFloat.lt, h3, h4]
  have hrange : snd_waterlp_setter v = .fin 0
      ∨ ∃ q, snd_waterlp_setter v = .fin q ∧ 10 ≤ q ∧ q ≤ 22000 := by
    cases v with
    | nan => exact absurd rfl hv
    | inf s =>
      right
      cases s
      · exact ⟨22000, by simp [snd_waterlp_setter, XFloat.lt], by norm_num, le_refl _⟩
      · exact ⟨10, by simp [snd_waterlp_setter, XFloat.lt], le_refl _, by norm_num⟩
    | fin q =>
      by_cases h0 : q = 0
      · left
        subst h0
        simp [snd_waterlp_setter, XFloat.lt]
      · right
        by_cases h1 : q < 10
        · exact ⟨10, by simp [snd_waterlp_setter, XFloat.lt, h1, h0], le_refl _, by norm_num⟩
        · by_cases h2 : 22000 < q
          · exact ⟨22000, by simp [snd_waterlp_setter, XFloat.lt, h1, h2], by norm_num,
              le_refl _⟩
          · exact ⟨q, by simp [snd_waterlp_setter, XFloat.lt, h1, h2], not_lt.mp h1,
              not_lt.mp h2⟩
  refine ⟨hrange, hfix v, hfix _ hrange, ?_⟩
  constructor
  · intro h
    cases v with
    | nan => exact absurd rfl hv
    | inf s => cases s <;> simp [snd_waterlp_setter, XFloat.lt] at h
    | fin q =>
      by_cases h0 : q = 0
      · rw [h0]
      · exfalso
        by_cases h1 : q < 10
        · simp [snd_waterlp_setter, XFloat.lt, h1, h0] at h
        · by_cases h2 : 22000 < q
          · simp [snd_waterlp_setter, XFloat.lt, h1, h2] at h
          · simp [snd_waterlp_setter, XFloat.lt, h1, h2] at h
            exact h0 h
  · intro h
    exact (hfix v (Or.inl h)).trans h

/-- C21 (the code at the failing input): when the value assigned to
`snd_waterlp` is NaN, both comparisons of the setter are false and the variable
keeps the NaN, which is neither 0 nor a value in `[10, 22000]`. -/
theorem C21_waterlp_setter_keeps_nan :
    snd_waterlp_setter .nan = .nan
    ∧ ¬ (snd_waterlp_setter .nan = .fin 0
          ∨ ∃ q, snd_waterlp_setter .nan = .fin q ∧ 10 ≤ q ∧ q ≤ 22000) := by
  have h : snd_waterlp_setter .nan = .nan := by
    simp [snd_waterlp_setter, XFloat.lt]
  refine ⟨h, ?_⟩
  rw [h]
  rintro (h1 | ⟨q, h1, -, -⟩) <;> cases h1

/-- The setter of `snd_waterlp` at some values: below the range, at zero,
inside, above, negative, at the ends of the range and at the infinities. -/
theorem snd_waterlp_setter_examples :
    snd_waterlp_setter (.fin 5) = .fin 10 ∧ snd_waterlp_setter (.fin 0) = .fin 0
    ∧ snd_waterlp_setter (.fin 250) = .fin 250
    ∧ snd_waterlp_setter (.fin 30000) = .fin 22000 ∧ snd_waterlp_setter (.fin (-1)) = .fin 10
    ∧ snd_waterlp_setter (.fin 10) = .fin 10 ∧ snd_waterlp_setter (.fin 22000) = .fin 22000
    ∧ snd_waterlp_setter (.inf false) = .fin 22000
    ∧ snd_waterlp_setter (.inf true) = .fin 10 := by
  decide!

/-- A word has a bit of `a ||| b` exactly when it has a bit of `a` or a bit
of `b`. -/
theorem and_or_ne_zero (f a b : ℕ) :
    f &&& (a ||| b) ≠ 0 ↔ (f &&& a ≠ 0 ∨ f &&& b ≠ 0) := by
  rw [Nat.and_or_distrib_left]
  constructor
  · intro h
    by_contra hn
    rw [not_or, not_not, not_not] at hn
    rw [hn.1, hn.2] at h
    exact h rfl
  · intro h hz
    have h1 : f &&& a = 0 := by
      apply Nat.eq_of_testBit_eq
      intro i
      have := congrArg (fun n => n.testBit i) hz
      simp only [Nat.testBit_or, Nat.zero_testBit, Bool.or_eq_false_iff] at this
      simpa using this.1
    have h2 : f &&& b = 0 := by
      apply Nat.eq_of_testBit_eq
      intro i
      have := congrArg (fun n => n.testBit i) hz
      simp only [Nat.testBit_or, Nat.zero_testBit, Bool.or_eq_false_iff] at this
      simpa using this.2
    rcases h with h | h
    · exact h h1
    · exact h h2

/-- C30: for every flags value and every `buffbytes` from 0 to `INT_MAX`, the
structure `CreateStream` hands to `createSound` has the format `PCMFLOAT` if
the `Float` flag is set, else `PCM32` if `Bits32` is, else `PCM8` if `Bits8`
is, else `PCM16`; it has one channel if `Mono` is set and two otherwise; and
its `decodebuffersize` is `buffbytes` divided by the bytes of one sample of
that format times the number of channels, rounded down. -/
theorem C30_decode_buffer_size (F : StreamFlags) (buffbytes : ℤ) (flags : ℕ)
    (samplerate : ℤ) (h0 : 0 ≤ buffbytes) (h1 : buffbytes < 2 ^ 31) :
    (CreateStream_exinfo F buffbytes flags samplerate).format
        = (if flags &&& F.Float ≠ 0 then .PCMFLOAT
            else if flags &&& F.Bits32 ≠ 0 then .PCM32
            else if flags &&& F.Bits8 ≠ 0 then .PCM8
            else .PCM16)
    ∧ (CreateStream_exinfo F buffbytes flags samplerate).numchannels
        = (if flags &&& F.Mono ≠ 0 then 1 else 2)
    ∧ ((CreateStream_exinfo F buffbytes flags samplerate).decodebuffersize : ℤ)
        = buffbytes /
            (((CreateStream_exinfo F buffbytes flags samplerate).format.bytesPerSample : ℤ)
              * (CreateStream_exinfo F buffbytes flags samplerate).numchannels) := by
  have hu : ∀ k : ℕ, ((toU32 (buffbytes / 2 ^ k) : ℕ) : ℤ) = buffbytes / 2 ^ k := by
    intro k
    have hk : (0 : ℤ) < 2 ^ k := by positivity
    have hq0 : 0 ≤ buffbytes / 2 ^ k := Int.ediv_nonneg h0 hk.le
    have hq1 : buffbytes / 2 ^ k < 2 ^ 32 := by
      have : buffbytes / 2 ^ k ≤ buffbytes := Int.ediv_le_self _ h0
      omega
    unfold toU32
    rw [Int.emod_eq_of_lt hq0 hq1, Int.toNat_of_nonneg hq0]
  refine ⟨rfl, ?_, ?_⟩
  · have hsh : ((1 : ℕ) <<< (1 : ℕ)) = 2 := by decide
    have hsh0 : ((1 : ℕ) <<< (0 : ℕ)) = 1 := by decide
    simp only [CreateStream_exinfo]
    split_ifs <;> simp [hsh, hsh0]
  · simp only [CreateStream_exinfo, hu, and_or_ne_zero]
    have hsh : ((1 : ℕ) <<< (1 : ℕ)) = 2 := by decide
    have hsh0 : ((1 : ℕ) <<< (0 : ℕ)) = 1 := by decide
    by_cases hf : flags &&& F.Float = 0 <;> by_cases h32 : flags &&& F.Bits32 = 0 <;>
      by_cases h8 : flags &&& F.Bits8 = 0 <;> by_cases hm : flags &&& F.Mono = 0 <;>
      simp [hf, h32, h8, hm, FMOD_SOUND_FORMAT.bytesPerSample, hsh, hsh0]

/-- C30 at a concrete input: 16-bit stereo (no flag set) with a buffer of 4097
bytes gives `PCM16`, two channels and 1024 samples. -/
theorem C30_decode_buffer_size_witness :
    (CreateStream_exinfo zdoomStreamFlags 4097 0 44100).format = .PCM16
    ∧ (CreateStream_exinfo zdoomStreamFlags 4097 0 44100).numchannels = 2
    ∧ ((CreateStream_exinfo zdoomStreamFlags 4097 0 44100).decodebuffersize : ℤ) = 1024 := by
  obtain ⟨h1, h2, h3⟩ := C30_decode_buffer_size zdoomStreamFlags 4097 0 44100 (by norm_num)
    (by norm_num)
  refine ⟨h1, h2, ?_⟩
  rw [h3, h1, h2]
  decide

/-- The structure of `CreateStream` for each format: float mono, 32-bit stereo,
8-bit mono, 16-bit mono, and both `Float` and `Bits8` set, with a buffer of
4097 bytes. -/
theorem CreateStream_exinfo_examples :
    CreateStream_exinfo zdoomStreamFlags 4097 (8 ||| 1) 44100
      = { decodebuffersize := 1024, numchannels := 1, length := 4294967295,
          defaultfrequency := 44100, format := .PCMFLOAT }
    ∧ CreateStream_exinfo zdoomStreamFlags 4097 4 44100
      = { decodebuffersize := 512, numchannels := 2, length := 4294967295,
          defaultfrequency := 44100, format := .PCM32 }
    ∧ CreateStream_exinfo zdoomStreamFlags 4097 (2 ||| 1) 44100
      = { decodebuffersize := 4097, numchannels := 1, length := 4294967295,
          defaultfrequency := 44100, format := .PCM8 }
    ∧ CreateStream_exinfo zdoomStreamFlags 4097 1 44100
      = { decodebuffersize := 2048, numchannels := 1, length := 4294967295,
          defaultfrequency := 44100, format := .PCM16 }
    ∧ CreateStream_exinfo zdoomStreamFlags 4097 (8 ||| 2) 44100
      = { decodebuffersize := 512, numchannels := 2, length := 4294967295,
          defaultfrequency := 44100, format := .PCMFLOAT } := by
  decide

/-- One call of `SetSfxPaused` with a slot from 0 to 30 on slots that fit in
31 bits: it returns; the new slots fit in 31 bits; the bit of the slot is set
or cleared as asked and no other bit changes; and `setPaused` is sent exactly
when the slots go from zero to non-zero (with `true`) or from non-zero to zero
(with `false`). -/
theorem SetSfxPaused_spec (v : ℕ) (paused : Bool) (slot : ℤ) (hv : v < 2 ^ 31)
    (h0 : 0 ≤ slot) (h1 : slot < 31) :
    ∃ w c, SetSfxPaused v paused slot = .ok (w, c)
      ∧ w < 2 ^ 31
      ∧ w.testBit slot.toNat = paused
      ∧ (∀ j, j ≠ slot.toNat → w.testBit j = v.testBit j)
      ∧ c = (if v ≠ 0 ∧ w = 0 then [.PausableSfx_setPaused false]
              else if v = 0 ∧ w ≠ 0 then [.PausableSfx_setPaused true] else []) := by
  have hn : slot.toNat < 31 := by omega
  have hbit : (1 : ℕ) <<< slot.toNat = 2 ^ slot.toNat := by
    rw [Nat.shiftLeft_eq, one_mul]
  have hpow : 2 ^ slot.toNat < 2 ^ 31 := Nat.pow_lt_pow_right (by norm_num) hn
  have hrange : ¬ (slot < 0 ∨ 31 ≤ slot) := by omega
  have hv32 : v < 2 ^ 32 := by omega
  cases paused with
  | true =>
    refine ⟨v ||| 2 ^ slot.toNat, _, ?_, Nat.or_lt_two_pow hv hpow, ?_, ?_, rfl⟩
    · simp only [SetSfxPaused, hrange, hbit, if_false, if_true]
      split_ifs <;> rfl
    · simp [Nat.testBit_or, Nat.testBit_two_pow]
    · intro j hj
      have : slot.toNat ≠ j := fun h => hj h.symm
      simp [Nat.testBit_or, Nat.testBit_two_pow, this]
  | false =>
    refine ⟨clearBits v (2 ^ slot.toNat), _, ?_, ?_, ?_, ?_, rfl⟩
    · simp only [SetSfxPaused, hrange, hbit, if_false, Bool.false_eq_true]
      split_ifs <;> rfl
    · exact lt_of_le_of_lt Nat.and_le_left hv
    · rw [clearBits_testBit v _ _ hv32]
      simp
    · intro j hj
      rw [clearBits_testBit v _ _ hv32]
      simp [hj]

/-- The invariant of the pause state is kept by every sequence of
`SetSfxPaused` calls with slots from 0 to 30, and every such sequence
returns. -/
theorem pauseRun_invariant (ops : List (Bool × ℤ)) :
    ∀ s : PauseState, s.SFXPaused < 2 ^ 31 → (s.groupPaused = true ↔ s.SFXPaused ≠ 0) →
      (∀ op ∈ ops, 0 ≤ op.2 ∧ op.2 < 31) →
      ∃ t calls, pauseRun s ops = .ok (t, calls)
        ∧ t.SFXPaused < 2 ^ 31 ∧ (t.groupPaused = true ↔ t.SFXPaused ≠ 0) := by
  induction ops with
  | nil =>
    intro s hs hinv _
    exact ⟨s, [], rfl, hs, hinv⟩
  | cons op rest ih =>
    intro s hs hinv hslots
    obtain ⟨paused, slot⟩ := op
    have hslot := hslots (paused, slot) (List.mem_cons_self _ _)
    obtain ⟨w, c, hcall, hw, -, -, hc⟩ :=
      SetSfxPaused_spec s.SFXPaused paused slot hs hslot.1 hslot.2
    have hstep : pauseStep s paused slot
        = .ok ({ SFXPaused := w, groupPaused := PauseState.apply s.groupPaused c }, c) := by
      simp only [pauseStep, hcall]
    have hinv1 : PauseState.apply s.groupPaused c = true ↔ w ≠ 0 := by
      rw [hc]
      by_cases hv0 : s.SFXPaused = 0 <;> by_cases hw0 : w = 0
      · simp [hv0, hw0, PauseState.apply]
        cases hg : s.groupPaused
        · rfl
        · exact absurd hv0 (hinv.mp hg)
      · simp [hv0, hw0, PauseState.apply]
      · simp [hv0, hw0, PauseState.apply]
      · simp [hv0, hw0, PauseState.apply]
        exact hinv.mpr hv0
    obtain ⟨t, calls, hrun, ht, htinv⟩ :=
      ih { SFXPaused := w, groupPaused := PauseState.apply s.groupPaused c } hw hinv1
        (fun o ho => hslots o (List.mem_cons_of_mem _ ho))
    exact ⟨t, c ++ calls, by simp only [pauseRun, hstep, hrun], ht, htinv⟩

/-- C29: starting from the state `Init` establishes, every sequence of
`SetSfxPaused` calls with slots from 0 to 30 returns and leaves the pausable SFX
group paused exactly when `SFXPaused` is non-zero. From the state reached, one
more call with such a slot sets or clears the bit of its slot as asked, changes
no other bit, and sends `setPaused` exactly when `SFXPaused` goes from zero to
non-zero (then with `true`) or from non-zero to zero (then with `false`). -/
theorem C29_pause_slots (ops : List (Bool × ℤ))
    (hslots : ∀ op ∈ ops, 0 ≤ op.2 ∧ op.2 < 31) :
    ∃ s calls, pauseRun PauseState.init ops = .ok (s, calls)
      ∧ (s.groupPaused = true ↔ s.SFXPaused ≠ 0)
      ∧ ∀ (paused : Bool) (slot : ℤ), 0 ≤ slot → slot < 31 →
          ∃ w c, SetSfxPaused s.SFXPaused paused slot = .ok (w, c)
            ∧ w.testBit slot.toNat = paused
            ∧ (∀ j, j ≠ slot.toNat → w.testBit j = s.SFXPaused.testBit j)
            ∧ (s.SFXPaused = 0 ∧ w ≠ 0 → c = [.PausableSfx_setPaused true])
            ∧ (s.SFXPaused ≠ 0 ∧ w = 0 → c = [.PausableSfx_setPaused false])
            ∧ ((s.SFXPaused = 0 ↔ w = 0) → c = []) := by
  obtain ⟨s, calls, hrun, hs, hinv⟩ :=
    pauseRun_invariant ops PauseState.init (by decide) (by decide) hslots
  refine ⟨s, calls, hrun, hinv, ?_⟩
  intro paused slot h0 h1
  obtain ⟨w, c, hcall, -, hbit, hother, hc⟩ := SetSfxPaused_spec s.SFXPaused paused slot hs h0 h1
  refine ⟨w, c, hcall, hbit, hother, ?_, ?_, ?_⟩
  · rintro ⟨hv0, hw0⟩
    rw [hc]
    simp [hv0, hw0]
  · rintro ⟨hv0, hw0⟩
    rw [hc]
    simp [hv0, hw0]
  · intro hiff
    rw [hc]
    by_cases hv0 : s.SFXPaused = 0
    · simp [hv0, hiff.mp hv0]
    · have hw0 : w ≠ 0 := fun h => hv0 (hiff.mpr h)
      simp [hv0, hw0]

/-- C29 at a concrete sequence: slot 0 paused, slot 3 paused, slot 0 released,
slot 3 released, slot 5 released. -/
theorem C29_pause_slots_witness :
    ∃ s calls, pauseRun PauseState.init
          [(true, 0), (true, 3), (false, 0), (false, 3), (false, 5)] = .ok (s, calls)
      ∧ (s.groupPaused = true ↔ s.SFXPaused ≠ 0) := by
  obtain ⟨s, calls, h, hinv, -⟩ :=
    C29_pause_slots [(true, 0), (true, 3), (false, 0), (false, 3), (false, 5)] (by decide)
  exact ⟨s, calls, h, hinv⟩

/-- The sequence of the witness, evaluated: the slots go 1, 9, 8, 0, 0; the
group is paused at the first call and released at the fourth, and nothing is
sent by the other calls. A slot of 31 has no meaning. -/
theorem pauseRun_examples :
    pauseRun PauseState.init [(true, 0), (true, 3), (false, 0)]
      = .ok ({ SFXPaused := 8, groupPaused := true }, [.PausableSfx_setPaused true])
    ∧ pauseRun PauseState.init [(true, 0), (true, 3), (false, 0), (false, 3), (false, 5)]
      = .ok ({ SFXPaused := 0, groupPaused := false },
          [.PausableSfx_setPaused true, .PausableSfx_setPaused false])
    ∧ SetSfxPaused 0 true 31 = .error .undefinedBehaviour := by
  refine ⟨rfl, rfl, rfl⟩


/-- The relative-time branch of `HandleChannelDelay` with a reuse session, a
non-zero output rate and an engine that accepts seeks: the function returns
true, leaves the memory of game channels as it was, and sends at most one
millisecond seek. -/
theorem HandleChannelDelay_relative_accepted (K : Consts) (r : Renderer) (h : Heap)
    (chan : ChannelReplies) (p : ChanPtr) (flags : ℕ) (freq : ℚ)
    (habs : flags &&& K.SNDF_ABSTIME = 0)
    (hrate : toU64 r.OutputRate ≠ 0)
    (hseek : chan.setPositionOK = true) :
    ∃ cs, HandleChannelDelay K r h chan (some p) flags freq
        = .ok { ret := true, heap := h, calls := cs }
      ∧ (cs = [] ∨ ∃ pos, cs = [.channel chan.handle (.setPositionMS pos)]) := by
  by_cases hstart : (h p).StartTime.AsOne ≠ 0
  · by_cases hdiff : ((QWORD_UNION.ofHalves chan.getDelay).AsOne + 2 ^ 64
        - (h p).StartTime.AsOne) % 2 ^ 64 ≠ 0
    · obtain ⟨w, -, heq⟩ := HandleChannelDelay_relative K r h chan p flags freq habs hstart
        hdiff hrate
      rw [hseek] at heq
      exact ⟨_, heq, Or.inr ⟨_, rfl⟩⟩
    · refine ⟨[], ?_, Or.inl rfl⟩
      rw [not_not] at hdiff
      simp only [HandleChannelDelay, habs, ne_eq, not_true_eq_false, if_false, hstart,
        not_false_eq_true, if_true, hdiff, gt_iff_lt, lt_self_iff_false]
  · refine ⟨[], ?_, Or.inl rfl⟩
    rw [not_not] at hstart
    simp only [HandleChannelDelay, habs, ne_eq, not_true_eq_false, if_false, hstart]

/-- The tail shared by `StartSound` and `StartSound3D` on a relative-time
restart that succeeds: the reuse session is returned; in the memory of game
channels only that session changes, and in it only the engine channel, which
becomes the one `playSound` created, and, when a rolloff is passed
(`StartSound3D`), the rolloff, which becomes the one passed. -/
theorem finishStart_relative_accepted (X : Externals) (K : Consts) (r : Renderer) (h : Heap)
    (chan : ChannelReplies) (p : ChanPtr) (flags : ℕ) (freq : ℚ) (pre : List EngineCall)
    (rolloff : Option FRolloffInfo)
    (habs : flags &&& K.SNDF_ABSTIME = 0)
    (hrate : toU64 r.OutputRate ≠ 0)
    (hseek : chan.setPositionOK = true) :
    ∃ s, finishStart X K r h chan (some p) flags freq pre rolloff = .ok s ∧ s.ret = some p
      ∧ s.heap = Function.update h p
          { h p with SysChannel := some chan.handle
                     Rolloff := match rolloff with
                       | some ro => ro
                       | none => (h p).Rolloff } := by
  obtain ⟨cs, heq, -⟩ := HandleChannelDelay_relative_accepted K r h chan p
    (flags &&& (K.SNDF_ABSTIME ||| K.SNDF_LOOP)) freq
    (by rw [and_or_left_absorb]; exact habs) hrate hseek
  cases rolloff with
  | none =>
    simp only [finishStart, heq, bind, Except.bind, pure, Except.pure, Bool.not_true,
      Bool.false_eq_true, if_false]
    exact ⟨_, rfl, rfl, rfl⟩
  | some ro =>
    simp only [finishStart, heq, bind, Except.bind, pure, Except.pure, Bool.not_true,
      Bool.false_eq_true, if_false]
    refine ⟨_, rfl, rfl, ?_⟩
    simp only [CommonChannelSetup, Function.update_same, Function.update_idem]

/-- What `HandleChannelDelay` returns and sends for a reuse session depends on
the memory of game channels only through the start time of that session. -/
theorem HandleChannelDelay_start_time_only (K : Consts) (r : Renderer) (h1 h2 : Heap)
    (chan : ChannelReplies) (p : ChanPtr) (flags : ℕ) (freq : ℚ)
    (hst : (h1 p).StartTime = (h2 p).StartTime) :
    (HandleChannelDelay K r h1 chan (some p) flags freq).toOption.map
        (fun d => (d.ret, d.calls))
      = (HandleChannelDelay K r h2 chan (some p) flags freq).toOption.map
        (fun d => (d.ret, d.calls)) := by
  simp only [HandleChannelDelay, hst]
  split_ifs <;> rfl

/-- A non-looping relative-time restart at a clock value after the recorded
start time seeks to the elapsed time `now - start`, divided by the output
rate. -/
theorem HandleChannelDelay_elapsed (K : Consts) (r : Renderer) (h : Heap)
    (chan : ChannelReplies) (p : ChanPtr) (flags : ℕ) (freq : ℚ)
    (habs : flags &&& K.SNDF_ABSTIME = 0) (hloop : flags &&& K.SNDF_LOOP = 0)
    (hstart0 : (h p).StartTime.AsOne ≠ 0)
    (hlt : (h p).StartTime.AsOne < (QWORD_UNION.ofHalves chan.getDelay).AsOne)
    (hrate : toU64 r.OutputRate ≠ 0) :
    HandleChannelDelay K r h chan (some p) flags freq
      = .ok { ret := chan.setPositionOK, heap := h
              calls := [.channel chan.handle (.setPositionMS
                (((QWORD_UNION.ofHalves chan.getDelay).AsOne - (h p).StartTime.AsOne)
                  / toU64 r.OutputRate % 2 ^ 32))] } := by
  have hnow := QWORD_UNION.AsOne_lt (QWORD_UNION.ofHalves chan.getDelay)
  obtain ⟨w, hw, heq⟩ := HandleChannelDelay_relative K r h chan p flags freq habs hstart0
    (by omega) hrate
  rw [heq, hw]
  simp only [hloop, ne_eq, not_true_eq_false, if_false]
  have : ((QWORD_UNION.ofHalves chan.getDelay).AsOne + 2 ^ 64 - (h p).StartTime.AsOne) % 2 ^ 64
      = (QWORD_UNION.ofHalves chan.getDelay).AsOne - (h p).StartTime.AsOne := by omega
  rw [this]

/-- C28 (counterexample): a relative-time restart through `StartSound3D` of a
session whose rolloff has minimum distance 200, called with a rolloff of
minimum distance 100, succeeds and returns the session with its start time
1000 unchanged, but with the rolloff of the call in place of its own: more than
the engine channel is replaced. -/
theorem C28_counterexample :
    (StartSound3D exExternals zdoomConsts exCVars (exRenderer 48000)
        (exHeap { Lo := 1000, Hi := 0 }) (exSound (exChan 1700 none true))
        (exListener false) 1 exRolloff2 1 128 0 exOrigin exOrigin 0 (some 0)).toOption.map
      (fun s => (s.ret, (s.heap 0).SysChannel, (s.heap 0).StartTime, (s.heap 0).Rolloff))
      = some (some 0, some 7, { Lo := 1000, Hi := 0 }, exRolloff2)
    ∧ (exHeap { Lo := 1000, Hi := 0 } 0).Rolloff = exRolloff
    ∧ exRolloff2 ≠ exRolloff := by
  refine ⟨by decide!, rfl, by decide⟩

/-- C28 (amended): a successful relative-time restart (reuse session, the
absolute-time flag clear, the engine accepting the seek) returns the reuse
session itself. In the memory of game channels only that session changes:
`StartSound` replaces its engine channel and nothing else; `StartSound3D`
replaces its engine channel and copies the rolloff of the call into it. The
recorded start time is unchanged, so a later `HandleChannelDelay` for the
session returns and sends what it would with the memory before the restart,
and a non-looping one at clock `now` after the start time seeks to
`(now - start) / OutputRate` with the original `start`. -/
theorem C28_relative_restart_frame (X : Externals) (K : Consts) (C : CVars) (r : Renderer)
    (h : Heap) (sfx : SoundReplies) (chan : ChannelReplies) (p : ChanPtr) (vol : ℚ)
    (pitch : ℤ) (flags : ℕ) (listener : SoundListener) (rolloff : FRolloffInfo)
    (distscale : ℚ) (priority : ℤ) (pos vel : FVector3)
    (hplay : sfx.playSound = some chan)
    (hmode : chan.getMode ≠ none ∨ K.NDEBUG = true)
    (habs : flags &&& K.SNDF_ABSTIME = 0)
    (hrate : toU64 r.OutputRate ≠ 0)
    (hseek : chan.setPositionOK = true) :
    (∃ s, StartSound X K C r h sfx vol pitch flags (some p) = .ok s ∧ s.ret = some p
      ∧ s.heap = Function.update h p { h p with SysChannel := some chan.handle })
    ∧ (∃ s, StartSound3D X K C r h sfx listener vol rolloff distscale pitch priority pos vel
          flags (some p) = .ok s ∧ s.ret = some p
      ∧ s.heap = Function.update h p
          { h p with SysChannel := some chan.handle, Rolloff := rolloff })
    ∧ (∀ (h2 : Heap), (h2 p).StartTime = (h p).StartTime →
        ∀ (r2 : Renderer) (chan2 : ChannelReplies) (flags2 : ℕ) (freq2 : ℚ),
          ((HandleChannelDelay K r2 h2 chan2 (some p) flags2 freq2).toOption.map
              (fun d => (d.ret, d.calls))
            = (HandleChannelDelay K r2 h chan2 (some p) flags2 freq2).toOption.map
              (fun d => (d.ret, d.calls)))
          ∧ (flags2 &&& K.SNDF_ABSTIME = 0 → flags2 &&& K.SNDF_LOOP = 0 →
              (h p).StartTime.AsOne ≠ 0 →
              (h p).StartTime.AsOne < (QWORD_UNION.ofHalves chan2.getDelay).AsOne →
              toU64 r2.OutputRate ≠ 0 →
              HandleChannelDelay K r2 h2 chan2 (some p) flags2 freq2
                = .ok { ret := chan2.setPositionOK, heap := h2
                        calls := [.channel chan2.handle (.setPositionMS
                          (((QWORD_UNION.ofHalves chan2.getDelay).AsOne
                              - (h p).StartTime.AsOne)
                            / toU64 r2.OutputRate % 2 ^ 32))] })) := by
  have key : ∀ (r1 : Renderer) (freq : ℚ) (pre : List EngineCall)
      (ro : Option FRolloffInfo), r1.OutputRate = r.OutputRate →
      ∃ s, finishStart X K r1 h chan (some p) flags freq pre ro = .ok s ∧ s.ret = some p
        ∧ s.heap = Function.update h p
            { h p with SysChannel := some chan.handle
                       Rolloff := match ro with
                         | some ro => ro
                         | none => (h p).Rolloff } := by
    intro r1 freq pre ro hr
    exact finishStart_relative_accepted X K r1 h chan p flags freq pre ro habs
      (by rw [hr]; exact hrate) hseek
  refine ⟨?_, ?_, ?_⟩
  · cases hg : chan.getMode with
    | some m =>
      simp only [StartSound, hplay, hg, bind, Except.bind, pure, Except.pure]
      exact key _ _ _ none rfl
    | none =>
      have hnd : K.NDEBUG = true := by
        rcases hmode with hne | hnd
        · exact absurd hg hne
        · exact hnd
      simp only [StartSound, hplay, hg, hnd, if_true, bind, Except.bind, pure, Except.pure]
      exact key _ _ _ none rfl
  · simp only [StartSound3D, hplay]
    exact key _ _ _ (some rolloff) rfl
  · intro h2 hst r2 chan2 flags2 freq2
    refine ⟨HandleChannelDelay_start_time_only K r2 h2 h chan2 p flags2 freq2 hst, ?_⟩
    intro habs2 hloop2 hs0 hlt2 hrate2
    have := HandleChannelDelay_elapsed K r2 h2 chan2 p flags2 freq2 habs2 hloop2
      (by rw [hst]; exact hs0) (by rw [hst]; exact hlt2) hrate2
    rw [hst] at this
    exact this

/-- C28 (witness): a session recorded at start time 1000 is restarted through
`StartSound` at clock 1700; it is returned with the engine channel 7 and
nothing else changed. -/
theorem C28_relative_restart_frame_witness :
    ∃ s, StartSound exExternals zdoomConsts exCVars (exRenderer 48000)
          (exHeap { Lo := 1000, Hi := 0 }) (exSound (exChan 1700 none true)) 1 128 0 (some 0)
          = .ok s
      ∧ s.ret = some 0
      ∧ s.heap = Function.update (exHeap { Lo := 1000, Hi := 0 }) 0
          { exHeap { Lo := 1000, Hi := 0 } 0 with SysChannel := some 7 } :=
  (C28_relative_restart_frame exExternals zdoomConsts exCVars (exRenderer 48000)
    (exHeap { Lo := 1000, Hi := 0 }) (exSound (exChan 1700 none true)) (exChan 1700 none true)
    0 1 128 0 (exListener false) exRolloff 1 128 exOrigin exOrigin rfl (Or.inl (by decide))
    (by decide) (by decide) rfl).1

/-- Two successive restarts of a session recorded at start time 1000, at clocks
49000 and 97000 with an output rate of 48000: both return the session with the
start time 1000 still recorded, and the seeks are to
`(49000 - 1000) / 48000 = 1` and `(97000 - 1000) / 48000 = 2`, both measured
from the start time 1000. -/
theorem relative_restart_twice_example :
    ((StartSound exExternals zdoomConsts exCVars (exRenderer 48000)
        (exHeap { Lo := 1000, Hi := 0 }) (exSound (exChan 49000 none true)) 1 128 0
        (some 0)).toOption.bind (fun s1 =>
      (StartSound exExternals zdoomConsts exCVars s1.r s1.heap
        (exSound (exChan 97000 none true)) 1 128 0 (some 0)).toOption.map (fun s2 =>
          (s1.ret, s2.ret, (s1.heap 0).StartTime, (s2.heap 0).StartTime)))
      = some (some 0, some 0, { Lo := 1000, Hi := 0 }, { Lo := 1000, Hi := 0 }))
    ∧ ((StartSound exExternals zdoomConsts exCVars (exRenderer 48000)
        (exHeap { Lo := 1000, Hi := 0 }) (exSound (exChan 49000 none true)) 1 128 0
        (some 0)).toOption.bind (fun s1 =>
      (StartSound exExternals zdoomConsts exCVars s1.r s1.heap
        (exSound (exChan 97000 none true)) 1 128 0 (some 0)).toOption.map (fun s2 =>
          (seekOffsets s1.calls, seekOffsets s2.calls)))
      = some ([1], [2])) := by
  refine ⟨by decide!, by decide!⟩


/-- The three places where `IsEnded` calls through `Channel` without testing
it: for a capsule with a stream and no channel, on an engine that reports an
open state other than the error state, `IsEnded` has no meaning when `Ended`
is set; when `Ended` is clear and the capsule has a URL, was not just started
and the stream is ready; and when `Ended` is clear, no reconnection and no
`Play` is due, and the starving flag differs from `Starved`. -/
theorem IsEnded_null_channel (K : Consts) (S : StreamConsts) (e : StreamReplies)
    (s : FMODStreamCapsule) (os : FMOD_OPENSTATE) (starving : Bool)
    (hstream : s.Stream ≠ none) (hchan : s.Channel = none)
    (hopen : e.getOpenState = some (os, starving)) (hos : os ≠ .ERROR) :
    (s.Ended = true → FMODStreamCapsule.IsEnded K S e s = .error .undefinedBehaviour)
    ∧ (s.Ended = false → s.URL ≠ "" → s.JustStarted = false → os = .READY →
        FMODStreamCapsule.IsEnded K S e s = .error .undefinedBehaviour)
    ∧ (s.Ended = false → os ≠ .READY → starving ≠ s.Starved →
        FMODStreamCapsule.IsEnded K S e s = .error .undefinedBehaviour) := by
  obtain ⟨st, hst⟩ := Option.ne_none_iff_exists'.mp hstream
  rcases s with ⟨Stream, Channel, URL, Ended, JustStarted, Starved, Loop, Volume⟩
  simp only at hst hchan
  subst hst hchan
  refine ⟨?_, ?_, ?_⟩
  · intro hE
    simp only at hE
    subst hE
    simp [FMODStreamCapsule.IsEnded, hopen, hos]
  · intro hE hU hJ hR
    simp only at hE hU hJ
    subst hE hJ hR
    simp [FMODStreamCapsule.IsEnded, hopen, hU]
  · intro hE hR hS
    simp only at hE hS
    subst hE
    by_cases h1 : JustStarted = true ∧ os = .PLAYING
    · simp [FMODStreamCapsule.IsEnded, hopen, hos, hR, h1, hS]
    · simp [FMODStreamCapsule.IsEnded, hopen, hos, hR, h1, hS]

/-- The places where the capsule does test `Channel` before calling through
it: with no channel, `Stop` and `SetVolume` send nothing, and so does
`IsEnded` when the engine reports the error state. -/
theorem null_channel_guarded (K : Consts) (S : StreamConsts) (e : StreamReplies)
    (s : FMODStreamCapsule) (hstream : s.Stream ≠ none) (hchan : s.Channel = none) :
    (FMODStreamCapsule.Stop s).2 = []
    ∧ (∀ v, (FMODStreamCapsule.SetVolume s v).2 = [])
    ∧ ((e.getOpenState = none ∨ ∃ st, e.getOpenState = some (.ERROR, st)) →
        FMODStreamCapsule.IsEnded K S e s = .ok { ret := true, s := s, calls := [] }) := by
  obtain ⟨st, hst⟩ := Option.ne_none_iff_exists'.mp hstream
  refine ⟨by simp [FMODStreamCapsule.Stop, hchan], ?_, ?_⟩
  · intro v
    simp [FMODStreamCapsule.SetVolume, hchan]
  · rintro (h | ⟨b, h⟩) <;> simp [FMODStreamCapsule.IsEnded, hst, hchan, h]

/-- C27 (the code at the failing inputs): three sequences after which `IsEnded`
calls through a `NULL` channel. A callback stream is played, runs out of data
(`Ended` set) and is stopped, and `IsEnded` then runs `Channel->stop()`. A URL
stream is played, seen playing and stopped, and `IsEnded`, finding the stream
ready, runs `Channel->stop()` to reconnect. A file stream is played and
stopped, and `IsEnded`, told by the engine that the stream is starving, runs
`Channel->setVolume(0)`. -/
theorem C27_channel_call_through_null :
    FMODStreamCapsule.IsEnded zdoomConsts fmodStreamConsts (exStreamReplies .READY false)
        (FMODStreamCapsule.Stop
          { exFileCapsule with Channel := some 7, JustStarted := true, Ended := true }).1
      = .error .undefinedBehaviour
    ∧ streamRun zdoomConsts fmodStreamConsts exUrlCapsule
        [(.Play false 1, exStreamReplies .READY false),
         (.IsEnded, exStreamReplies .PLAYING false),
         (.Stop, exStreamReplies .PLAYING false),
         (.IsEnded, exStreamReplies .READY false)]
      = .error .undefinedBehaviour
    ∧ streamRun zdoomConsts fmodStreamConsts exFileCapsule
        [(.Play false 1, exStreamReplies .READY false),
         (.Stop, exStreamReplies .PLAYING false),
         (.IsEnded, exStreamReplies .PLAYING true)]
      = .error .undefinedBehaviour := by
  refine ⟨?_, ?_, ?_⟩
  · exact (IsEnded_null_channel zdoomConsts fmodStreamConsts (exStreamReplies .READY false) _
      .READY false (by decide) rfl rfl (by decide)).1 rfl
  · rfl
  · rfl

/-- The function `Init` returns true exactly when the system starts and the
three channel groups are created; no later answer of the engine matters. -/
theorem Init_ret (C : CVars) (snd_streambuffersize : ℤ) (r0 : Renderer) (e : InitReplies) :
    (Init C snd_streambuffersize r0 e).ret
      = (e.systemInit && e.createMusicGroup && e.createSfxGroup && e.createPausableSfx) := by
  unfold Init
  cases e.systemInit <;> cases e.createMusicGroup <;> cases e.createSfxGroup <;>
    cases e.createPausableSfx <;> rfl

/-- C25: once the system has started and the Music, SFX and Pausable SFX
channel groups are created, `Init` returns true whatever the engine answers to
the later calls (attaching the pausable group; creating the low-pass, water
reverb and placeholder units; `getDSP`, `getInput` and every `addInput`;
finding the target unit; `getSoftwareFormat`), and the three groups are left
in place. -/
theorem C25_init_graph_failures_not_fatal (C : CVars) (snd_streambuffersize : ℤ)
    (r0 : Renderer) (e : InitReplies)
    (hsys : e.systemInit = true) (hmusic : e.createMusicGroup = true)
    (hsfx : e.createSfxGroup = true) (hpausable : e.createPausableSfx = true) :
    (Init C snd_streambuffersize r0 e).ret = true
    ∧ (Init C snd_streambuffersize r0 e).MusicGroup = true
    ∧ (Init C snd_streambuffersize r0 e).SfxGroup = true
    ∧ (Init C snd_streambuffersize r0 e).PausableSfx = true
    ∧ (Init C snd_streambuffersize r0 e).SFXPaused = 0 := by
  simp only [Init, hsys, hmusic, hsfx, hpausable, Bool.not_true, Bool.false_eq_true, if_false,
    and_self]

/-- C25 at a concrete input: every call after the creation of the three groups
fails, and `Init` returns true; no underwater unit exists and the output rate
is the guess 48000. -/
theorem C25_init_graph_failures_not_fatal_witness :
    (Init exCVars 512 (exRenderer 0) exInitRepliesFailing).ret = true
    ∧ (Init exCVars 512 (exRenderer 0) exInitRepliesFailing).MusicGroup = true
    ∧ (Init exCVars 512 (exRenderer 0) exInitRepliesFailing).SfxGroup = true
    ∧ (Init exCVars 512 (exRenderer 0) exInitRepliesFailing).PausableSfx = true
    ∧ (Init exCVars 512 (exRenderer 0) exInitRepliesFailing).SFXPaused = 0 :=
  C25_init_graph_failures_not_fatal exCVars 512 (exRenderer 0) exInitRepliesFailing rfl rfl rfl
    rfl

/-- The renderer `Init` leaves on an engine where everything succeeds, and on
one where everything after the channel groups fails. -/
theorem Init_examples :
    ((Init exCVars 512 (exRenderer 0) exInitReplies).r
      = { OutputRate := 48000, DSPClock := { Lo := 0, Hi := 0 }, DSPLocked := false,
          SfxReverbHooked := false, LastWaterLP := 250, WaterLP := true, WaterReverb := true,
          SfxConnection := true, ChannelGroupTargetUnit := true, SfxReverbPlaceholder := true,
          PrevEnvironment := some 0, GRolloff := none, GDistScale := 1 })
    ∧ ((Init exCVars 512 (exRenderer 0) exInitRepliesFailing).r
      = { OutputRate := 48000, DSPClock := { Lo := 0, Hi := 0 }, DSPLocked := false,
          SfxReverbHooked := false, LastWaterLP := 250, WaterLP := false, WaterReverb := false,
          SfxConnection := false, ChannelGroupTargetUnit := false,
          SfxReverbPlaceholder := false, PrevEnvironment := some 0, GRolloff := none,
          GDistScale := 1 })
    ∧ (Init exCVars 512 (exRenderer 0) { exInitReplies with createSfxGroup := false }).ret
        = false
    ∧ (Init exCVars 512 (exRenderer 0) exInitReplies).calls.length = 30 := by
  refine ⟨by decide!, by decide!, by decide!, by decide!⟩

/-- Which pointers `Init` leaves non-`NULL` when it returns true: the low-pass
unit when its creation succeeds, and the dry connection when, besides,
`getDSP` and `getInput` succeed. -/
theorem Init_pointers (C : CVars) (snd_streambuffersize : ℤ) (r0 : Renderer)
    (e : InitReplies) (hret : (Init C snd_streambuffersize r0 e).ret = true) :
    (Init C snd_streambuffersize r0 e).r.WaterLP = e.createLowpass
    ∧ (Init C snd_streambuffersize r0 e).r.SfxConnection
        = (e.createLowpass && e.sfxGetDSP && e.headGetInput) := by
  rw [Init_ret] at hret
  simp only [Bool.and_eq_true] at hret
  obtain ⟨⟨⟨h1, h2⟩, h3⟩, h4⟩ := hret
  simp only [Init, h1, h2, h3, h4, Bool.not_true, Bool.false_eq_true, if_false]
  cases h5 : e.createLowpass <;> cases h6 : e.sfxGetDSP <;> cases h7 : e.headGetInput <;>
    simp [InitWaterGraph, h6, h7]

/-- With a low-pass unit and no dry connection, `UpdateListener` for a valid
listener calls `SfxConnection->setMix` through a `NULL` pointer, whatever the
underwater condition. -/
theorem UpdateListener_null_connection (X : Externals) (C : CVars) (r : Renderer)
    (envs : Envs) (g : GraphReplies) (listener : SoundListener)
    (hvalid : listener.valid = true) (hlp : r.WaterLP = true)
    (hconn : r.SfxConnection = false) :
    UpdateListener X C r envs g listener = .error .undefinedBehaviour := by
  obtain ⟨-, -, -, -, -, hwlp, -, hwc, -⟩ :=
    updateEnvironment_spec r envs g (effectiveEnv C listener)
  generalize hedef : updateEnvironment r envs g (effectiveEnv C listener) = e at *
  have hw : ∀ water : Bool, updateWater C e.r water = .error .undefinedBehaviour := by
    intro water
    have h1 : e.r.WaterLP = true := hwlp.trans hlp
    have h2 : e.r.SfxConnection = false := hwc.trans hconn
    cases water <;> simp [updateWater, h1, h2]
  simp only [UpdateListener, hvalid, hedef, hw, Bool.not_true, Bool.false_eq_true, if_false,
    bind, Except.bind]

/-- C26 (the code at the failing input): on an engine on which every call
succeeds except `SfxGroup->getDSP`, `Init` returns true with the low-pass unit
in place and `SfxConnection` still `NULL`; `UpdateListener` on that renderer
then calls `SfxConnection->setMix` through the `NULL` pointer, under water or
not. -/
theorem C26_lowpass_without_connection :
    (Init exCVars 512 (exRenderer 0) { exInitReplies with sfxGetDSP := false }).ret = true
    ∧ (Init exCVars 512 (exRenderer 0) { exInitReplies with sfxGetDSP := false }).r.WaterLP
        = true
    ∧ (Init exCVars 512 (exRenderer 0)
        { exInitReplies with sfxGetDSP := false }).r.SfxConnection = false
    ∧ UpdateListener exExternals exCVars
        (Init exCVars 512 (exRenderer 0) { exInitReplies with sfxGetDSP := false }).r
        (exEnvs false) exGraph (exListener true) = .error .undefinedBehaviour
    ∧ UpdateListener exExternals exCVars
        (Init exCVars 512 (exRenderer 0) { exInitReplies with sfxGetDSP := false }).r
        (exEnvs false) exGraph (exListener false) = .error .undefinedBehaviour := by
  refine ⟨by decide!, by decide!, by decide!, ?_, ?_⟩
  · exact UpdateListener_null_connection _ _ _ _ _ _ rfl (by decide!) (by decide!)
  · exact UpdateListener_null_connection _ _ _ _ _ _ rfl (by decide!) (by decide!)

/-- The sibling of the path of C26: when `getDSP` and `getInput` succeed,
`Init` leaves a dry connection whenever it leaves a low-pass unit, whatever
else fails; and a placeholder whose `addInput` fails is released and its
pointer cleared. -/
theorem Init_connection_when_head_found (C : CVars) (snd_streambuffersize : ℤ)
    (r0 : Renderer) (e : InitReplies)
    (hret : (Init C snd_streambuffersize r0 e).ret = true)
    (hdsp : e.sfxGetDSP = true) (hinput : e.headGetInput = true) :
    ((Init C snd_streambuffersize r0 e).r.WaterLP = true →
      (Init C snd_streambuffersize r0 e).r.SfxConnection = true)
    ∧ (e.placeholderAddInput = false →
        (Init C snd_streambuffersize r0 e).r.SfxReverbPlaceholder = false) := by
  obtain ⟨h1, h2⟩ := Init_pointers C snd_streambuffersize r0 e hret
  constructor
  · intro h
    rw [h2, ← h1, h, hdsp, hinput]
    rfl
  · intro hp
    rw [Init_ret] at hret
    simp only [Bool.and_eq_true] at hret
    obtain ⟨⟨⟨h3, h4⟩, h5⟩, h6⟩ := hret
    simp only [Init, h3, h4, h5, h6, Bool.not_true, Bool.false_eq_true, if_false]
    cases h7 : e.createLowpass <;> cases h8 : e.createMixer <;>
      simp [InitWaterGraph, hdsp, hinput, hp, h8]


/-- A finite `float` is its own rounding. -/
theorem f32_of_isFloat (q : ℚ) (hq : IsFloat q) : f32 q = q :=
  fround_of_representable 24 (-149) q hq.1

/-- A whole number below `2^24` in size, scaled by a power of two with an
exponent from -149 to 104, is a finite `float`. -/
theorem isFloat_of_scaled (m e : ℤ) (hm : |m| < 2 ^ 24) (he : -149 ≤ e) (he2 : e ≤ 104) :
    IsFloat ((m : ℚ) * 2 ^ e) := by
  refine ⟨⟨m, e, he, hm, rfl⟩, ?_⟩
  have hm1 : |(m : ℚ)| ≤ 2 ^ 24 - 1 := by
    have : |m| ≤ 2 ^ 24 - 1 := by omega
    exact_mod_cast this
  have hpow : (2 : ℚ) ^ e ≤ 2 ^ (104 : ℤ) := zpow_le_zpow_right₀ (by norm_num) he2
  have hpos : (0 : ℚ) < 2 ^ e := by positivity
  rw [abs_mul, abs_of_pos hpos]
  calc |(m : ℚ)| * 2 ^ e ≤ (2 ^ 24 - 1) * 2 ^ (104 : ℤ) :=
        mul_le_mul hm1 hpow hpos.le (by norm_num)
    _ = FLT_MAX := by
        unfold FLT_MAX
        norm_num

/-- The values rounding gives: the rounded value when it is within `FLT_MAX`
in size, else the infinity of the sign of the exact value. -/
theorem XFloat.round_cases (x : ℚ) :
    (XFloat.round x = .fin (f32 x) ∧ IsFloat (f32 x))
    ∨ (XFloat.round x = .inf (decide (x < 0)) ∧ FLT_MAX < |f32 x|) := by
  unfold XFloat.round
  by_cases h : FLT_MAX < |f32 x|
  · right
    exact ⟨by rw [if_pos h], h⟩
  · left
    exact ⟨by rw [if_neg h], fround_representable 24 (-149) x (by norm_num), not_lt.mp h⟩

/-- Rounding a value between two finite `float`s gives a finite `float`
between them. -/
theorem XFloat.round_between (x lo hi : ℚ) (hlo : IsFloat lo) (hhi : IsFloat hi)
    (h1 : lo ≤ x) (h2 : x ≤ hi) :
    XFloat.round x = .fin (f32 x) ∧ lo ≤ f32 x ∧ f32 x ≤ hi ∧ IsFloat (f32 x) := by
  have a1 : lo ≤ f32 x := by
    have := f32_mono lo x h1
    rwa [f32_of_isFloat lo hlo] at this
  have a2 : f32 x ≤ hi := by
    have := f32_mono x hi h2
    rwa [f32_of_isFloat hi hhi] at this
  have hb : |f32 x| ≤ FLT_MAX := by
    rw [abs_le]
    constructor
    · have := (abs_le.mp hlo.2).1
      linarith
    · have := (abs_le.mp hhi.2).2
      linarith
  refine ⟨?_, a1, a2, fround_representable 24 (-149) x (by norm_num), hb⟩
  unfold XFloat.round
  rw [if_neg (not_lt.mpr hb)]

/-- Rounding a value that is not negative gives a finite `float` that is not
negative, or `+∞`. -/
theorem XFloat.round_nonneg (x : ℚ) (hx : 0 ≤ x) :
    (∃ q, XFloat.round x = .fin q ∧ 0 ≤ q ∧ IsFloat q) ∨ XFloat.round x = .inf false := by
  rcases XFloat.round_cases x with ⟨h, hf⟩ | ⟨h, -⟩
  · left
    exact ⟨_, h, f32_nonneg x hx, hf⟩
  · right
    rw [h]
    simp [not_lt.mpr hx]

/-- Rounding never gives NaN. -/
theorem XFloat.round_ne_nan (x : ℚ) : XFloat.round x ≠ .nan := by
  rcases XFloat.round_cases x with ⟨h, -⟩ | ⟨h, -⟩ <;> rw [h] <;> simp

/-- The function `clampf` on a value that is not NaN gives a finite value
between the bounds. -/
theorem clampf_range (x : XFloat) (lo hi : ℚ) (hx : x ≠ .nan) (hlh : lo ≤ hi) :
    ∃ w, clampf x lo hi = .fin w ∧ lo ≤ w ∧ w ≤ hi := by
  cases x with
  | nan => exact absurd rfl hx
  | inf s =>
    cases s with
    | true => exact ⟨lo, by simp [clampf, XFloat.le], le_refl _, hlh⟩
    | false => exact ⟨hi, by simp [clampf, XFloat.le], hlh, le_refl _⟩
  | fin q =>
    by_cases h1 : q ≤ lo
    · exact ⟨lo, by simp [clampf, XFloat.le, h1], le_refl _, hlh⟩
    · by_cases h2 : hi ≤ q
      · exact ⟨hi, by simp [clampf, XFloat.le, h1, h2], hlh, le_refl _⟩
      · exact ⟨q, by simp [clampf, XFloat.le, h1, h2], (not_le.mp h1).le, (not_le.mp h2).le⟩

/-- The function `clampf` hands NaN through: both comparisons are false. -/
theorem clampf_nan (lo hi : ℚ) : clampf .nan lo hi = .nan := by
  simp [clampf, XFloat.le]

/-- The conversion of an `int` and its division by a constant from 100 to
2000 are finite. -/
theorem XFloat.ofInt_div (n : ℤ) (c : ℚ) (hn1 : -2 ^ 31 ≤ n) (hn2 : n < 2 ^ 31)
    (hc1 : 1 ≤ c) :
    ∃ q, XFloat.div (XFloat.ofInt n) (.fin c) = .fin q ∧ IsFloat q
      ∧ XFloat.ofInt n = .fin (f32 n) ∧ q = f32 (f32 n / c) := by
  have hF : IsFloat ((2 : ℚ) ^ 31) := by
    have := isFloat_of_scaled 1 31 (by norm_num) (by norm_num) (by norm_num)
    have e : ((1 : ℤ) : ℚ) * 2 ^ (31 : ℤ) = 2 ^ 31 := by norm_num
    rwa [e] at this
  have hF' : IsFloat (-(2 : ℚ) ^ 31) := by
    have := isFloat_of_scaled (-1) 31 (by norm_num) (by norm_num) (by norm_num)
    have e : ((-1 : ℤ) : ℚ) * 2 ^ (31 : ℤ) = -2 ^ 31 := by norm_num
    rwa [e] at this
  have hq1 : (-(2 : ℚ) ^ 31) ≤ (n : ℚ) := by exact_mod_cast hn1
  have hq2 : (n : ℚ) ≤ 2 ^ 31 := by exact_mod_cast hn2.le
  obtain ⟨hr, b1, b2, -⟩ := XFloat.round_between (n : ℚ) _ _ hF' hF hq1 hq2
  have hc0 : (0 : ℚ) < c := by linarith
  have d1 : (-(2 : ℚ) ^ 31) ≤ f32 n / c := by
    rw [le_div_iff₀ hc0]
    by_cases hneg : f32 n ≤ 0
    · nlinarith
    · push_neg at hneg
      nlinarith
  have d2 : f32 n / c ≤ 2 ^ 31 := by
    rw [div_le_iff₀ hc0]
    by_cases hneg : f32 n ≤ 0
    · nlinarith
    · push_neg at hneg
      nlinarith
  obtain ⟨hr2, -, -, hf2⟩ := XFloat.round_between (f32 n / c) _ _ hF' hF d1 d2
  have hcne : c ≠ 0 := hc0.ne'
  refine ⟨f32 (f32 n / c), ?_, hf2, hr, rfl⟩
  simp only [XFloat.ofInt, hr, XFloat.div, hcne, if_false, hr2]

/-- A product of a non-zero finite value and a value that is not NaN is not
NaN. -/
theorem XFloat.mul_fin_ne_nan (c : ℚ) (x : XFloat) (hc : c ≠ 0) (hx : x ≠ .nan) :
    XFloat.mul (.fin c) x ≠ .nan := by
  cases x with
  | nan => exact absurd rfl hx
  | inf s => simp [XFloat.mul, hc]
  | fin q => exact XFloat.round_ne_nan _

/-- A sum of a value that is not NaN and a finite value is not NaN. -/
theorem XFloat.add_fin_ne_nan (x : XFloat) (r : ℚ) (hx : x ≠ .nan) :
    XFloat.add x (.fin r) ≠ .nan := by
  cases x with
  | nan => exact absurd rfl hx
  | inf s => simp [XFloat.add]
  | fin q => exact XFloat.round_ne_nan _

/-- A sum of two values, each a `float` that is not negative or `+∞`, is again
a `float` that is not negative or `+∞`. -/
theorem XFloat.add_nonneg_or_inf (a b : XFloat)
    (ha : (∃ q, a = .fin q ∧ 0 ≤ q ∧ IsFloat q) ∨ a = .inf false)
    (hb : (∃ q, b = .fin q ∧ 0 ≤ q ∧ IsFloat q) ∨ b = .inf false) :
    (∃ q, XFloat.add a b = .fin q ∧ 0 ≤ q ∧ IsFloat q) ∨ XFloat.add a b = .inf false := by
  rcases ha with ⟨q1, rfl, h1, -⟩ | rfl <;> rcases hb with ⟨q2, rfl, h2, -⟩ | rfl
  · exact XFloat.round_nonneg _ (add_nonneg h1 h2)
  · right; rfl
  · right; rfl
  · right; rfl

/-- C23: with a C library as Annex F describes it and `int` values for `Room`,
`Reflections` and `Reverb`, the wet level `SetSystemReverbProperties` hands to
the engine is `10*log10f(powf(10, Reflections/1000.f) + powf(10,
Reverb/1000.f)) + Room/100.f` passed through `clamp<float>(.., -80, 20)`, and
it is a finite value in `[-80, 20]`: the sum of powers is never NaN, so neither
is its logarithm, and an infinite value is clamped to an end of the range. -/
theorem C23_wet_level_range (L : FloatLib) (props : REVERB_PROPERTIES)
    (hL : FloatLibFacts L) (hRoom : IsInt32 props.Room)
    (hReflections : IsInt32 props.Reflections) (hReverb : IsInt32 props.Reverb) :
    (SetSystemReverbProperties L props).WetLevel
      = clampf
          (XFloat.add
            (XFloat.mul (.fin 10)
              (L.log10f
                (XFloat.add
                  (L.powf (.fin 10) (XFloat.div (XFloat.ofInt props.Reflections) (.fin 1000)))
                  (L.powf (.fin 10) (XFloat.div (XFloat.ofInt props.Reverb) (.fin 1000))))))
            (XFloat.div (XFloat.ofInt props.Room) (.fin 100)))
          (-80) 20
    ∧ ∃ w, (SetSystemReverbProperties L props).WetLevel = .fin w ∧ -80 ≤ w ∧ w ≤ 20 := by
  refine ⟨rfl, ?_⟩
  obtain ⟨y1, hy1, -, -, -⟩ := XFloat.ofInt_div props.Reflections 1000 hReflections.1
    hReflections.2 (by norm_num)
  obtain ⟨y2, hy2, -, -, -⟩ := XFloat.ofInt_div props.Reverb 1000 hReverb.1 hReverb.2
    (by norm_num)
  obtain ⟨r, hr, -, -, -⟩ := XFloat.ofInt_div props.Room 100 hRoom.1 hRoom.2 (by norm_num)
  have hP := XFloat.add_nonneg_or_inf _ _ (hy1 ▸ hL.powf_ten y1) (hy2 ▸ hL.powf_ten y2)
  have hlog : L.log10f
      (XFloat.add
        (L.powf (.fin 10) (XFloat.div (XFloat.ofInt props.Reflections) (.fin 1000)))
        (L.powf (.fin 10) (XFloat.div (XFloat.ofInt props.Reverb) (.fin 1000)))) ≠ .nan := by
    rcases hP with ⟨p, hp, hp0, hpf⟩ | hp
    · rw [hp]
      rcases eq_or_lt_of_le hp0 with h0 | hpos
      · rw [← h0, hL.log10f_zero]
        simp
      · obtain ⟨l, hl, -⟩ := hL.log10f_pos p hpos hpf
        rw [hl]
        simp
    · rw [hp, hL.log10f_inf]
      simp
  have hsum := XFloat.add_fin_ne_nan _ r
    (XFloat.mul_fin_ne_nan 10 _ (by norm_num) hlog)
  simp only [SetSystemReverbProperties, hr]
  exact clampf_range _ (-80) 20 hsum (by norm_num)

/-- The count `decLog` never exceeds its argument. -/
theorem decLog_le : ∀ fuel n : ℕ, decLog fuel n ≤ n := by
  intro fuel
  induction fuel with
  | zero => intro n; simp [decLog]
  | succ fuel ih =>
    intro n
    simp only [decLog]
    split_ifs with h
    · exact Nat.zero_le _
    · have := ih (n / 10)
      omega

/-- The count `decLog` of a number below `2^k` is at most `k`. -/
theorem decLog_le_of_lt : ∀ fuel n k : ℕ, n < 2 ^ k → decLog fuel n ≤ k := by
  intro fuel
  induction fuel with
  | zero => intro n k _; simp [decLog]
  | succ fuel ih =>
    intro n k hn
    simp only [decLog]
    split_ifs with h
    · exact Nat.zero_le _
    · cases k with
      | zero => simp at hn; omega
      | succ k =>
        have : n / 10 < 2 ^ k := by
          rw [pow_succ] at hn
          omega
        have := ih (n / 10) k this
        omega

/-- The largest finite `float` is a finite `float`, and so are 0 and 1. -/
theorem isFloat_consts : IsFloat FLT_MAX ∧ IsFloat (-FLT_MAX) ∧ IsFloat 0 ∧ IsFloat 1 := by
  have h1 := isFloat_of_scaled (2 ^ 24 - 1) 104 (by norm_num) (by norm_num) (by norm_num)
  have h2 := isFloat_of_scaled (-(2 ^ 24 - 1)) 104 (by norm_num) (by norm_num) (by norm_num)
  have h3 := isFloat_of_scaled 0 0 (by norm_num) (by norm_num) (by norm_num)
  have h4 := isFloat_of_scaled 1 0 (by norm_num) (by norm_num) (by norm_num)
  have e1 : (((2 ^ 24 - 1 : ℤ)) : ℚ) * 2 ^ (104 : ℤ) = FLT_MAX := by
    unfold FLT_MAX
    norm_num
  have e2 : (((-(2 ^ 24 - 1) : ℤ)) : ℚ) * 2 ^ (104 : ℤ) = -FLT_MAX := by
    unfold FLT_MAX
    norm_num
  rw [e1] at h1
  rw [e2] at h2
  refine ⟨h1, h2, ?_, ?_⟩
  · simpa using h3
  · simpa using h4

/-- A positive finite `float` is at least `2^-149`. -/
theorem isFloat_pos_ge (q : ℚ) (hq : IsFloat q) (hpos : 0 < q) : (2 : ℚ) ^ (-149 : ℤ) ≤ q := by
  obtain ⟨⟨m, e, he, -, rfl⟩, -⟩ := hq
  have hp : (0 : ℚ) < 2 ^ e := by positivity
  have hm : (0 : ℚ) < m := by
    by_contra h
    push_neg at h
    have : (m : ℚ) * 2 ^ e ≤ 0 := mul_nonpos_of_nonpos_of_nonneg h hp.le
    linarith
  have hm1 : (1 : ℚ) ≤ m := by
    have : (0 : ℤ) < m := by exact_mod_cast hm
    have : (1 : ℤ) ≤ m := this
    exact_mod_cast this
  calc (2 : ℚ) ^ (-149 : ℤ) ≤ 2 ^ e := zpow_le_zpow_right₀ (by norm_num) he
    _ = 1 * 2 ^ e := (one_mul _).symm
    _ ≤ m * 2 ^ e := mul_le_mul_of_nonneg_right hm1 hp.le

/-- The library of the examples is as the model assumes a C library to be. -/
theorem exFloatLib_facts : FloatLibFacts exFloatLib := by
  obtain ⟨hmax, hmin, h0, h1⟩ := isFloat_consts
  have hFpos : (0 : ℚ) ≤ FLT_MAX := by unfold FLT_MAX; norm_num
  have hFint : FLT_MAX = ((2 ^ 128 - 2 ^ 104 : ℤ) : ℚ) := by unfold FLT_MAX; norm_num
  refine ⟨?_, ?_, ?_, ?_, ?_, ?_, ?_⟩
  · intro y
    have : exFloatLib.powf (.fin 10) (.fin y) = XFloat.round ((10 : ℚ) ^ ⌊y⌋) := by
      simp [exFloatLib]
    rw [this]
    exact XFloat.round_nonneg _ (by positivity)
  · intro q hpos hq
    have hqle : q ≤ FLT_MAX := (abs_le.mp hq.2).2
    by_cases hge : 1 ≤ q
    · have hdef : exFloatLib.log10f (.fin q)
          = XFloat.round ((decLog ⌊q⌋.toNat ⌊q⌋.toNat : ℕ) : ℚ) := by
        simp [exFloatLib, not_lt.mpr hpos.le, hpos.ne', hge]
      have hb : ((decLog ⌊q⌋.toNat ⌊q⌋.toNat : ℕ) : ℚ) ≤ FLT_MAX := by
        have h1 : ((decLog ⌊q⌋.toNat ⌊q⌋.toNat : ℕ) : ℚ) ≤ (⌊q⌋.toNat : ℚ) := by
          exact_mod_cast decLog_le _ _
        have h2 : ((⌊q⌋.toNat : ℕ) : ℚ) ≤ q := by
          have hf : (0 : ℤ) ≤ ⌊q⌋ := Int.floor_nonneg.mpr hpos.le
          have : ((⌊q⌋.toNat : ℕ) : ℤ) = ⌊q⌋ := Int.toNat_of_nonneg hf
          have h3 : ((⌊q⌋.toNat : ℕ) : ℚ) = ((⌊q⌋ : ℤ) : ℚ) := by exact_mod_cast this
          rw [h3]
          exact Int.floor_le q
        linarith
      obtain ⟨hr, -, -, hf⟩ := XFloat.round_between _ 0 FLT_MAX h0 hmax (Nat.cast_nonneg _) hb
      exact ⟨_, hdef.trans hr, hf⟩
    · push_neg at hge
      have hdef : exFloatLib.log10f (.fin q)
          = XFloat.round (((-(decLog ⌈1 / q⌉.toNat ⌈1 / q⌉.toNat : ℕ) : ℤ)) : ℚ) := by
        simp [exFloatLib, not_lt.mpr hpos.le, hpos.ne', not_le.mpr hge]
      have hq149 := isFloat_pos_ge q hq hpos
      have hinv : 1 / q ≤ 2 ^ (149 : ℕ) := by
        rw [div_le_iff₀ hpos]
        have e : (2 : ℚ) ^ (149 : ℕ) * 2 ^ (-149 : ℤ) = 1 := by
          rw [← zpow_natCast, ← zpow_add₀ (by norm_num)]
          norm_num
        have : (2 : ℚ) ^ (149 : ℕ) * 2 ^ (-149 : ℤ) ≤ 2 ^ (149 : ℕ) * q :=
          mul_le_mul_of_nonneg_left hq149 (by positivity)
        linarith
      have hc0 : (0 : ℤ) ≤ ⌈1 / q⌉ := Int.ceil_nonneg (one_div_nonneg.mpr hpos.le)
      have hn : ⌈1 / q⌉.toNat < 2 ^ 150 := by
        have h1 : ((⌈1 / q⌉.toNat : ℕ) : ℚ) = ((⌈1 / q⌉ : ℤ) : ℚ) := by
          have := Int.toNat_of_nonneg hc0
          exact_mod_cast this
        have h2 : ((⌈1 / q⌉ : ℤ) : ℚ) < 1 / q + 1 := Int.ceil_lt_add_one _
        have h3 : ((⌈1 / q⌉.toNat : ℕ) : ℚ) < 2 ^ (150 : ℕ) := by
          rw [h1]
          have : (2 : ℚ) ^ (150 : ℕ) = 2 * 2 ^ (149 : ℕ) := by rw [pow_succ]; ring
          have h4 : (1 : ℚ) ≤ 2 ^ (149 : ℕ) := one_le_pow₀ (by norm_num)
          linarith
        exact_mod_cast h3
      have hd := decLog_le_of_lt ⌈1 / q⌉.toNat ⌈1 / q⌉.toNat 150 hn
      have hb1 : (-150 : ℚ) ≤ (((-(decLog ⌈1 / q⌉.toNat ⌈1 / q⌉.toNat : ℕ) : ℤ)) : ℚ) := by
        have : (-150 : ℤ) ≤ -(decLog ⌈1 / q⌉.toNat ⌈1 / q⌉.toNat : ℕ) := by omega
        exact_mod_cast this
      have hb2 : (((-(decLog ⌈1 / q⌉.toNat ⌈1 / q⌉.toNat : ℕ) : ℤ)) : ℚ) ≤ 0 := by
        have : -((decLog ⌈1 / q⌉.toNat ⌈1 / q⌉.toNat : ℕ) : ℤ) ≤ 0 := by omega
        exact_mod_cast this
      have h150 : IsFloat (-150) := by
        have := isFloat_of_scaled (-150) 0 (by norm_num) (by norm_num) (by norm_num)
        simpa using this
      obtain ⟨hr, -, -, hf⟩ := XFloat.round_between _ (-150) 0 h150 h0 hb1 hb2
      exact ⟨_, hdef.trans hr, hf⟩
  · simp [exFloatLib]
  · simp [exFloatLib]
  · intro q hq
    simp [exFloatLib, hq]
  · intro q hq0 hq
    rcases eq_or_lt_of_le hq0 with hz | hpos
    · subst hz
      exact ⟨0, by simp [exFloatLib], le_refl _, by simp, h0⟩
    · have hqle : q ≤ FLT_MAX := (abs_le.mp hq.2).2
      have hdef : exFloatLib.sqrtf (.fin q) = XFloat.round ((Nat.sqrt ⌈q⌉.toNat : ℕ) : ℚ) := by
        simp [exFloatLib, not_lt.mpr hpos.le, hpos.ne']
      have hc1 : (1 : ℤ) ≤ ⌈q⌉ := Int.one_le_ceil_iff.mpr hpos
      have hk : 0 < ⌈q⌉.toNat := by omega
      have hs1 : 1 ≤ Nat.sqrt ⌈q⌉.toNat := Nat.sqrt_pos.mpr hk
      have hs2 : Nat.sqrt ⌈q⌉.toNat ≤ ⌈q⌉.toNat := Nat.sqrt_le_self _
      have hcF : ⌈q⌉ ≤ 2 ^ 128 - 2 ^ 104 := by
        apply Int.ceil_le.mpr
        rw [← hFint]
        exact hqle
      have hb1 : (1 : ℚ) ≤ ((Nat.sqrt ⌈q⌉.toNat : ℕ) : ℚ) := by exact_mod_cast hs1
      have hb2 : ((Nat.sqrt ⌈q⌉.toNat : ℕ) : ℚ) ≤ FLT_MAX := by
        have : ((Nat.sqrt ⌈q⌉.toNat : ℕ) : ℤ) ≤ 2 ^ 128 - 2 ^ 104 := by omega
        rw [hFint]
        exact_mod_cast this
      obtain ⟨hr, hlo, -, hf⟩ := XFloat.round_between _ 1 FLT_MAX h1 hmax hb1 hb2
      refine ⟨_, hdef.trans hr, by linarith, ?_, hf⟩
      constructor
      · intro h
        linarith
      · intro h
        exact absurd h hpos.ne'
  · simp [exFloatLib]

/-- The negative of a finite `float` is a finite `float`. -/
theorem isFloat_neg (q : ℚ) (hq : IsFloat q) : IsFloat (-q) := by
  obtain ⟨⟨m, e, he, hm, rfl⟩, hb⟩ := hq
  refine ⟨⟨-m, e, he, by rwa [abs_neg], by push_cast; ring⟩, by rwa [abs_neg]⟩

/-- The `float` next above 1 is `1 + 2^-23`. -/
theorem isFloat_gt_one (g : ℚ) (hg : IsFloat g) (h1 : 1 < g) : 1 + (2 : ℚ) ^ (-23 : ℤ) ≤ g := by
  obtain ⟨⟨m, e, -, hm, rfl⟩, -⟩ := hg
  have hp : (0 : ℚ) < 2 ^ e := by positivity
  have hmq : |(m : ℚ)| < 2 ^ 24 := by exact_mod_cast hm
  by_cases he : -23 ≤ e
  · have hk : (0 : ℤ) ≤ e + 23 := by omega
    have hint : (m : ℚ) * 2 ^ e = ((m * 2 ^ (e + 23).toNat : ℤ) : ℚ) * 2 ^ (-23 : ℤ) := by
      push_cast
      rw [mul_assoc, ← zpow_natCast, Int.toNat_of_nonneg hk, ← zpow_add₀ (by norm_num)]
      congr 2
      ring
    rw [hint] at h1 ⊢
    set n : ℤ := m * 2 ^ (e + 23).toNat
    have h23 : (0 : ℚ) < 2 ^ (-23 : ℤ) := by positivity
    have e23 : (2 : ℚ) ^ (23 : ℕ) * 2 ^ (-23 : ℤ) = 1 := by
      rw [← zpow_natCast, ← zpow_add₀ (by norm_num)]
      norm_num
    have hn : (2 : ℚ) ^ (23 : ℕ) < n := by
      by_contra hle
      push_neg at hle
      have : (n : ℚ) * 2 ^ (-23 : ℤ) ≤ 2 ^ (23 : ℕ) * 2 ^ (-23 : ℤ) :=
        mul_le_mul_of_nonneg_right hle h23.le
      linarith
    have hn' : (2 : ℤ) ^ 23 + 1 ≤ n := by
      have : (2 : ℤ) ^ 23 < n := by exact_mod_cast hn
      omega
    have hnq : (2 : ℚ) ^ (23 : ℕ) + 1 ≤ n := by exact_mod_cast hn'
    have : ((2 : ℚ) ^ (23 : ℕ) + 1) * 2 ^ (-23 : ℤ) ≤ (n : ℚ) * 2 ^ (-23 : ℤ) :=
      mul_le_mul_of_nonneg_right hnq h23.le
    linarith
  · exfalso
    push_neg at he
    have he' : e ≤ -24 := by omega
    have hpe : (2 : ℚ) ^ e ≤ 2 ^ (-24 : ℤ) := zpow_le_zpow_right₀ (by norm_num) he'
    have e24 : (2 : ℚ) ^ (24 : ℕ) * 2 ^ (-24 : ℤ) = 1 := by
      rw [← zpow_natCast, ← zpow_add₀ (by norm_num)]
      norm_num
    have hle : (m : ℚ) ≤ 2 ^ (24 : ℕ) := (le_abs_self _).trans hmq.le
    have : (m : ℚ) * 2 ^ e ≤ 2 ^ (24 : ℕ) * 2 ^ (-24 : ℤ) := by
      by_cases hm0 : (m : ℚ) ≤ 0
      · have : (m : ℚ) * 2 ^ e ≤ 0 := mul_nonpos_of_nonpos_of_nonneg hm0 hp.le
        linarith
      · push_neg at hm0
        exact mul_le_mul hle hpe hp.le (by positivity)
    linarith

/-- When the low-frequency room level is negative and the high-frequency gain
`powf(10, RoomHF/2000.f)` is a finite `float` above 1, the high cut handed to
the engine is NaN: `(1 - HFGain)/HFGain` is negative, its square root is NaN,
and `clamp<float>` hands NaN through. -/
theorem HighCut_nan (L : FloatLib) (props : REVERB_PROPERTIES) (g : ℚ)
    (hsqrt : ∀ q : ℚ, q < 0 → L.sqrtf (.fin q) = .nan)
    (hLF : props.RoomLF < 0)
    (hgain : L.powf (.fin 10) (XFloat.div (XFloat.ofInt props.RoomHF) (.fin 2000)) = .fin g)
    (hg : IsFloat g) (hg1 : 1 < g) :
    (SetSystemReverbProperties L props).HighCut = .nan := by
  have hgrid := isFloat_gt_one g hg hg1
  have hgF : g ≤ FLT_MAX := (abs_le.mp hg.2).2
  have h23 : IsFloat (-(2 : ℚ) ^ (-23 : ℤ)) := by
    have := isFloat_of_scaled (-1) (-23) (by norm_num) (by norm_num) (by norm_num)
    have e : ((-1 : ℤ) : ℚ) * 2 ^ (-23 : ℤ) = -2 ^ (-23 : ℤ) := by norm_num
    rwa [e] at this
  have h25 : IsFloat (-(2 : ℚ) ^ (-25 : ℤ)) := by
    have := isFloat_of_scaled (-1) (-25) (by norm_num) (by norm_num) (by norm_num)
    have e : ((-1 : ℤ) : ℚ) * 2 ^ (-25 : ℤ) = -2 ^ (-25 : ℤ) := by norm_num
    rwa [e] at this
  have hm1 : IsFloat (-1) := isFloat_neg 1 isFloat_consts.2.2.2
  have hgpos : (0 : ℚ) < g := by linarith
  -- the difference `1 - HFGain`
  obtain ⟨hr1, hy1, hy2, -⟩ := XFloat.round_between (1 - g) (-g) (-(2 : ℚ) ^ (-23 : ℤ))
    (isFloat_neg g hg) h23 (by linarith) (by linarith)
  have hnear : |f32 (1 - g) - (1 - g)| ≤ |(-g) - (1 - g)| :=
    fround_nearest 24 (-149) (1 - g) (-g) (isFloat_neg g hg).1
  have hnear' : f32 (1 - g) ≤ 2 - g := by
    have e : (-g) - (1 - g) = -1 := by ring
    rw [e, abs_neg, abs_one] at hnear
    have := (abs_le.mp hnear).2
    linarith
  -- the quotient `(1 - HFGain)/HFGain`
  have hq1 : -1 ≤ f32 (1 - g) / g := by
    rw [le_div_iff₀ hgpos]
    linarith
  have e25 : (2 : ℚ) ^ (-25 : ℤ) = 2 ^ (-23 : ℤ) / 4 := by
    rw [show (-25 : ℤ) = -23 + -2 by norm_num, zpow_add₀ (by norm_num)]
    norm_num
  have h23pos : (0 : ℚ) < 2 ^ (-23 : ℤ) := by positivity
  have h23le : (2 : ℚ) ^ (-23 : ℤ) ≤ 1 := zpow_le_one_of_nonpos₀ (by norm_num) (by norm_num)
  have hq2 : f32 (1 - g) / g ≤ -(2 : ℚ) ^ (-25 : ℤ) := by
    rw [div_le_iff₀ hgpos, e25]
    have key : ∀ t f : ℚ, 0 < t → t ≤ 1 → f ≤ -t → f ≤ 2 - g → f ≤ -(t / 4) * g := by
      intro t f ht0 ht1 hf1 hf2
      by_cases h4 : g ≤ 4
      · have := mul_nonneg ht0.le (sub_nonneg.mpr h4)
        linarith
      · push_neg at h4
        have := mul_nonneg (sub_nonneg.mpr ht1) (sub_nonneg.mpr h4.le)
        linarith
    exact key _ _ h23pos h23le hy2 hnear'
  obtain ⟨hr2, -, hz2, -⟩ := XFloat.round_between (f32 (1 - g) / g) (-1)
    (-(2 : ℚ) ^ (-25 : ℤ)) hm1 h25 hq1 hq2
  have hzneg : f32 (f32 (1 - g) / g) < 0 := by
    have : (0 : ℚ) < 2 ^ (-25 : ℤ) := by positivity
    linarith
  have hquot : XFloat.div (XFloat.sub (.fin 1) (.fin g)) (.fin g)
      = .fin (f32 (f32 (1 - g) / g)) := by
    simp only [XFloat.sub, hr1, XFloat.div, hgpos.ne', if_false, hr2]
  have hLF' : (props.RoomLF < 0) = True := eq_true hLF
  simp only [SetSystemReverbProperties, hgain, hquot, hsqrt _ hzneg, hLF', if_true]
  exact clampf_nan 20 20000

/-- The `float` next below 1 is `1 - 2^-24`. -/
theorem isFloat_lt_one (g : ℚ) (hg : IsFloat g) (h1 : g < 1) : g ≤ 1 - (2 : ℚ) ^ (-24 : ℤ) := by
  obtain ⟨⟨m, e, -, hm, rfl⟩, -⟩ := hg
  have hp : (0 : ℚ) < 2 ^ e := by positivity
  have hmq : |(m : ℚ)| < 2 ^ 24 := by exact_mod_cast hm
  have h24 : (0 : ℚ) < 2 ^ (-24 : ℤ) := by positivity
  have e24 : (2 : ℚ) ^ (24 : ℕ) * 2 ^ (-24 : ℤ) = 1 := by
    rw [← zpow_natCast, ← zpow_add₀ (by norm_num)]
    norm_num
  by_cases he : -24 ≤ e
  · have hk : (0 : ℤ) ≤ e + 24 := by omega
    have hint : (m : ℚ) * 2 ^ e = ((m * 2 ^ (e + 24).toNat : ℤ) : ℚ) * 2 ^ (-24 : ℤ) := by
      push_cast
      rw [mul_assoc, ← zpow_natCast, Int.toNat_of_nonneg hk, ← zpow_add₀ (by norm_num)]
      congr 2
      ring
    rw [hint] at h1 ⊢
    set n : ℤ := m * 2 ^ (e + 24).toNat
    have hn : (n : ℚ) < 2 ^ (24 : ℕ) := by
      by_contra hle
      push_neg at hle
      have : (2 : ℚ) ^ (24 : ℕ) * 2 ^ (-24 : ℤ) ≤ (n : ℚ) * 2 ^ (-24 : ℤ) :=
        mul_le_mul_of_nonneg_right hle h24.le
      linarith
    have hn' : n ≤ 2 ^ 24 - 1 := by
      have : n < (2 : ℤ) ^ 24 := by exact_mod_cast hn
      omega
    have hnq : (n : ℚ) ≤ 2 ^ (24 : ℕ) - 1 := by exact_mod_cast hn'
    have : (n : ℚ) * 2 ^ (-24 : ℤ) ≤ ((2 : ℚ) ^ (24 : ℕ) - 1) * 2 ^ (-24 : ℤ) :=
      mul_le_mul_of_nonneg_right hnq h24.le
    linarith
  · push_neg at he
    have he' : e ≤ -25 := by omega
    have hpe : (2 : ℚ) ^ e ≤ 2 ^ (-25 : ℤ) := zpow_le_zpow_right₀ (by norm_num) he'
    have e25 : (2 : ℚ) ^ (-25 : ℤ) = 2 ^ (-24 : ℤ) / 2 := by
      rw [show (-25 : ℤ) = -24 + -1 by norm_num, zpow_add₀ (by norm_num)]
      norm_num
    have hle : (m : ℚ) ≤ 2 ^ (24 : ℕ) := (le_abs_self _).trans hmq.le
    have h24le : (2 : ℚ) ^ (-24 : ℤ) ≤ 1 / 4 := by
      have : (2 : ℚ) ^ (-24 : ℤ) ≤ 2 ^ (-2 : ℤ) := zpow_le_zpow_right₀ (by norm_num) (by norm_num)
      have e2 : (2 : ℚ) ^ (-2 : ℤ) = 1 / 4 := by norm_num
      linarith
    have : (m : ℚ) * 2 ^ e ≤ 2 ^ (24 : ℕ) * 2 ^ (-25 : ℤ) := by
      by_cases hm0 : (m : ℚ) ≤ 0
      · have h0 : (m : ℚ) * 2 ^ e ≤ 0 := mul_nonpos_of_nonpos_of_nonneg hm0 hp.le
        have : (0 : ℚ) ≤ 2 ^ (24 : ℕ) * 2 ^ (-25 : ℤ) := by positivity
        linarith
      · push_neg at hm0
        exact mul_le_mul hle hpe hp.le (by positivity)
    rw [e25] at this
    linarith

/-- The parts of the high cut and the low shelf gain that are in range: the
low shelf gain is `RoomLF/100.f` passed through `clamp<float>(.., -48, 12)`
and lies in `[-48, 12]`; the high cut is exactly 20000 when `RoomLF >= 0`; and
when `RoomLF < 0` and the high-frequency gain is a `float` strictly between 0
and 1 (as it is for a negative `RoomHF` that does not underflow), the high cut
lies in `[20, 20000]`. -/
theorem HighCut_in_range (L : FloatLib) (props : REVERB_PROPERTIES)
    (hL : FloatLibFacts L) (hLFint : IsInt32 props.RoomLF) :
    ((SetSystemReverbProperties L props).LowShelfGain
        = clampf (XFloat.div (XFloat.ofInt props.RoomLF) (.fin 100)) (-48) 12
      ∧ ∃ w, (SetSystemReverbProperties L props).LowShelfGain = .fin w ∧ -48 ≤ w ∧ w ≤ 12)
    ∧ (0 ≤ props.RoomLF → (SetSystemReverbProperties L props).HighCut = .fin 20000)
    ∧ (∀ g : ℚ, props.RoomLF < 0 →
        L.powf (.fin 10) (XFloat.div (XFloat.ofInt props.RoomHF) (.fin 2000)) = .fin g →
        IsFloat g → 0 < g → g < 1 →
        ∃ w, (SetSystemReverbProperties L props).HighCut = .fin w ∧ 20 ≤ w ∧ w ≤ 20000) := by
  refine ⟨⟨rfl, ?_⟩, ?_, ?_⟩
  · obtain ⟨r, hr, -, -, -⟩ := XFloat.ofInt_div props.RoomLF 100 hLFint.1 hLFint.2
      (by norm_num)
    simp only [SetSystemReverbProperties, hr]
    exact clampf_range _ (-48) 12 (by simp) (by norm_num)
  · intro hLF
    have hLF' : ¬ props.RoomLF < 0 := not_lt.mpr hLF
    simp only [SetSystemReverbProperties, hLF', if_false]
    simp [clampf, XFloat.le]
    norm_num
  · intro g hLF hgain hg hg0 hg1
    obtain ⟨-, -, hf0, hf1⟩ := isFloat_consts
    have hgrid := isFloat_lt_one g hg hg1
    have h24 : IsFloat ((2 : ℚ) ^ (-24 : ℤ)) := by
      have := isFloat_of_scaled 1 (-24) (by norm_num) (by norm_num) (by norm_num)
      have e : ((1 : ℤ) : ℚ) * 2 ^ (-24 : ℤ) = 2 ^ (-24 : ℤ) := by norm_num
      rwa [e] at this
    have h24pos : (0 : ℚ) < 2 ^ (-24 : ℤ) := by positivity
    obtain ⟨hr1, hy1, hy2, -⟩ := XFloat.round_between (1 - g) ((2 : ℚ) ^ (-24 : ℤ)) 1 h24 hf1
      (by linarith) (by linarith)
    have hquotpos : (2 : ℚ) ^ (-24 : ℤ) ≤ f32 (1 - g) / g := by
      rw [le_div_iff₀ hg0]
      nlinarith
    have hz : (2 : ℚ) ^ (-24 : ℤ) ≤ f32 (f32 (1 - g) / g) := by
      have := f32_mono _ _ hquotpos
      rwa [f32_of_isFloat _ h24] at this
    have hne : XFloat.div (.fin props.HFReference)
        (L.sqrtf (XFloat.div (XFloat.sub (.fin 1) (.fin g)) (.fin g))) ≠ .nan := by
      have hquot : XFloat.div (XFloat.sub (.fin 1) (.fin g)) (.fin g)
          = XFloat.round (f32 (1 - g) / g) := by
        simp only [XFloat.sub, hr1, XFloat.div, hg0.ne', if_false]
      rw [hquot]
      rcases XFloat.round_cases (f32 (1 - g) / g) with ⟨hr2, hzf⟩ | ⟨hr2, -⟩
      · rw [hr2]
        obtain ⟨s, hs, hs0, hsz, -⟩ := hL.sqrtf_nonneg _ (by linarith) hzf
        rw [hs]
        have hsne : s ≠ 0 := by
          intro h
          have := hsz.mp h
          linarith
        simp only [XFloat.div, hsne, if_false]
        exact XFloat.round_ne_nan _
      · rw [hr2]
        have : ¬ (f32 (1 - g) / g < 0) := by
          push_neg
          linarith
        simp only [this, decide_False, hL.sqrtf_inf, XFloat.div]
        simp
    have hLF' : (props.RoomLF < 0) = True := eq_true hLF
    simp only [SetSystemReverbProperties, hgain, hLF', if_true]
    exact clampf_range _ 20 20000 hne (by norm_num)

/-- C24 (the code at the failing input): with `RoomHF = 2000`, so that the
high-frequency gain is `powf(10, 1) = 10`, and `RoomLF = -100`, the quotient
`(1 - HFGain)/HFGain` is `-0.9f`, its square root is NaN, and the high cut
handed to the engine is NaN, which is not in `[20, 20000]`. The low shelf gain
is -1, and with `RoomLF = 0` instead the high cut is 20000. -/
theorem C24_high_cut_nan :
    (SetSystemReverbProperties exFloatLib (exReverb (-1000) 2000 (-100) (-2602) 200)).HighCut
      = .nan
    ∧ exFloatLib.powf (.fin 10) (XFloat.div (XFloat.ofInt 2000) (.fin 2000)) = .fin 10
    ∧ XFloat.div (XFloat.sub (.fin 1) (.fin 10)) (.fin 10) = .fin (f32 (-9 / 10))
    ∧ (SetSystemReverbProperties exFloatLib
        (exReverb (-1000) 2000 (-100) (-2602) 200)).LowShelfGain = .fin (-1)
    ∧ (SetSystemReverbProperties exFloatLib (exReverb (-1000) 2000 0 (-2602) 200)).HighCut
      = .fin 20000 := by
  refine ⟨by decide!, by decide!, by decide!, by decide!, by decide!⟩

/-- Two roundings at the edges of the `float` format: one more than the
largest `float` rounds to the largest `float`, and `1 + 2^-24`, half-way
between 1 and the next `float`, rounds to 1. -/
theorem f32_edge_consts :
    f32 (FLT_MAX + 1) = FLT_MAX ∧ f32 (1 + 2 ^ (-24 : ℤ)) = 1 := by
  refine ⟨by decide!, by decide!⟩

/-- The quotient `r/(r + 1)` times 100 in `float` arithmetic, for a positive
finite `float` `r`: a finite value above 0 and at most 100. -/
theorem mix_of_positive_ratio (q : ℚ) (hq : IsFloat q) (hpos : 0 < q) :
    ∃ m, XFloat.mul (XFloat.div (.fin q) (XFloat.add (.fin q) (.fin 1))) (.fin 100) = .fin m
      ∧ 0 < m ∧ m ≤ 100 := by
  obtain ⟨hmax, -, hf0, hf1⟩ := isFloat_consts
  obtain ⟨hc1, hc2⟩ := f32_edge_consts
  have hqF : q ≤ FLT_MAX := (abs_le.mp hq.2).2
  have h149 : IsFloat ((2 : ℚ) ^ (-149 : ℤ)) := by
    have := isFloat_of_scaled 1 (-149) (by norm_num) (by norm_num) (by norm_num)
    have e : ((1 : ℤ) : ℚ) * 2 ^ (-149 : ℤ) = 2 ^ (-149 : ℤ) := by norm_num
    rwa [e] at this
  have h100 : IsFloat 100 := by
    have := isFloat_of_scaled 100 0 (by norm_num) (by norm_num) (by norm_num)
    simpa using this
  have hq149 := isFloat_pos_ge q hq hpos
  have p149 : (0 : ℚ) < 2 ^ (-149 : ℤ) := by positivity
  -- the sum `r + 1`
  have hs1 : 1 ≤ f32 (q + 1) := by
    have := f32_mono 1 (q + 1) (by linarith)
    rwa [f32_of_isFloat 1 hf1] at this
  have hs2 : f32 (q + 1) ≤ FLT_MAX := by
    have := f32_mono (q + 1) (FLT_MAX + 1) (by linarith)
    rwa [hc1] at this
  have hs3 : q ≤ f32 (q + 1) := by
    have := f32_mono q (q + 1) (by linarith)
    rwa [f32_of_isFloat q hq] at this
  have hspos : (0 : ℚ) < f32 (q + 1) := by linarith
  have hsum : XFloat.add (.fin q) (.fin 1) = .fin (f32 (q + 1)) := by
    have hb : ¬ FLT_MAX < |f32 (q + 1)| := by
      rw [abs_of_pos hspos]
      exact not_lt.mpr hs2
    simp only [XFloat.add, XFloat.round, hb, if_false]
  -- the quotient `r / (r + 1)`
  have hquot_le : q / f32 (q + 1) ≤ 1 := by
    rw [div_le_iff₀ hspos]
    linarith
  have hquot_ge : (2 : ℚ) ^ (-149 : ℤ) ≤ q / f32 (q + 1) := by
    rw [le_div_iff₀ hspos]
    by_cases hsmall : q ≤ 2 ^ (-24 : ℤ)
    · have hle : f32 (q + 1) ≤ 1 := by
        have := f32_mono (q + 1) (1 + 2 ^ (-24 : ℤ)) (by linarith)
        rwa [hc2] at this
      have : f32 (q + 1) = 1 := le_antisymm hle hs1
      rw [this]
      linarith
    · push_neg at hsmall
      have hnear : |f32 (q + 1) - (q + 1)| ≤ |q - (q + 1)| :=
        fround_nearest 24 (-149) (q + 1) q hq.1
      have e : q - (q + 1) = -1 := by ring
      rw [e, abs_neg, abs_one] at hnear
      have hs4 : f32 (q + 1) ≤ q + 2 := by
        have := (abs_le.mp hnear).2
        linarith
      have hle1 : (2 : ℚ) ^ (-149 : ℤ) ≤ 2 ^ (-26 : ℤ) :=
        zpow_le_zpow_right₀ (by norm_num) (by norm_num)
      have e26 : (2 : ℚ) ^ (-26 : ℤ) = 2 ^ (-24 : ℤ) / 4 := by
        rw [show (-26 : ℤ) = -24 + -2 by norm_num, zpow_add₀ (by norm_num)]
        norm_num
      have p24 : (0 : ℚ) < 2 ^ (-24 : ℤ) := by positivity
      have h24le : (2 : ℚ) ^ (-24 : ℤ) ≤ 1 := zpow_le_one_of_nonpos₀ (by norm_num) (by norm_num)
      have key : ∀ t s : ℚ, 0 < t → t ≤ 1 → t < q → 0 < s → s ≤ q + 2 → t / 4 * s ≤ q := by
        intro t s ht0 ht1 htq hs0 hs
        have h1 : t / 4 * s ≤ t / 4 * (q + 2) :=
          mul_le_mul_of_nonneg_left hs (by linarith)
        have h2 : t / 4 * (q + 2) ≤ q := by nlinarith
        linarith
      have := key _ _ p24 h24le hsmall hspos hs4
      rw [← e26] at this
      calc (2 : ℚ) ^ (-149 : ℤ) * f32 (q + 1) ≤ 2 ^ (-26 : ℤ) * f32 (q + 1) :=
            mul_le_mul_of_nonneg_right hle1 hspos.le
        _ ≤ q := this
  obtain ⟨hr2, ht1, ht2, -⟩ := XFloat.round_between (q / f32 (q + 1)) _ 1 h149 hf1
    hquot_ge hquot_le
  -- the product by 100
  have hprod_ge : (2 : ℚ) ^ (-149 : ℤ) ≤ f32 (q / f32 (q + 1)) * 100 := by nlinarith
  have hprod_le : f32 (q / f32 (q + 1)) * 100 ≤ 100 := by nlinarith
  obtain ⟨hr3, hm1, hm2, -⟩ := XFloat.round_between _ _ 100 h149 h100 hprod_ge hprod_le
  refine ⟨_, ?_, by linarith, hm2⟩
  simp only [hsum, XFloat.div, hspos.ne', if_false, hr2, XFloat.mul, hr3]

/-- The test `props->Reflections > -10000.f` on an `int`: the conversion to
`float` does not change its outcome. -/
theorem reflections_test (n : ℤ) (hn : IsInt32 n) :
    XFloat.lt (.fin (-10000)) (XFloat.ofInt n) = decide (-10000 < n) := by
  have hF : IsFloat ((2 : ℚ) ^ 31) := by
    have := isFloat_of_scaled 1 31 (by norm_num) (by norm_num) (by norm_num)
    have e : ((1 : ℤ) : ℚ) * 2 ^ (31 : ℤ) = 2 ^ 31 := by norm_num
    rwa [e] at this
  have hF' : IsFloat (-(2 : ℚ) ^ 31) := isFloat_neg _ hF
  have ha : IsFloat (-10000) := by
    have := isFloat_of_scaled (-10000) 0 (by norm_num) (by norm_num) (by norm_num)
    simpa using this
  have hb : IsFloat (-9999) := by
    have := isFloat_of_scaled (-9999) 0 (by norm_num) (by norm_num) (by norm_num)
    simpa using this
  have hq1 : (-(2 : ℚ) ^ 31) ≤ (n : ℚ) := by exact_mod_cast hn.1
  have hq2 : (n : ℚ) ≤ 2 ^ 31 := by exact_mod_cast hn.2.le
  obtain ⟨hr, -, -, -⟩ := XFloat.round_between (n : ℚ) _ _ hF' hF hq1 hq2
  simp only [XFloat.ofInt, hr, XFloat.lt]
  by_cases h : -10000 < n
  · have h1 : (-9999 : ℚ) ≤ (n : ℚ) := by
      have : (-9999 : ℤ) ≤ n := by omega
      exact_mod_cast this
    have := f32_mono _ _ h1
    rw [f32_of_isFloat _ hb] at this
    have h2 : (-10000 : ℚ) < f32 n := by linarith
    simp [h, h2]
  · have h1 : (n : ℚ) ≤ -10000 := by
      have : n ≤ -10000 := by omega
      exact_mod_cast this
    have := f32_mono _ _ h1
    rw [f32_of_isFloat _ ha] at this
    simp [h, not_lt.mpr this]

/-- C22 (counterexample): with `Reflections = 0` and `Reverb = -200000` the
ratio is `powf(10, -100)`; `10^-100` is below half the smallest positive
`float` and rounds to 0, and the mix is `0/(0 + 1)*100 = 0`, which is not in
`(0, 100]`. With `Reverb = 200000` the ratio is `+∞` and the mix is NaN. -/
theorem C22_counterexample :
    (SetSystemReverbProperties exFloatLib (exReverb (-1000) (-100) 0 0 (-200000))).EarlyLateMix
      = .fin 0
    ∧ XFloat.div (XFloat.ofInt (-200000 - 0)) (.fin 2000) = .fin (-100)
    ∧ XFloat.round ((10 : ℚ) ^ (-100 : ℤ)) = .fin 0
    ∧ (SetSystemReverbProperties exFloatLib (exReverb (-1000) (-100) 0 0 200000)).EarlyLateMix
      = .nan := by
  refine ⟨by decide!, by decide!, by decide!, by decide!⟩

/-- C22 (amended): for an `int` `Reflections`, the early/late mix is exactly
100 when `Reflections <= -10000`, and otherwise it is `r/(r + 1)*100` in
`float` arithmetic with `r = powf(10, (Reverb - Reflections)/2000.f)`. When `r`
is a positive finite `float` the mix is a finite value in `(0, 100]`; when `r`
is 0 (the power underflows) the mix is 0, and when `r` is `+∞` (the power
overflows) the mix is NaN. -/
theorem C22_early_late_mix (L : FloatLib) (props : REVERB_PROPERTIES)
    (hReflections : IsInt32 props.Reflections) :
    (props.Reflections ≤ -10000 →
      (SetSystemReverbProperties L props).EarlyLateMix = .fin 100)
    ∧ (-10000 < props.Reflections →
        (SetSystemReverbProperties L props).EarlyLateMix
          = XFloat.mul
              (XFloat.div
                (L.powf (.fin 10)
                  (XFloat.div (XFloat.ofInt (props.Reverb - props.Reflections)) (.fin 2000)))
                (XFloat.add
                  (L.powf (.fin 10)
                    (XFloat.div (XFloat.ofInt (props.Reverb - props.Reflections)) (.fin 2000)))
                  (.fin 1)))
              (.fin 100)
        ∧ (∀ q : ℚ,
            L.powf (.fin 10)
              (XFloat.div (XFloat.ofInt (props.Reverb - props.Reflections)) (.fin 2000))
              = .fin q →
            IsFloat q → 0 < q →
            ∃ m, (SetSystemReverbProperties L props).EarlyLateMix = .fin m ∧ 0 < m ∧ m ≤ 100)
        ∧ (L.powf (.fin 10)
              (XFloat.div (XFloat.ofInt (props.Reverb - props.Reflections)) (.fin 2000))
              = .fin 0 →
            (SetSystemReverbProperties L props).EarlyLateMix = .fin 0)
        ∧ (L.powf (.fin 10)
              (XFloat.div (XFloat.ofInt (props.Reverb - props.Reflections)) (.fin 2000))
              = .inf false →
            (SetSystemReverbProperties L props).EarlyLateMix = .nan)) := by
  have htest := reflections_test props.Reflections hReflections
  constructor
  · intro h
    have : ¬ (-10000 < props.Reflections) := by omega
    simp only [SetSystemReverbProperties, htest, this, decide_False, Bool.false_eq_true,
      if_false]
  · intro h
    have heq : (SetSystemReverbProperties L props).EarlyLateMix
        = XFloat.mul
            (XFloat.div
              (L.powf (.fin 10)
                (XFloat.div (XFloat.ofInt (props.Reverb - props.Reflections)) (.fin 2000)))
              (XFloat.add
                (L.powf (.fin 10)
                  (XFloat.div (XFloat.ofInt (props.Reverb - props.Reflections)) (.fin 2000)))
                (.fin 1)))
            (.fin 100) := by
      simp only [SetSystemReverbProperties, htest, h, decide_True, if_true]
    refine ⟨heq, ?_, ?_, ?_⟩
    · intro q hr hq hpos
      rw [heq, hr]
      exact mix_of_positive_ratio q hq hpos
    · intro hr
      rw [heq, hr]
      decide!
    · intro hr
      rw [heq, hr]
      rfl

/-- C22 (witness): the reverb properties of the examples, `Reflections =
-2602` and `Reverb = 200`; the ratio is `powf(10, 1.401f)`, which the library
of the examples gives as 10, and the mix is `10/11*100` in `float`
arithmetic. -/
theorem C22_early_late_mix_witness :
    ∃ m, (SetSystemReverbProperties exFloatLib exProps).EarlyLateMix = .fin m
      ∧ 0 < m ∧ m ≤ 100 := by
  have h := (C22_early_late_mix exFloatLib exProps ⟨by decide, by decide⟩).2 (by decide)
  exact h.2.1 10 (by decide!)
    (by
      have := isFloat_of_scaled 10 0 (by norm_num) (by norm_num) (by norm_num)
      simpa using this)
    (by norm_num)

/-- C23 (witness): the reverb properties of the examples. -/
theorem C23_wet_level_range_witness :
    ∃ w, (SetSystemReverbProperties exFloatLib exProps).WetLevel = .fin w
      ∧ -80 ≤ w ∧ w ≤ 20 :=
  (C23_wet_level_range exFloatLib exProps exFloatLib_facts ⟨by decide, by decide⟩
    ⟨by decide, by decide⟩ ⟨by decide, by decide⟩).2

/-- The structure `SetSystemReverbProperties` fills for a neutral property set
(all levels 0) with the library of the examples: the sum of powers is 2, whose
logarithm the library gives as 0, so the wet level is 0; the ratio is 1 and
the mix 50; and for levels so low that both powers underflow the logarithm is
`-∞` and the wet level is clamped to -80. -/
theorem SetSystemReverbProperties_examples :
    SetSystemReverbProperties exFloatLib (exReverb 0 0 0 0 0)
      = { DecayTime := .fin 1490, EarlyDelay := .fin 7, LateDelay := .fin 11,
          HFReference := .fin 5000, HFDecayRatio := .fin 83, Diffusion := .fin 100,
          Density := .fin 100, LowShelfFrequency := .fin 1, LowShelfGain := .fin 0,
          HighCut := .fin 20000, EarlyLateMix := .fin 50, WetLevel := .fin 0 }
    ∧ (SetSystemReverbProperties exFloatLib
        (exReverb 0 0 0 (-200000) (-200000))).WetLevel = .fin (-80)
    ∧ (SetSystemReverbProperties exFloatLib
        (exReverb 0 0 0 200000 200000)).WetLevel = .fin 20
    ∧ (SetSystemReverbProperties exFloatLib
        (exReverb 0 (-2000) (-100) 0 0)).HighCut = .fin (13653333 / 8192) := by
  refine ⟨by decide!, by decide!, by decide!, by decide!⟩

end FMODSound
